import Mathlib

/-! Compressor controller (ESP32) : control and safety supervisor.

Shallow embedding of `src/main.cpp`.

Modelling conventions
* `unsigned long` and `unsigned int` are 32 bits wide on the ESP32: they are
  natural numbers and every increment, product and difference is reduced
  modulo `2 ^ 32`.
* `float` values (temperatures) are rationals and their comparisons are
  exact.  The one arithmetic operation on them, `temperaturaMaxima - 5.0`, is
  carried out in `double` and its result is rounded to the nearest `double`
  (`tetoMenosCinco`).  NaN, infinities and the exponent range of the formats
  are outside the model.
* `millis()` is read once per operation: an operation running at time `t`
  (milliseconds since boot) sees `millis t = t % 2 ^ 32` at each of its
  `millis()` calls.
* The global variables of the sketch are the fields of `State`.  Three more
  fields record the outside world: the level of the relay pin, the list of
  levels written to it, and the content of the non-volatile store together
  with the number of times it was written.
* `Serial` output and the WiFi / HTTP plumbing are not modelled; an HTTP
  handler returns the new state and a value of `Resposta` naming the text
  it sends.
-/

namespace Compressor

/-! ## Machine integers and constants -/

/-- Number of values of a 32-bit unsigned integer. -/
def U32 : Nat := 4294967296

/-- Value returned by `millis()` at time `t` (milliseconds since boot). -/
def millis (t : Nat) : Nat := t % U32

/-- Unsigned 32-bit subtraction `a - b`. -/
def subU32 (a b : Nat) : Nat := (a % U32 + U32 - b % U32) % U32

/-- Unsigned 32-bit increment `a++`. -/
def incU32 (a : Nat) : Nat := (a + 1) % U32

/-- Pin level `HIGH`. -/
def HIGH : Bool := true

/-- Pin level `LOW`. -/
def LOW : Bool := false

/-- Constant `SAVE_INTERVAL = 60000UL`. -/
def SAVE_INTERVAL : Nat := 60000

/-- Constant `TAMANHO_HISTORICO_ENCHIMENTO = 5`. -/
def TAMANHO_HISTORICO_ENCHIMENTO : Nat := 5

/-- Global `sensorEnabled`, initialised to `true` and never assigned. -/
def sensorEnabled : Bool := true

/-- Constant `DEVICE_DISCONNECTED_C` of the DallasTemperature library
(`-127`), the value `getTempCByIndex` returns for a missing sensor. -/
def DEVICE_DISCONNECTED_C : ℚ := -127

/-! ## Floating point -/

/-- Nearest integer to `x`, a tie going to the even neighbour. -/
def arredondarParaPar (x : ℚ) : ℤ :=
  if x - ⌊x⌋ < 1 / 2 then ⌊x⌋
  else if 1 / 2 < x - ⌊x⌋ then ⌊x⌋ + 1
  else if ⌊x⌋ % 2 = 0 then ⌊x⌋
  else ⌊x⌋ + 1

/-- Result of a `double` operation whose exact result is `x`: the nearest
number with a 53-bit significand (IEEE-754 binary64, round to nearest, ties
to even).  `Int.log 2 |x|` is the exponent `e` with `2 ^ e ≤ |x| < 2 ^ (e + 1)`,
so the significand is counted in units of `2 ^ (e - 52)`. -/
def paraDouble (x : ℚ) : ℚ :=
  if x = 0 then 0
  else arredondarParaPar (x / 2 ^ (Int.log 2 |x| - 52)) * 2 ^ (Int.log 2 |x| - 52)

/-- The number is a `double` value: rounding leaves it as it is. -/
def EhDouble (x : ℚ) : Prop := paraDouble x = x

/-- Value of the expression `temperaturaMaxima - 5.0` for the ceiling `c`: the
`float` ceiling is converted to `double` (exactly) and the difference is
rounded to `double`.  Rounding is monotone (`paraDouble_mono`), so for a
ceiling that is a `double` value the rounded difference never exceeds the
ceiling and the minimum is the rounded difference itself
(`tetoMenosCinco_double`); the minimum only gives a value to the rationals
that are not `double` values, which no `float` variable holds. -/
def tetoMenosCinco (c : ℚ) : ℚ := min c (paraDouble (c - 5))

/-! ## Data model -/

/-- Type `struct EnchimentoInfo`. -/
structure EnchimentoInfo where
  tempo : Nat
  ciclosParciais : Nat
deriving DecidableEq, Repr

/-- Slot content after `memset(historicoEnchimento, 0, ...)`. -/
def slotZero : EnchimentoInfo := ⟨0, 0⟩

/-- History after `memset(historicoEnchimento, 0, sizeof(historicoEnchimento))`. -/
def historicoZerado : List EnchimentoInfo :=
  List.replicate TAMANHO_HISTORICO_ENCHIMENTO slotZero

/-- Content of the non-volatile store (namespace `"compressor"`), one field
per key used by the operating configuration; `none` is an absent key. -/
structure Preferences where
  tempoLigado : Option Nat
  tempoDescanso : Option Nat
  tempMaxima : Option ℚ
  ciclosParc : Option Nat
  ciclosEnch : Option Nat
  idxHEnch : Option Int
  hEnchimento : Option (List EnchimentoInfo)
deriving DecidableEq

/-- The global variables of the sketch, the relay pin and the store. -/
structure State where
  tempoLigado : Nat
  tempoDescanso : Nat
  temperaturaMaxima : ℚ
  compressorLigado : Bool
  modoManual : Bool
  caixaCheia : Bool
  temperaturaAtual : ℚ
  ciclosParciaisOperacao : Nat
  ultimoTempoControle : Nat
  ultimoSaveMillis : Nat
  inicioCicloMillis : Nat
  inicioCicloEnchimentoMillis : Nat
  desligadoPorTemperaturaAlta : Bool
  historicoEnchimento : List EnchimentoInfo
  indiceHistoricoEnchimento : Int
  ciclosEnchimentoCompletos : Nat
  ciclosParciaisNesteEnchimento : Nat
  /-- Level of `PINO_RELE_COMPRESSOR` (the relay is energised by `LOW`). -/
  pinoRele : Bool
  /-- Levels written to `PINO_RELE_COMPRESSOR`, oldest first. -/
  escritasRele : List Bool
  /-- Content of the non-volatile store. -/
  preferences : Preferences
  /-- Number of times the operating configuration was written to the store. -/
  gravacoes : Nat
deriving DecidableEq

/-- Text an HTTP handler sends back. -/
inductive Resposta
  /-- Text "Ação bloqueada: A caixa de água já está cheia." -/
  | bloqueadoCaixaCheia
  /-- Text "Ação bloqueada: Aguardando temperatura baixar para religar (cooldown)." -/
  | bloqueadoCooldown
  /-- Text "Ação bloqueada: A temperatura está acima do limite permitido." -/
  | bloqueadoTemperatura
  /-- Text "Compressor ligado manualmente." -/
  | ligadoManualmente
  /-- Text "OK". -/
  | ok
  /-- Text "Configurações salvas!" -/
  | configuracoesSalvas
  /-- Text "Nenhuma alteração válida." -/
  | nenhumaAlteracao
  /-- Text "Todos os contadores e o histórico foram zerados!" -/
  | contadoresZerados
deriving DecidableEq, Repr

/-- A response is a rejection of the command ("Ação bloqueada"). -/
def Resposta.bloqueada : Resposta → Bool
  | .bloqueadoCaixaCheia => true
  | .bloqueadoCooldown => true
  | .bloqueadoTemperatura => true
  | _ => false

/-! ## Relay control -/

/-- Function `ligarCompressor()`. -/
def ligarCompressor (t : Nat) (s : State) : State :=
  if s.compressorLigado = false ∧ s.caixaCheia = false then
    let s1 := { s with
      pinoRele := LOW
      escritasRele := s.escritasRele ++ [LOW]
      compressorLigado := true
      inicioCicloMillis := millis t }
    let s2 :=
      if s1.inicioCicloEnchimentoMillis = 0 ∧ s1.caixaCheia = false then
        { s1 with
          inicioCicloEnchimentoMillis := millis t
          ciclosParciaisNesteEnchimento := 0 }
      else s1
    { s2 with
      ciclosParciaisNesteEnchimento := incU32 s2.ciclosParciaisNesteEnchimento
      ciclosParciaisOperacao := incU32 s2.ciclosParciaisOperacao }
  else s

/-- Function `desligarCompressor()`. -/
def desligarCompressor (s : State) : State :=
  if s.compressorLigado = true then
    { s with
      pinoRele := HIGH
      escritasRele := s.escritasRele ++ [HIGH]
      compressorLigado := false
      inicioCicloMillis := 0 }
  else s

/-! ## Persistence -/

/-- The seven `preferences.put...` calls of `salvarConfiguracoesOperacao`. -/
def gravarPreferences (s : State) : Preferences :=
  { tempoLigado := some s.tempoLigado
    tempoDescanso := some s.tempoDescanso
    tempMaxima := some s.temperaturaMaxima
    ciclosParc := some s.ciclosParciaisOperacao
    ciclosEnch := some s.ciclosEnchimentoCompletos
    idxHEnch := some s.indiceHistoricoEnchimento
    hEnchimento := some s.historicoEnchimento }

/-- Function `salvarConfiguracoesOperacao()`. -/
def salvarConfiguracoesOperacao (t : Nat) (s : State) : State :=
  let now := millis t
  if subU32 now s.ultimoSaveMillis < SAVE_INTERVAL ∧ s.ultimoSaveMillis ≠ 0 then s
  else
    { s with
      preferences := gravarPreferences s
      gravacoes := s.gravacoes + 1
      ultimoSaveMillis := now }

/-- Function `carregarConfiguracoesOperacao()`: every key falls back to its
default when absent; `getBytes` leaves the array as it is when the key is
absent. -/
def carregarConfiguracoesOperacao (s : State) : State :=
  let p := s.preferences
  { s with
    tempoLigado := p.tempoLigado.getD s.tempoLigado
    tempoDescanso := p.tempoDescanso.getD s.tempoDescanso
    temperaturaMaxima := p.tempMaxima.getD s.temperaturaMaxima
    ciclosParciaisOperacao := p.ciclosParc.getD 0
    ciclosEnchimentoCompletos := p.ciclosEnch.getD 0
    indiceHistoricoEnchimento := p.idxHEnch.getD 0
    historicoEnchimento := p.hEnchimento.getD s.historicoEnchimento }

/-- The initialisers of the global variables, with store content `p`; the
relay pin is not yet driven (the model gives it the level `HIGH`). -/
def globais (p : Preferences) : State :=
  { tempoLigado := 600000
    tempoDescanso := 100000
    temperaturaMaxima := 60
    compressorLigado := false
    modoManual := false
    caixaCheia := false
    temperaturaAtual := 25
    ciclosParciaisOperacao := 0
    ultimoTempoControle := 0
    ultimoSaveMillis := 0
    inicioCicloMillis := 0
    inicioCicloEnchimentoMillis := 0
    desligadoPorTemperaturaAlta := false
    historicoEnchimento := historicoZerado
    indiceHistoricoEnchimento := 0
    ciclosEnchimentoCompletos := 0
    ciclosParciaisNesteEnchimento := 0
    pinoRele := HIGH
    escritasRele := []
    preferences := p
    gravacoes := 0 }

/-- Function `setup()`, finishing at time `t`, on a device whose store holds
`p`; `spiffsOk` is the result of `SPIFFS.begin(true)` (on failure `setup`
returns at once). -/
def setup (spiffsOk : Bool) (p : Preferences) (t : Nat) : State :=
  let s0 := globais p
  if spiffsOk = false then s0
  else
    let s1 := { s0 with historicoEnchimento := historicoZerado }
    let s2 := { s1 with pinoRele := HIGH, escritasRele := s1.escritasRele ++ [HIGH] }
    let s3 := carregarConfiguracoesOperacao s2
    { s3 with ultimoTempoControle := millis t }

/-! ## Sensors and fill tracking -/

/-- Assignment to `historicoEnchimento[i]`.  An index outside the array is
undefined behaviour in C; the model leaves the array unchanged there. -/
def escreverSlot (h : List EnchimentoInfo) (i : Int) (e : EnchimentoInfo) :
    List EnchimentoInfo :=
  if 0 ≤ i then h.set i.toNat e else h

/-- The body of the `if (!caixaEstavaCheia && caixaCheia &&
inicioCicloEnchimentoMillis > 0)` block of `atualizarSensores`. -/
def registrarEnchimento (t : Nat) (s : State) : State :=
  let tempoTotalSecs := subU32 (millis t) s.inicioCicloEnchimentoMillis / 1000
  let s1 := { s with
    historicoEnchimento :=
      escreverSlot s.historicoEnchimento s.indiceHistoricoEnchimento
        ⟨tempoTotalSecs, s.ciclosParciaisNesteEnchimento⟩ }
  let s2 := { s1 with
    indiceHistoricoEnchimento :=
      Int.tmod (s1.indiceHistoricoEnchimento + 1) TAMANHO_HISTORICO_ENCHIMENTO }
  let s3 := { s2 with ciclosEnchimentoCompletos := incU32 s2.ciclosEnchimentoCompletos }
  let s4 := salvarConfiguracoesOperacao t s3
  let s5 := { s4 with inicioCicloEnchimentoMillis := 0 }
  if s5.modoManual = false then
    { desligarCompressor s5 with ultimoTempoControle := millis t }
  else s5

/-- First block of `atualizarSensores` (temperature read); `leitura` is the
value returned by `sensors.getTempCByIndex(0)`. -/
def lerTemperatura (leitura : ℚ) (s : State) : State :=
  if sensorEnabled = true then
    if leitura ≠ DEVICE_DISCONNECTED_C then { s with temperaturaAtual := leitura }
    else desligarCompressor s
  else s

/-- Second block of `atualizarSensores` (tank switch read and fill
tracking); `pinoCaixa` is the level returned by
`digitalRead(ENTRADA_CAIXA_CHEIA)` (the tank is full when it is `LOW`). -/
def lerCaixa (t : Nat) (pinoCaixa : Bool) (s : State) : State :=
  let caixaEstavaCheia := s.caixaCheia
  let s2 := { s with caixaCheia := !pinoCaixa }
  let s3 :=
    if caixaEstavaCheia = true ∧ s2.caixaCheia = false then
      { s2 with
        inicioCicloEnchimentoMillis := millis t
        ciclosParciaisNesteEnchimento := 0 }
    else s2
  if caixaEstavaCheia = false ∧ s3.caixaCheia = true ∧ s3.inicioCicloEnchimentoMillis > 0 then
    registrarEnchimento t s3
  else s3

/-- Third block of `atualizarSensores` (emergency stop on temperature). -/
def protecaoTemperatura (s : State) : State :=
  if s.temperaturaAtual ≥ s.temperaturaMaxima ∧ s.compressorLigado = true then
    desligarCompressor { s with desligadoPorTemperaturaAlta := true }
  else s

/-- Last block of `atualizarSensores` (stop when the tank is full). -/
def protecaoCaixaCheia (s : State) : State :=
  if s.caixaCheia = true ∧ s.compressorLigado = true then desligarCompressor s else s

/-- Function `atualizarSensores()` at time `t`, with the values read from the
temperature sensor and from the tank switch. -/
def atualizarSensores (t : Nat) (leitura : ℚ) (pinoCaixa : Bool) (s : State) : State :=
  protecaoCaixaCheia (protecaoTemperatura (lerCaixa t pinoCaixa (lerTemperatura leitura s)))

/-! ## Automatic control -/

/-- First part of `controleAutomatico`: the value of the local
`condicoesSeguras`, computed from the latch, the temperature and the tank
switch; a latched fault is released when the temperature is below
`temperaturaMaxima - 5.0`. -/
def avaliarCondicoes (s : State) : State × Bool :=
  let condicoesSeguras0 : Bool := false
  let (s1, condicoesSeguras1) :=
    if s.desligadoPorTemperaturaAlta = true then
      if s.temperaturaAtual < tetoMenosCinco s.temperaturaMaxima then
        ({ s with desligadoPorTemperaturaAlta := false }, true)
      else (s, condicoesSeguras0)
    else (s, decide (s.temperaturaAtual < s.temperaturaMaxima))
  (s1, if s1.caixaCheia = true then false else condicoesSeguras1)

/-- Second part of `controleAutomatico`: the timer decision, with
`agora = millis()` read at time `t`. -/
def decisaoTemporizada (t : Nat) (condicoesSeguras : Bool) (s : State) : State :=
  let agora := millis t
  if s.compressorLigado = true then
    if subU32 agora s.ultimoTempoControle ≥ s.tempoLigado then
      salvarConfiguracoesOperacao t { desligarCompressor s with ultimoTempoControle := agora }
    else s
  else
    if subU32 agora s.ultimoTempoControle ≥ s.tempoDescanso ∧ condicoesSeguras = true then
      { ligarCompressor t s with ultimoTempoControle := agora }
    else s

/-- Function `controleAutomatico()` at time `t`. -/
def controleAutomatico (t : Nat) (s : State) : State :=
  decisaoTemporizada t (avaliarCondicoes s).2 (avaliarCondicoes s).1

/-! ## HTTP handlers -/

/-- Function `handleLigar()` at time `t`. -/
def handleLigar (t : Nat) (s : State) : State × Resposta :=
  if s.caixaCheia = true then (s, .bloqueadoCaixaCheia)
  else if s.desligadoPorTemperaturaAlta = true then
    if s.temperaturaAtual ≥ tetoMenosCinco s.temperaturaMaxima then (s, .bloqueadoCooldown)
    else (ligarCompressor t { s with modoManual := true }, .ligadoManualmente)
  else
    if s.temperaturaAtual ≥ s.temperaturaMaxima then (s, .bloqueadoTemperatura)
    else (ligarCompressor t { s with modoManual := true }, .ligadoManualmente)

/-- Function `handleDesligar()`. -/
def handleDesligar (s : State) : State × Resposta :=
  (desligarCompressor { s with modoManual := true }, .ok)

/-- Function `handleAutomatico()` at time `t`. -/
def handleAutomatico (t : Nat) (s : State) : State × Resposta :=
  ({ s with
      modoManual := false
      ultimoTempoControle := millis t
      desligadoPorTemperaturaAlta := false }, .ok)

/-- Conversion of a `long` to `unsigned long` followed by the product with
`60000UL`, as in `server.arg(...).toInt() * 60000UL`. -/
def minutosParaMillis (m : Int) : Nat := ((m * 60000) % (U32 : Int)).toNat

/-- Function `handleConfig()` at time `t`.  An argument is `none` when
`server.hasArg` is false, otherwise the value of `toInt()` / `toFloat()`. -/
def handleConfig (t : Nat) (tempoligado tempodescanso : Option Int)
    (temperaturamax : Option ℚ) (s : State) : State × Resposta :=
  let changed0 : Bool := false
  let (s1, changed1) :=
    match tempoligado with
    | some m =>
      let v := minutosParaMillis m
      if v ≥ 60000 then ({ s with tempoLigado := v }, true) else (s, changed0)
    | none => (s, changed0)
  let (s2, changed2) :=
    match tempodescanso with
    | some m =>
      let v := minutosParaMillis m
      if v ≥ 1000 then ({ s1 with tempoDescanso := v }, true) else (s1, changed1)
    | none => (s1, changed1)
  let (s3, changed3) :=
    match temperaturamax with
    | some v =>
      if v > 0 then ({ s2 with temperaturaMaxima := v }, true) else (s2, changed2)
    | none => (s2, changed2)
  if changed3 = true then (salvarConfiguracoesOperacao t s3, .configuracoesSalvas)
  else (s3, .nenhumaAlteracao)

/-- Function `handleZerarCiclos()` at time `t`. -/
def handleZerarCiclos (t : Nat) (s : State) : State × Resposta :=
  let s1 := { s with
    ciclosParciaisOperacao := 0
    ciclosEnchimentoCompletos := 0
    historicoEnchimento := historicoZerado
    indiceHistoricoEnchimento := 0 }
  (salvarConfiguracoesOperacao t s1, .contadoresZerados)

/-! ## Main loop and operation sequences -/

/-- One pass of `loop()`: `atualizarSensores()` at time `tS`, then, when
`modoManual` is false, `controleAutomatico()` at time `tC`.
(`registrarTemperatura` only feeds the temperature chart and the HTTP
requests served by `server.handleClient()` are the handler operations.) -/
def loopTick (tS tC : Nat) (leitura : ℚ) (pinoCaixa : Bool) (s : State) : State :=
  let s1 := atualizarSensores tS leitura pinoCaixa s
  if s1.modoManual = false then controleAutomatico tC s1 else s1

/-- The operations that act on the supervisor, with their inputs; `t` is the
time at which the operation runs (`handleDesligar` does not read the clock). -/
inductive Op
  | atualizarSensores (t : Nat) (leitura : ℚ) (pinoCaixa : Bool)
  | controleAutomatico (t : Nat)
  | handleLigar (t : Nat)
  | handleDesligar (t : Nat)
  | handleAutomatico (t : Nat)
  | handleConfig (t : Nat) (tempoligado tempodescanso : Option Int) (temperaturamax : Option ℚ)
  | handleZerarCiclos (t : Nat)

/-- State after one operation. -/
def step (s : State) : Op → State
  | .atualizarSensores t leitura pinoCaixa => atualizarSensores t leitura pinoCaixa s
  | .controleAutomatico t => controleAutomatico t s
  | .handleLigar t => (handleLigar t s).1
  | .handleDesligar _ => (handleDesligar s).1
  | .handleAutomatico t => (handleAutomatico t s).1
  | .handleConfig t a b c => (handleConfig t a b c s).1
  | .handleZerarCiclos t => (handleZerarCiclos t s).1

/-- Time at which an operation runs. -/
def Op.tempo : Op → Nat
  | .atualizarSensores t _ _ => t
  | .controleAutomatico t => t
  | .handleLigar t => t
  | .handleDesligar t => t
  | .handleAutomatico t => t
  | .handleConfig t _ _ _ => t
  | .handleZerarCiclos t => t

/-- The operations of the list run at non-decreasing times, none before `d`. -/
def temposCrescentes (d : Nat) : List Op → Prop
  | [] => True
  | op :: ops => d ≤ op.tempo ∧ temposCrescentes op.tempo ops

/-- Time of the last operation of the list (`d` for the empty list). -/
def ultimoTempo (d : Nat) : List Op → Nat
  | [] => d
  | op :: ops => ultimoTempo op.tempo ops

/-- State after a sequence of operations, first operation first. -/
def run (s : State) (ops : List Op) : State := ops.foldl step s


/-- Store of a device that was never configured: every key absent. -/
def prefsVazias : Preferences :=
  { tempoLigado := none, tempoDescanso := none, tempMaxima := none, ciclosParc := none,
    ciclosEnch := none, idxHEnch := none, hEnchimento := none }

/-- The safety invariant of the tank switch: the compressor is not running
while the tank is full. -/
def SemCheiaLigado (s : State) : Prop :=
  ¬ (s.compressorLigado = true ∧ s.caixaCheia = true)

/-! ## Derived notions and scenarios used in the statements -/

/-- A manual start, an over-temperature stop (70 degrees), a cooler reading
(50 degrees, under the ceiling minus 5) and a second manual start. -/
def opsReligarManual : List Op :=
  [.handleLigar 1000, .atualizarSensores 2000 70 HIGH,
   .atualizarSensores 3000 50 HIGH, .handleLigar 4000]

/-- The condition under which `atualizarSensores` records a completed fill,
on the state at the call: the tank was not full, the switch now reads full
(`LOW`) and a fill window is open. -/
def completaEnchimento (pinoCaixa : Bool) (s : State) : Prop :=
  s.caixaCheia = false ∧ pinoCaixa = LOW ∧ s.inicioCicloEnchimentoMillis > 0

instance (pinoCaixa : Bool) (s : State) : Decidable (completaEnchimento pinoCaixa s) := by
  unfold completaEnchimento
  infer_instance


/-- State after a manual start on a freshly booted device. -/
def estadoLigadoManual : State := (handleLigar 1000 (setup true prefsVazias 0)).1

/-- Freshly booted device (ceiling 60) with the latch set and the given
current temperature. -/
def estadoTravado (temp : ℚ) : State :=
  { setup true prefsVazias 0 with desligadoPorTemperaturaAlta := true, temperaturaAtual := temp }

/-- An automatic start at the default ceiling 60, the ceiling set to the
`float` nearest to `1e-20` (`12379400 * 2 ^ -90`), a reading of 25 (which
stops the compressor and sets the latch) and a reading of `-5`. -/
def opsTetoMinusculo : List Op :=
  [.controleAutomatico 100000, .handleConfig 110000 none none (some (12379400 / 2 ^ 90)),
   .atualizarSensores 120000 25 HIGH, .atualizarSensores 130000 (-5) HIGH]

/-- One automatic on-period on a freshly booted device: start at
`t = 100000`, timer stop (and save) at `t = 700000`. -/
def opsUmCiclo : List Op := [.controleAutomatico 100000, .controleAutomatico 700000]

/-- An automatic start at `t = 100000`, an over-temperature stop at
`t = 300000` (reading 70) and a cooler reading (50) at `t = 301000`. -/
def opsParadaTemperatura : List Op :=
  [.controleAutomatico 100000, .atualizarSensores 300000 70 HIGH,
   .atualizarSensores 301000 50 HIGH]

/-- Record `atualizarSensores` stores when it detects, at time `t`, a
completed fill on the state `s` it was called on. -/
def registroDe (t : Nat) (s : State) : EnchimentoInfo :=
  ⟨subU32 (millis t) s.inicioCicloEnchimentoMillis / 1000, s.ciclosParciaisNesteEnchimento⟩

/-- Fill record an operation stores, if any: only `atualizarSensores` stores
one, when it detects a completed fill. -/
def enchimentoRegistrado (s : State) : Op → Option EnchimentoInfo
  | .atualizarSensores t _ pinoCaixa =>
    if completaEnchimento pinoCaixa s then some (registroDe t s) else none
  | _ => none

/-- Fill records stored along a sequence of operations, oldest first. -/
def registros (s : State) : List Op → List EnchimentoInfo
  | [] => []
  | op :: ops => (enchimentoRegistrado s op).toList ++ registros (step s op) ops

/-- The operation is `handleZerarCiclos`. -/
def Op.zera : Op → Bool
  | .handleZerarCiclos _ => true
  | _ => false

/-- The fill history with its cursor. -/
def historia (s : State) : List EnchimentoInfo × Int :=
  (s.historicoEnchimento, s.indiceHistoricoEnchimento)


/-- The history `h` with its cursor is the ring-buffer image of the records
`recs` (oldest first): record number `j` of the last five sits in slot
`(j - 1) % 5`, slots never written are zero, the cursor is `recs.length % 5`. -/
def AnelOk (recs : List EnchimentoInfo) (h : List EnchimentoInfo × Int) : Prop :=
  h.1.length = 5 ∧
  h.2 = ((recs.length % 5 : Nat) : Int) ∧
  (∀ j, 1 ≤ j → j ≤ recs.length → recs.length ≤ j + 4 →
    h.1[(j - 1) % 5]? = recs[j - 1]?) ∧
  (∀ i, recs.length ≤ i → i < 5 → h.1[i]? = some slotZero)

/-- Seven fills seen by the tank switch: after a first full reading, the tank
is seen empty and then full seven times, the fills lasting 10, 20, ..., 70
seconds. -/
def opsSeteEnchimentos : List Op :=
  [.atualizarSensores 1000 25 LOW,
   .atualizarSensores 2000 25 HIGH, .atualizarSensores 12000 25 LOW,
   .atualizarSensores 13000 25 HIGH, .atualizarSensores 33000 25 LOW,
   .atualizarSensores 34000 25 HIGH, .atualizarSensores 64000 25 LOW,
   .atualizarSensores 65000 25 HIGH, .atualizarSensores 105000 25 LOW,
   .atualizarSensores 106000 25 HIGH, .atualizarSensores 156000 25 LOW,
   .atualizarSensores 157000 25 HIGH, .atualizarSensores 217000 25 LOW,
   .atualizarSensores 218000 25 HIGH, .atualizarSensores 288000 25 LOW]

/-- The variables of the fill tracker: fill-window start, partial cycles of
the current fill, history slots, cursor and count of completed fills. -/
def rastreador (s : State) : Nat × Nat × List EnchimentoInfo × Int × Nat :=
  (s.inicioCicloEnchimentoMillis, s.ciclosParciaisNesteEnchimento, s.historicoEnchimento,
    s.indiceHistoricoEnchimento, s.ciclosEnchimentoCompletos)

/-- Value of `tempoLigado` after a request whose `tempoligado` argument is
`a` (minutes; `none` when absent). -/
def novoTempoLigado (a : Option Int) (s : State) : Nat :=
  match a with
  | some m => if minutosParaMillis m ≥ 60000 then minutosParaMillis m else s.tempoLigado
  | none => s.tempoLigado

/-- Value of `tempoDescanso` after a request whose `tempodescanso` argument
is `b` (minutes; `none` when absent). -/
def novoTempoDescanso (b : Option Int) (s : State) : Nat :=
  match b with
  | some m => if minutosParaMillis m ≥ 1000 then minutosParaMillis m else s.tempoDescanso
  | none => s.tempoDescanso

/-- Value of `temperaturaMaxima` after a request whose `temperaturamax`
argument is `c` (`none` when absent). -/
def novaTemperaturaMaxima (c : Option ℚ) (s : State) : ℚ :=
  match c with
  | some v => if v > 0 then v else s.temperaturaMaxima
  | none => s.temperaturaMaxima

/-- The request carries at least one argument that is present and passes its
validation. -/
def argumentoAceito (a b : Option Int) (c : Option ℚ) : Bool :=
  (match a with
    | some m => decide (minutosParaMillis m ≥ 60000)
    | none => false) ||
  (match b with
    | some m => decide (minutosParaMillis m ≥ 1000)
    | none => false) ||
  (match c with
    | some v => decide (v > 0)
    | none => false)

/-- The state with the three parameters of a request applied. -/
def aplicarParametros (a b : Option Int) (c : Option ℚ) (s : State) : State :=
  { s with
    tempoLigado := novoTempoLigado a s
    tempoDescanso := novoTempoDescanso b s
    temperaturaMaxima := novaTemperaturaMaxima c s }

/-- Value of the field `proximoEstado` of the status: "N/A", "Desligar" or
"Ligar". -/
inductive ProximoEstado
  | na
  | desligar
  | ligar
deriving DecidableEq, Repr

/-- Read of `historicoEnchimento[i]`.  An index outside the array is
undefined behaviour in C; the model reads a zero slot there. -/
def lerSlot (h : List EnchimentoInfo) (i : Int) : EnchimentoInfo :=
  if 0 ≤ i then h.getD i.toNat slotZero else slotZero

/-- The JSON object sent by `handleStatus`, field by field, as numbers (the
formatting of the numbers as text is not modelled). -/
structure Status where
  compressorLigado : Bool
  temperatura : ℚ
  caixaCheia : Bool
  modoManual : Bool
  alertaTemperatura : Bool
  alertaCaixaCheia : Bool
  ciclosParciaisOperacao : Nat
  ciclosEnchimentoCompletos : Nat
  tempoLigado : Nat
  tempoDescanso : Nat
  temperaturaMaxima : ℚ
  tempoRestante : Nat
  proximoEstado : ProximoEstado
  historicoEnchimento : List EnchimentoInfo
  mediaEnchimento : Nat
deriving DecidableEq

/-- One iteration of the first loop of `handleStatus`, on the pair
(`somaTempos`, `temposValidos`). -/
def somarSlot (h : List EnchimentoInfo) (acc : Nat × Int) (i : Nat) : Nat × Int :=
  if (lerSlot h i).tempo > 0 then ((acc.1 + (lerSlot h i).tempo) % U32, acc.2 + 1) else acc

/-- First loop of `handleStatus`: (`somaTempos`, `temposValidos`) after the
slots `0 .. TAMANHO_HISTORICO_ENCHIMENTO - 1`. -/
def somarTempos (h : List EnchimentoInfo) : Nat × Int :=
  (List.range TAMANHO_HISTORICO_ENCHIMENTO).foldl (somarSlot h) (0, 0)

/-- Local `mediaEnchimento` of `handleStatus`. -/
def mediaEnchimento (h : List EnchimentoInfo) : Nat :=
  if (somarTempos h).2 > 0 then (somarTempos h).1 / (somarTempos h).2.toNat else 0

/-- Local `index` of the second loop of `handleStatus`, at iteration `i`. -/
def indiceStatus (cursor : Int) (i : Nat) : Int :=
  Int.tmod (cursor - 1 - i + TAMANHO_HISTORICO_ENCHIMENTO) TAMANHO_HISTORICO_ENCHIMENTO

/-- Second loop of `handleStatus`: the entries of the JSON array
`historicoEnchimento`, in output order. -/
def historicoStatus (s : State) : List EnchimentoInfo :=
  (List.range TAMANHO_HISTORICO_ENCHIMENTO).map
    (fun i => lerSlot s.historicoEnchimento (indiceStatus s.indiceHistoricoEnchimento i))

/-- Locals `tempoRestante` and `proximoEstado` of `handleStatus` at time `t`. -/
def proximaTransicao (t : Nat) (s : State) : Nat × ProximoEstado :=
  if s.modoManual = false then
    let agora := millis t
    let tempoDecorrido := subU32 agora s.ultimoTempoControle
    if s.compressorLigado = true then
      (if tempoDecorrido < s.tempoLigado then (s.tempoLigado - tempoDecorrido) / 1000 else 0,
        .desligar)
    else
      (if tempoDecorrido < s.tempoDescanso then (s.tempoDescanso - tempoDecorrido) / 1000 else 0,
        .ligar)
  else (0, .na)

/-- Function `handleStatus()` at time `t`: the object it sends (the state is
not modified). -/
def handleStatus (t : Nat) (s : State) : Status :=
  { compressorLigado := s.compressorLigado
    temperatura := s.temperaturaAtual
    caixaCheia := s.caixaCheia
    modoManual := s.modoManual
    alertaTemperatura := decide (s.temperaturaAtual ≥ s.temperaturaMaxima)
    alertaCaixaCheia := s.caixaCheia
    ciclosParciaisOperacao := s.ciclosParciaisOperacao
    ciclosEnchimentoCompletos := s.ciclosEnchimentoCompletos
    tempoLigado := s.tempoLigado / 60000
    tempoDescanso := s.tempoDescanso / 60000
    temperaturaMaxima := s.temperaturaMaxima
    tempoRestante := (proximaTransicao t s).1
    proximoEstado := (proximaTransicao t s).2
    historicoEnchimento := historicoStatus s
    mediaEnchimento := mediaEnchimento s.historicoEnchimento }

/-- The `tempo` values of the slots that are greater than 0, in slot order. -/
def temposValidos (h : List EnchimentoInfo) : List Nat :=
  (h.map EnchimentoInfo.tempo).filter (fun x => decide (x > 0))

/-- Store of a device whose saved history holds two slots of
`4294967295` seconds. -/
def prefsHistoricoGrande : Preferences :=
  { prefsVazias with
    hEnchimento := some [⟨4294967295, 1⟩, ⟨4294967295, 1⟩, slotZero, slotZero, slotZero] }

/-- Store of a device whose saved history holds fills of 50 and 70 seconds in
slots 0 and 2 (the other slots are zero). -/
def prefsDoisEnchimentos : Preferences :=
  { prefsVazias with
    hEnchimento := some [⟨50, 3⟩, slotZero, ⟨70, 2⟩, slotZero, slotZero] }

/-- One iteration of the first loop of `handleStatus`, on the slot itself. -/
def somarInfo (acc : Nat × Int) (e : EnchimentoInfo) : Nat × Int :=
  if e.tempo > 0 then ((acc.1 + e.tempo) % U32, acc.2 + 1) else acc

/-- The three operating parameters. -/
def parametros (s : State) : Nat × Nat × ℚ :=
  (s.tempoLigado, s.tempoDescanso, s.temperaturaMaxima)

/-- The operation is `handleConfig` or `handleAutomatico`. -/
def Op.reconfigura : Op → Bool
  | .handleConfig _ _ _ _ => true
  | .handleAutomatico _ => true
  | _ => false

/-- Freshly booted device after the first automatic start, at `t = 100000`
(which opens the fill window). -/
def estadoPrimeiraPartida : State := run (setup true prefsVazias 0) [.controleAutomatico 100000]

/-- Number of compressor starts along a sequence of operations: the
operations that find `compressorLigado` false and leave it true. -/
def partidas (s : State) : List Op → Nat
  | [] => 0
  | op :: ops =>
    (if s.compressorLigado = false ∧ (step s op).compressorLigado = true then 1 else 0)
      + partidas (step s op) ops

/-- The operation does not read the tank switch as full (`LOW`). -/
def Op.caixaNaoCheia : Op → Bool
  | .atualizarSensores _ _ pinoCaixa => pinoCaixa
  | _ => true

/-- The tank level and the variables of the fill in progress. -/
def janela (s : State) : Bool × Nat × Nat :=
  (s.caixaCheia, s.inicioCicloEnchimentoMillis, s.ciclosParciaisNesteEnchimento)

/-- Three manual starts, at `t = 10000`, `20000` and `30000`. -/
def opsTresPartidas : List Op :=
  [.handleLigar 10000, .handleDesligar 15000, .handleLigar 20000, .handleDesligar 25000,
   .handleLigar 30000]

/-- The tank is seen going from full to empty at `t = 2 ^ 32` (`millis()`
reads 0), the compressor is started by hand 10000, 20000 and 30000 ms later
and the tank is seen full 50000 ms later. -/
def opsEnchimentoNaVirada : List Op :=
  [.atualizarSensores 4294967296 25 HIGH, .handleLigar 4294977296, .handleDesligar 4294982296,
   .handleLigar 4294987296, .handleDesligar 4294992296, .handleLigar 4294997296,
   .atualizarSensores 4295017296 25 LOW]

/-- Freshly booted device whose tank switch was read full at `t = 500`. -/
def estadoCaixaCheia : State := atualizarSensores 500 25 LOW (setup true prefsVazias 0)

/-- The operation keeps the tank not full and the fill window as it is, and
increments the partial-cycle count exactly when it starts the compressor. -/
def JanelaSegue (s : State) (op : Op) : Prop :=
  janela (step s op) =
    (false, s.inicioCicloEnchimentoMillis,
      if s.compressorLigado = false ∧ (step s op).compressorLigado = true then
        incU32 s.ciclosParciaisNesteEnchimento
      else s.ciclosParciaisNesteEnchimento)

/-- State after the loop passes at the times `0, 1, ..., n - 1` (one pass
every millisecond), pass `t` reading the temperature `leituras t` and the tank
switch as not full. -/
def simular (leituras : Nat → ℚ) (s : State) : Nat → State
  | 0 => s
  | n + 1 => loopTick n n (leituras n) HIGH (simular leituras s n)

/-- The duty-cycle variables of the scenario "on 600000 ms, rest 100000 ms":
automatic mode, latch clear, the given relay state, timer reference and
ceiling. -/
def Fase (s : State) (ligado : Bool) (referencia : Nat) (teto : ℚ) : Prop :=
  s.compressorLigado = ligado ∧ s.ultimoTempoControle = referencia ∧
  s.modoManual = false ∧ s.desligadoPorTemperaturaAlta = false ∧
  s.tempoLigado = 600000 ∧ s.tempoDescanso = 100000 ∧ s.temperaturaMaxima = teto

/-- An index is inside the 5-slot array `historicoEnchimento`. -/
def NoArray (i : Int) : Prop := 0 ≤ i ∧ i < TAMANHO_HISTORICO_ENCHIMENTO

/-- The history has its 5 slots and the cursor points inside it. -/
def CursorOk (s : State) : Prop :=
  s.historicoEnchimento.length = TAMANHO_HISTORICO_ENCHIMENTO ∧
  NoArray s.indiceHistoricoEnchimento

/-! ## Rounding to `double` -/

theorem arredondarParaPar_eq (y : ℚ) (n : ℤ) (h : |y - n| < 1 / 2) :
    arredondarParaPar y = n := by
  rw [abs_lt] at h
  obtain ⟨h1, h2⟩ := h
  unfold arredondarParaPar
  by_cases hy : (n : ℚ) ≤ y
  · have hf : ⌊y⌋ = n := Int.floor_eq_iff.mpr ⟨hy, by linarith⟩
    rw [hf, if_pos (by linarith)]
  · have hy' : y < n := lt_of_not_ge hy
    have hf : ⌊y⌋ = n - 1 :=
      Int.floor_eq_iff.mpr ⟨by push_cast; linarith, by push_cast; linarith⟩
    rw [hf, if_neg (by push_cast; linarith), if_pos (by push_cast; linarith)]
    ring

theorem log_abs_eq (x : ℚ) (e : ℤ) (hx : x ≠ 0) (h1 : (2 : ℚ) ^ e ≤ |x|)
    (h2 : |x| < (2 : ℚ) ^ (e + 1)) : Int.log 2 |x| = e := by
  have hpos : 0 < |x| := abs_pos.mpr hx
  have a1 : e ≤ Int.log 2 |x| :=
    (Int.zpow_le_iff_le_log (by norm_num) hpos).mp (by exact_mod_cast h1)
  have a2 : Int.log 2 |x| < e + 1 :=
    (Int.lt_zpow_iff_log_lt (by norm_num) hpos).mp (by exact_mod_cast h2)
  omega

/-- The rounded value of `x`, from its exponent `e` and the integer `n`
nearest to its significand. -/
theorem paraDouble_eq (x : ℚ) (e n : ℤ) (hx : x ≠ 0) (h1 : (2 : ℚ) ^ e ≤ |x|)
    (h2 : |x| < (2 : ℚ) ^ (e + 1)) (hn : |x / 2 ^ (e - 52) - n| < 1 / 2) :
    paraDouble x = n * 2 ^ (e - 52) := by
  unfold paraDouble
  rw [if_neg hx, log_abs_eq x e hx h1 h2, arredondarParaPar_eq _ n hn]

theorem arredondarParaPar_inteiro (n : ℤ) : arredondarParaPar (n : ℚ) = n :=
  arredondarParaPar_eq _ n (by norm_num)

theorem arredondarParaPar_piso (x : ℚ) :
    ⌊x⌋ ≤ arredondarParaPar x ∧ arredondarParaPar x ≤ ⌊x⌋ + 1 := by
  unfold arredondarParaPar
  split_ifs <;> constructor <;> omega

theorem arredondarParaPar_mono (a b : ℚ) (h : a ≤ b) :
    arredondarParaPar a ≤ arredondarParaPar b := by
  have hf : ⌊a⌋ ≤ ⌊b⌋ := Int.floor_mono h
  rcases lt_or_eq_of_le hf with hlt | heq
  · have h1 := (arredondarParaPar_piso a).2
    have h2 := (arredondarParaPar_piso b).1
    omega
  · unfold arredondarParaPar
    rw [← heq]
    split_ifs <;> first | omega | (exfalso; linarith)

/-- Bounds of the exponent: `2 ^ e ≤ |x| < 2 ^ (e + 1)` for `e = Int.log 2 |x|`. -/
theorem log_abs_limites (x : ℚ) (hx : x ≠ 0) :
    (2 : ℚ) ^ Int.log 2 |x| ≤ |x| ∧ |x| < (2 : ℚ) ^ (Int.log 2 |x| + 1) := by
  have hpos : 0 < |x| := abs_pos.mpr hx
  constructor
  · have h : ((2 : ℕ) : ℚ) ^ Int.log 2 |x| ≤ |x| := Int.zpow_log_le_self (by norm_num) hpos
    exact_mod_cast h
  · have h : |x| < ((2 : ℕ) : ℚ) ^ (Int.log 2 |x| + 1) :=
      Int.lt_zpow_succ_log_self (by norm_num) |x|
    exact_mod_cast h

theorem unidade_pos (e : ℤ) : (0 : ℚ) < 2 ^ (e - 52) := zpow_pos (by norm_num) _

theorem unidade_52 (e : ℤ) : (2 : ℚ) ^ e = 4503599627370496 * 2 ^ (e - 52) := by
  have h : (2 : ℚ) ^ e = 2 ^ (52 : ℤ) * 2 ^ (e - 52) := by
    rw [← zpow_add₀ (by norm_num)]
    congr 1
    ring
  rw [h]
  norm_num

theorem unidade_53 (e : ℤ) : (2 : ℚ) ^ (e + 1) = 9007199254740992 * 2 ^ (e - 52) := by
  have h : (2 : ℚ) ^ (e + 1) = 2 ^ (53 : ℤ) * 2 ^ (e - 52) := by
    rw [← zpow_add₀ (by norm_num)]
    congr 1
    ring
  rw [h]
  norm_num

/-- A positive number rounds into the closed binade it lies in. -/
theorem paraDouble_pos (x : ℚ) (hx : 0 < x) :
    (2 : ℚ) ^ Int.log 2 |x| ≤ paraDouble x ∧ paraDouble x ≤ 2 ^ (Int.log 2 |x| + 1) := by
  obtain ⟨h1, h2⟩ := log_abs_limites x hx.ne'
  have hu := unidade_pos (Int.log 2 |x|)
  have e52 := unidade_52 (Int.log 2 |x|)
  have e53 := unidade_53 (Int.log 2 |x|)
  have hax : |x| = x := abs_of_pos hx
  have h1 := le_trans h1 (le_of_eq hax)
  have h2 := lt_of_le_of_lt (le_of_eq hax.symm) h2
  unfold paraDouble
  rw [if_neg hx.ne']
  have a1 : ((4503599627370496 : ℤ) : ℚ) ≤ x / 2 ^ (Int.log 2 |x| - 52) := by
    rw [le_div_iff₀ hu]
    push_cast
    linarith
  have a2 : x / 2 ^ (Int.log 2 |x| - 52) ≤ ((9007199254740992 : ℤ) : ℚ) := by
    rw [div_le_iff₀ hu]
    push_cast
    linarith
  have b1 := arredondarParaPar_mono _ _ a1
  have b2 := arredondarParaPar_mono _ _ a2
  rw [arredondarParaPar_inteiro] at b1 b2
  have c1 : (4503599627370496 : ℚ) ≤ (arredondarParaPar (x / 2 ^ (Int.log 2 |x| - 52)) : ℚ) := by
    exact_mod_cast b1
  have c2 : (arredondarParaPar (x / 2 ^ (Int.log 2 |x| - 52)) : ℚ) ≤ (9007199254740992 : ℚ) := by
    exact_mod_cast b2
  have d1 := mul_le_mul_of_nonneg_right c1 hu.le
  have d2 := mul_le_mul_of_nonneg_right c2 hu.le
  constructor <;> linarith

/-- A negative number rounds into the closed binade it lies in. -/
theorem paraDouble_neg (x : ℚ) (hx : x < 0) :
    -(2 : ℚ) ^ (Int.log 2 |x| + 1) ≤ paraDouble x ∧ paraDouble x ≤ -2 ^ Int.log 2 |x| := by
  obtain ⟨h1, h2⟩ := log_abs_limites x hx.ne
  have hu := unidade_pos (Int.log 2 |x|)
  have e52 := unidade_52 (Int.log 2 |x|)
  have e53 := unidade_53 (Int.log 2 |x|)
  have hax : |x| = -x := abs_of_neg hx
  have h1 := le_trans h1 (le_of_eq hax)
  have h2 := lt_of_le_of_lt (le_of_eq hax.symm) h2
  unfold paraDouble
  rw [if_neg hx.ne]
  have a1 : ((-9007199254740992 : ℤ) : ℚ) ≤ x / 2 ^ (Int.log 2 |x| - 52) := by
    rw [le_div_iff₀ hu]
    push_cast
    linarith
  have a2 : x / 2 ^ (Int.log 2 |x| - 52) ≤ ((-4503599627370496 : ℤ) : ℚ) := by
    rw [div_le_iff₀ hu]
    push_cast
    linarith
  have b1 := arredondarParaPar_mono _ _ a1
  have b2 := arredondarParaPar_mono _ _ a2
  rw [arredondarParaPar_inteiro] at b1 b2
  have c1 : (-9007199254740992 : ℚ) ≤ (arredondarParaPar (x / 2 ^ (Int.log 2 |x| - 52)) : ℚ) := by
    exact_mod_cast b1
  have c2 : (arredondarParaPar (x / 2 ^ (Int.log 2 |x| - 52)) : ℚ) ≤ (-4503599627370496 : ℚ) := by
    exact_mod_cast b2
  have d1 := mul_le_mul_of_nonneg_right c1 hu.le
  have d2 := mul_le_mul_of_nonneg_right c2 hu.le
  constructor <;> linarith

theorem paraDouble_zero : paraDouble 0 = 0 := by
  unfold paraDouble
  rw [if_pos rfl]

/-- Two numbers of the same exponent round in the same order. -/
theorem paraDouble_mono_binade (x y : ℚ) (hx : x ≠ 0) (hy : y ≠ 0) (h : x ≤ y)
    (he : Int.log 2 |x| = Int.log 2 |y|) : paraDouble x ≤ paraDouble y := by
  have hu := unidade_pos (Int.log 2 |y|)
  unfold paraDouble
  rw [if_neg hx, if_neg hy, he]
  apply mul_le_mul_of_nonneg_right _ hu.le
  have := arredondarParaPar_mono _ _ (div_le_div_of_nonneg_right h hu.le)
  exact_mod_cast this

/-- Rounding to `double` is monotone. -/
theorem paraDouble_mono (x y : ℚ) (h : x ≤ y) : paraDouble x ≤ paraDouble y := by
  have hp : ∀ e : ℤ, (0 : ℚ) < 2 ^ e := fun e => zpow_pos (by norm_num) e
  have hm : ∀ a b : ℤ, a < b → (2 : ℚ) ^ (a + 1) ≤ 2 ^ b := fun a b hab =>
    zpow_le_zpow_right₀ (by norm_num) (by omega)
  rcases lt_trichotomy x 0 with hx | hx | hx
  · obtain ⟨x1, x2⟩ := paraDouble_neg x hx
    have px := hp (Int.log 2 |x|)
    rcases lt_trichotomy y 0 with hy | hy | hy
    · obtain ⟨y1, y2⟩ := paraDouble_neg y hy
      have hlog : Int.log 2 |y| ≤ Int.log 2 |x| :=
        Int.log_mono_right (abs_pos.mpr hy.ne) (by
          rw [abs_of_neg hx, abs_of_neg hy]
          linarith)
      rcases lt_or_eq_of_le hlog with hl | hl
      · have := hm _ _ hl
        linarith
      · exact paraDouble_mono_binade x y hx.ne hy.ne h hl.symm
    · rw [hy, paraDouble_zero]
      linarith
    · obtain ⟨y1, y2⟩ := paraDouble_pos y hy
      have py := hp (Int.log 2 |y|)
      linarith
  · rw [hx, paraDouble_zero]
    rcases lt_or_eq_of_le (hx ▸ h) with hy | hy
    · obtain ⟨y1, y2⟩ := paraDouble_pos y hy
      have py := hp (Int.log 2 |y|)
      linarith
    · rw [← hy, paraDouble_zero]
  · have hy : 0 < y := lt_of_lt_of_le hx h
    obtain ⟨x1, x2⟩ := paraDouble_pos x hx
    obtain ⟨y1, y2⟩ := paraDouble_pos y hy
    have hlog : Int.log 2 |x| ≤ Int.log 2 |y| :=
      Int.log_mono_right (abs_pos.mpr hx.ne') (by
        rw [abs_of_pos hx, abs_of_pos hy]
        exact h)
    rcases lt_or_eq_of_le hlog with hl | hl
    · have := hm _ _ hl
      linarith
    · exact paraDouble_mono_binade x y hx.ne' hy.ne' h hl

theorem tetoMenosCinco_le (c : ℚ) : tetoMenosCinco c ≤ c := min_le_left _ _

theorem tetoMenosCinco_exato (c : ℚ) (h : EhDouble (c - 5)) : tetoMenosCinco c = c - 5 := by
  unfold tetoMenosCinco
  rw [h]
  exact min_eq_right (by linarith)

/-- For a ceiling that is a `double` value the rounded difference does not
exceed the ceiling, so `tetoMenosCinco` is the rounded difference itself. -/
theorem tetoMenosCinco_double (c : ℚ) (h : EhDouble c) :
    tetoMenosCinco c = paraDouble (c - 5) := by
  have h1 : paraDouble (c - 5) ≤ paraDouble c := paraDouble_mono _ _ (by linarith)
  rw [h] at h1
  exact min_eq_right h1

theorem ehDouble_55 : EhDouble (60 - 5) := by
  have h : paraDouble (60 - 5) = (55 * 2 ^ 47 : ℤ) * 2 ^ ((5 : ℤ) - 52) := by
    apply paraDouble_eq <;> norm_num
  unfold EhDouble
  rw [h]
  norm_num

/-- With the default ceiling the difference is exact: `60 - 5.0 = 55`. -/
theorem tetoMenosCinco_60 : tetoMenosCinco 60 = 55 := by
  rw [tetoMenosCinco_exato 60 ehDouble_55]
  norm_num

/-- The `float` nearest to `1e-20` is `12379400 * 2 ^ -90`; subtracting 5.0
from it in `double` gives exactly `-5`. -/
theorem tetoMenosCinco_minusculo : tetoMenosCinco (12379400 / 2 ^ 90) = -5 := by
  have h : paraDouble (12379400 / 2 ^ 90 - 5)
      = ((-5 * 2 ^ 50 : ℤ) : ℚ) * 2 ^ ((2 : ℤ) - 52) := by
    apply paraDouble_eq
    · norm_num
    · rw [abs_of_neg (by norm_num)]
      norm_num
    · rw [abs_of_neg (by norm_num)]
      norm_num
    · rw [abs_lt]
      constructor <;> norm_num
  unfold tetoMenosCinco
  rw [h]
  norm_num

/-! ## Basic facts about the relay operations -/

theorem desligarCompressor_compressorLigado (s : State) :
    (desligarCompressor s).compressorLigado = false := by
  unfold desligarCompressor
  split_ifs with h
  · rfl
  · simpa using h

theorem desligarCompressor_caixaCheia (s : State) :
    (desligarCompressor s).caixaCheia = s.caixaCheia := by
  unfold desligarCompressor
  split_ifs <;> rfl

theorem ligarCompressor_caixaCheia (t : Nat) (s : State) :
    (ligarCompressor t s).caixaCheia = s.caixaCheia := by
  simp only [ligarCompressor]
  split_ifs <;> rfl

theorem ligarCompressor_ligado_imp (t : Nat) (s : State)
    (h : (ligarCompressor t s).compressorLigado = true) :
    s.compressorLigado = true ∨ s.caixaCheia = false := by
  by_cases h1 : s.compressorLigado = false ∧ s.caixaCheia = false
  · exact Or.inr h1.2
  · rw [ligarCompressor, if_neg h1] at h
    exact Or.inl h

theorem salvar_compressorLigado (t : Nat) (s : State) :
    (salvarConfiguracoesOperacao t s).compressorLigado = s.compressorLigado := by
  simp only [salvarConfiguracoesOperacao]
  split_ifs <;> rfl

theorem salvar_caixaCheia (t : Nat) (s : State) :
    (salvarConfiguracoesOperacao t s).caixaCheia = s.caixaCheia := by
  simp only [salvarConfiguracoesOperacao]
  split_ifs <;> rfl

theorem protecaoCaixaCheia_semCheiaLigado (s : State) :
    SemCheiaLigado (protecaoCaixaCheia s) := by
  unfold SemCheiaLigado protecaoCaixaCheia
  split_ifs with h
  · simp [desligarCompressor_compressorLigado]
  · tauto

theorem atualizarSensores_semCheiaLigado (t : Nat) (leitura : ℚ) (pinoCaixa : Bool)
    (s : State) : SemCheiaLigado (atualizarSensores t leitura pinoCaixa s) :=
  protecaoCaixaCheia_semCheiaLigado _


theorem avaliarCondicoes_compressorLigado (s : State) :
    (avaliarCondicoes s).1.compressorLigado = s.compressorLigado := by
  simp only [avaliarCondicoes]
  split_ifs <;> rfl

theorem avaliarCondicoes_caixaCheia (s : State) :
    (avaliarCondicoes s).1.caixaCheia = s.caixaCheia := by
  simp only [avaliarCondicoes]
  split_ifs <;> rfl

theorem decisaoTemporizada_semCheiaLigado (t : Nat) (c : Bool) (s : State)
    (hs : SemCheiaLigado s) : SemCheiaLigado (decisaoTemporizada t c s) := by
  unfold SemCheiaLigado at *
  simp only [decisaoTemporizada]
  split_ifs with h1 h2 h3
  · simp [salvar_compressorLigado, desligarCompressor_compressorLigado]
  · exact hs
  · rintro ⟨h4, h5⟩
    have h6 : (ligarCompressor t s).compressorLigado = true := h4
    have h7 : (ligarCompressor t s).caixaCheia = true := h5
    rw [ligarCompressor_caixaCheia] at h7
    rcases ligarCompressor_ligado_imp t s h6 with h8 | h8
    · exact h1 h8
    · simp [h7] at h8
  · exact hs

theorem controleAutomatico_semCheiaLigado (t : Nat) (s : State) (hs : SemCheiaLigado s) :
    SemCheiaLigado (controleAutomatico t s) := by
  apply decisaoTemporizada_semCheiaLigado
  unfold SemCheiaLigado at *
  rwa [avaliarCondicoes_compressorLigado, avaliarCondicoes_caixaCheia]

theorem handleLigar_semCheiaLigado (t : Nat) (s : State) (hs : SemCheiaLigado s) :
    SemCheiaLigado (handleLigar t s).1 := by
  have key : SemCheiaLigado (ligarCompressor t { s with modoManual := true }) := by
    unfold SemCheiaLigado at *
    rintro ⟨h4, h5⟩
    rw [ligarCompressor_caixaCheia] at h5
    rcases ligarCompressor_ligado_imp _ _ h4 with h8 | h8
    · exact hs ⟨h8, h5⟩
    · have h9 : s.caixaCheia = false := h8
      simp [h9] at h5
  simp only [handleLigar]
  split_ifs <;> first | exact hs | exact key

theorem handleDesligar_semCheiaLigado (s : State) : SemCheiaLigado (handleDesligar s).1 := by
  unfold SemCheiaLigado
  simp [handleDesligar, desligarCompressor_compressorLigado]

theorem handleAutomatico_semCheiaLigado (t : Nat) (s : State) (hs : SemCheiaLigado s) :
    SemCheiaLigado (handleAutomatico t s).1 := hs

theorem handleConfig_compressorLigado (t : Nat) (a b : Option Int) (c : Option ℚ) (s : State) :
    (handleConfig t a b c s).1.compressorLigado = s.compressorLigado := by
  simp only [handleConfig]
  rcases a with _ | a <;> rcases b with _ | b <;> rcases c with _ | c <;>
    simp only [] <;> split_ifs <;> simp [salvar_compressorLigado]

theorem handleConfig_caixaCheia (t : Nat) (a b : Option Int) (c : Option ℚ) (s : State) :
    (handleConfig t a b c s).1.caixaCheia = s.caixaCheia := by
  simp only [handleConfig]
  rcases a with _ | a <;> rcases b with _ | b <;> rcases c with _ | c <;>
    simp only [] <;> split_ifs <;> simp [salvar_caixaCheia]

theorem handleZerarCiclos_semCheiaLigado (t : Nat) (s : State) (hs : SemCheiaLigado s) :
    SemCheiaLigado (handleZerarCiclos t s).1 := by
  unfold SemCheiaLigado at *
  simpa [handleZerarCiclos, salvar_compressorLigado, salvar_caixaCheia] using hs

theorem step_semCheiaLigado (s : State) (op : Op) (hs : SemCheiaLigado s) :
    SemCheiaLigado (step s op) := by
  cases op with
  | atualizarSensores t leitura pinoCaixa => exact atualizarSensores_semCheiaLigado t leitura pinoCaixa s
  | controleAutomatico t => exact controleAutomatico_semCheiaLigado t s hs
  | handleLigar t => exact handleLigar_semCheiaLigado t s hs
  | handleDesligar t => exact handleDesligar_semCheiaLigado s
  | handleAutomatico t => exact handleAutomatico_semCheiaLigado t s hs
  | handleConfig t a b c =>
    unfold SemCheiaLigado at *
    simpa [step, handleConfig_compressorLigado, handleConfig_caixaCheia] using hs
  | handleZerarCiclos t => exact handleZerarCiclos_semCheiaLigado t s hs

theorem run_semCheiaLigado (ops : List Op) :
    ∀ s : State, SemCheiaLigado s → SemCheiaLigado (run s ops) := by
  induction ops with
  | nil => intro s hs; exact hs
  | cons op ops ih => intro s hs; exact ih (step s op) (step_semCheiaLigado s op hs)

theorem setup_compressorLigado (spiffsOk : Bool) (p : Preferences) (t : Nat) :
    (setup spiffsOk p t).compressorLigado = false := by
  simp only [setup]
  split_ifs <;> rfl

/-- C1. In every state reached from the state left by `setup` (whatever the
store holds and whether or not SPIFFS mounted) by any sequence of
`atualizarSensores`, `controleAutomatico`, `handleLigar`, `handleDesligar`,
`handleAutomatico`, `handleConfig` and `handleZerarCiclos`, with any sensor
readings and at any times, `compressorLigado` and `caixaCheia` are not both
true. -/
theorem C1_compressor_off_when_tank_full (spiffsOk : Bool) (p : Preferences) (t0 : Nat)
    (ops : List Op) :
    ¬ ((run (setup spiffsOk p t0) ops).compressorLigado = true ∧
        (run (setup spiffsOk p t0) ops).caixaCheia = true) := by
  apply run_semCheiaLigado ops
  unfold SemCheiaLigado
  simp [setup_compressorLigado]


/-! ## C2: the compressor and the latched temperature fault -/

/-- C2 (evaluation of the code where the claim fails). After a manual start,
an over-temperature stop and a reading below the ceiling minus 5, `handleLigar`
starts the compressor again and leaves `desligadoPorTemperaturaAlta` set: both
flags are true when it returns. -/
theorem C2_handleLigar_leaves_latch_set :
    (run (setup true prefsVazias 0) opsReligarManual).compressorLigado = true ∧
    (run (setup true prefsVazias 0) opsReligarManual).desligadoPorTemperaturaAlta = true ∧
    (run (setup true prefsVazias 0) opsReligarManual).pinoRele = LOW := by
  simp [opsReligarManual, run, step, setup, globais, carregarConfiguracoesOperacao,
    prefsVazias, handleLigar, atualizarSensores, lerTemperatura, lerCaixa,
    protecaoTemperatura, protecaoCaixaCheia, ligarCompressor, desligarCompressor, HIGH, LOW,
    sensorEnabled, DEVICE_DISCONNECTED_C, historicoZerado, millis, U32, incU32,
    tetoMenosCinco_60]
  norm_num [tetoMenosCinco_60]

/-! ## C3: loop pass with a disconnected sensor -/

/-- C3 (evaluation of the code where the claim fails). On a freshly booted
device in automatic mode, a loop pass at `t = 100000` whose temperature read
returns `DEVICE_DISCONNECTED_C` ends with the compressor running:
`atualizarSensores` keeps the stale `temperaturaAtual = 25` and
`controleAutomatico` starts the compressor on it. -/
theorem C3_disconnected_sensor_tick_starts_compressor :
    (setup true prefsVazias 0).modoManual = false ∧
    (loopTick 100000 100000 DEVICE_DISCONNECTED_C HIGH
      (setup true prefsVazias 0)).compressorLigado = true ∧
    (loopTick 100000 100000 DEVICE_DISCONNECTED_C HIGH
      (setup true prefsVazias 0)).pinoRele = LOW := by
  simp [loopTick, setup, globais, carregarConfiguracoesOperacao, prefsVazias,
    atualizarSensores, lerTemperatura, lerCaixa, protecaoTemperatura, protecaoCaixaCheia,
    controleAutomatico, avaliarCondicoes, decisaoTemporizada, ligarCompressor,
    desligarCompressor, HIGH, LOW, sensorEnabled, DEVICE_DISCONNECTED_C, historicoZerado,
    millis, subU32, U32, incU32]
  norm_num


/-! ## C5: when the temperature latch is set -/

/-- C5 (counterexample). On a freshly booted device (compressor off, latch
clear, ceiling 60) a valid reading of 70 leaves the latch clear. -/
theorem C5_counterexample_latch_stays_clear :
    (70 : ℚ) ≠ DEVICE_DISCONNECTED_C ∧
    (70 : ℚ) ≥ (setup true prefsVazias 0).temperaturaMaxima ∧
    (atualizarSensores 1000 70 HIGH
      (setup true prefsVazias 0)).desligadoPorTemperaturaAlta = false := by
  simp [setup, globais, carregarConfiguracoesOperacao, prefsVazias,
    atualizarSensores, lerTemperatura, lerCaixa, protecaoTemperatura, protecaoCaixaCheia,
    desligarCompressor, HIGH, LOW, sensorEnabled, DEVICE_DISCONNECTED_C, historicoZerado]
  norm_num

theorem lerTemperatura_valida (leitura : ℚ) (s : State) (hv : leitura ≠ DEVICE_DISCONNECTED_C) :
    lerTemperatura leitura s = { s with temperaturaAtual := leitura } := by
  simp [lerTemperatura, sensorEnabled, hv]

theorem desligarCompressor_latch (s : State) :
    (desligarCompressor s).desligadoPorTemperaturaAlta = s.desligadoPorTemperaturaAlta := by
  unfold desligarCompressor
  split_ifs <;> rfl

theorem salvar_latch (t : Nat) (s : State) :
    (salvarConfiguracoesOperacao t s).desligadoPorTemperaturaAlta
      = s.desligadoPorTemperaturaAlta := by
  simp only [salvarConfiguracoesOperacao]
  split_ifs <;> rfl

theorem salvar_modoManual (t : Nat) (s : State) :
    (salvarConfiguracoesOperacao t s).modoManual = s.modoManual := by
  simp only [salvarConfiguracoesOperacao]
  split_ifs <;> rfl

theorem salvar_temperaturaAtual (t : Nat) (s : State) :
    (salvarConfiguracoesOperacao t s).temperaturaAtual = s.temperaturaAtual := by
  simp only [salvarConfiguracoesOperacao]
  split_ifs <;> rfl

theorem salvar_temperaturaMaxima (t : Nat) (s : State) :
    (salvarConfiguracoesOperacao t s).temperaturaMaxima = s.temperaturaMaxima := by
  simp only [salvarConfiguracoesOperacao]
  split_ifs <;> rfl

theorem desligarCompressor_temperaturaAtual (s : State) :
    (desligarCompressor s).temperaturaAtual = s.temperaturaAtual := by
  unfold desligarCompressor
  split_ifs <;> rfl

theorem desligarCompressor_temperaturaMaxima (s : State) :
    (desligarCompressor s).temperaturaMaxima = s.temperaturaMaxima := by
  unfold desligarCompressor
  split_ifs <;> rfl

theorem registrarEnchimento_latch (t : Nat) (s : State) :
    (registrarEnchimento t s).desligadoPorTemperaturaAlta = s.desligadoPorTemperaturaAlta := by
  simp only [registrarEnchimento]
  split_ifs <;> simp [desligarCompressor_latch, salvar_latch]

theorem registrarEnchimento_temperaturaAtual (t : Nat) (s : State) :
    (registrarEnchimento t s).temperaturaAtual = s.temperaturaAtual := by
  simp only [registrarEnchimento]
  split_ifs <;> simp [desligarCompressor_temperaturaAtual, salvar_temperaturaAtual]

theorem registrarEnchimento_temperaturaMaxima (t : Nat) (s : State) :
    (registrarEnchimento t s).temperaturaMaxima = s.temperaturaMaxima := by
  simp only [registrarEnchimento]
  split_ifs <;> simp [desligarCompressor_temperaturaMaxima, salvar_temperaturaMaxima]

theorem registrarEnchimento_compressorLigado (t : Nat) (s : State) :
    (registrarEnchimento t s).compressorLigado
      = (s.compressorLigado && s.modoManual) := by
  simp only [registrarEnchimento]
  split_ifs with h
  · have h1 : s.modoManual = false := by simpa [salvar_modoManual] using h
    simp [desligarCompressor_compressorLigado, h1]
  · have h1 : s.modoManual = true := by simpa [salvar_modoManual] using h
    simp [salvar_compressorLigado, h1]

theorem lerCaixa_latch (t : Nat) (pinoCaixa : Bool) (s : State) :
    (lerCaixa t pinoCaixa s).desligadoPorTemperaturaAlta = s.desligadoPorTemperaturaAlta := by
  simp only [lerCaixa]
  split_ifs <;> simp [registrarEnchimento_latch]

theorem lerCaixa_temperaturaAtual (t : Nat) (pinoCaixa : Bool) (s : State) :
    (lerCaixa t pinoCaixa s).temperaturaAtual = s.temperaturaAtual := by
  simp only [lerCaixa]
  split_ifs <;> simp [registrarEnchimento_temperaturaAtual]

theorem lerCaixa_temperaturaMaxima (t : Nat) (pinoCaixa : Bool) (s : State) :
    (lerCaixa t pinoCaixa s).temperaturaMaxima = s.temperaturaMaxima := by
  simp only [lerCaixa]
  split_ifs <;> simp [registrarEnchimento_temperaturaMaxima]

theorem lerCaixa_compressorLigado (t : Nat) (pinoCaixa : Bool) (s : State) :
    (lerCaixa t pinoCaixa s).compressorLigado =
      if completaEnchimento pinoCaixa s then (s.compressorLigado && s.modoManual)
      else s.compressorLigado := by
  simp only [lerCaixa, completaEnchimento, LOW]
  by_cases h1 : s.caixaCheia = true
  · simp [h1]
    split_ifs <;> rfl
  · have h1' : s.caixaCheia = false := by simpa using h1
    cases pinoCaixa <;> simp [h1', registrarEnchimento_compressorLigado]
    split_ifs <;> simp [registrarEnchimento_compressorLigado]

theorem protecaoCaixaCheia_latch (s : State) :
    (protecaoCaixaCheia s).desligadoPorTemperaturaAlta = s.desligadoPorTemperaturaAlta := by
  unfold protecaoCaixaCheia
  split_ifs <;> simp [desligarCompressor_latch]

theorem protecaoTemperatura_latch (s : State) :
    (protecaoTemperatura s).desligadoPorTemperaturaAlta =
      if s.temperaturaAtual ≥ s.temperaturaMaxima ∧ s.compressorLigado = true then true
      else s.desligadoPorTemperaturaAlta := by
  unfold protecaoTemperatura
  split_ifs <;> simp [desligarCompressor_latch]

/-- Value of the latch after `atualizarSensores` with a valid reading at or
above the ceiling. -/
theorem atualizarSensores_latch_quente (t : Nat) (leitura : ℚ) (pinoCaixa : Bool) (s : State)
    (hv : leitura ≠ DEVICE_DISCONNECTED_C) (hge : leitura ≥ s.temperaturaMaxima) :
    (atualizarSensores t leitura pinoCaixa s).desligadoPorTemperaturaAlta =
      if (if completaEnchimento pinoCaixa s then (s.compressorLigado && s.modoManual)
          else s.compressorLigado) = true then true
      else s.desligadoPorTemperaturaAlta := by
  unfold atualizarSensores
  rw [protecaoCaixaCheia_latch, protecaoTemperatura_latch, lerCaixa_latch,
    lerCaixa_temperaturaAtual, lerCaixa_temperaturaMaxima, lerCaixa_compressorLigado,
    lerTemperatura_valida leitura s hv]
  have h : completaEnchimento pinoCaixa { s with temperaturaAtual := leitura }
      ↔ completaEnchimento pinoCaixa s := Iff.rfl
  simp only [h, hge, true_and]

/-- C5 (amended). For a valid reading at or above the ceiling,
`atualizarSensores` returns with the latch set when the compressor was running
at the call and was not stopped, earlier in the same call, by a completed fill
recorded in automatic mode; when the compressor was off, or was stopped by such
a fill, the latch keeps the value it had. -/
theorem C5_latch_set_when_running (t : Nat) (leitura : ℚ) (pinoCaixa : Bool) (s : State)
    (hv : leitura ≠ DEVICE_DISCONNECTED_C) (hge : leitura ≥ s.temperaturaMaxima) :
    (s.compressorLigado = true →
      (s.modoManual = true ∨ ¬ completaEnchimento pinoCaixa s) →
      (atualizarSensores t leitura pinoCaixa s).desligadoPorTemperaturaAlta = true) ∧
    (s.compressorLigado = false →
      (atualizarSensores t leitura pinoCaixa s).desligadoPorTemperaturaAlta
        = s.desligadoPorTemperaturaAlta) ∧
    (s.modoManual = false → completaEnchimento pinoCaixa s →
      (atualizarSensores t leitura pinoCaixa s).desligadoPorTemperaturaAlta
        = s.desligadoPorTemperaturaAlta) := by
  rw [atualizarSensores_latch_quente t leitura pinoCaixa s hv hge]
  refine ⟨?_, ?_, ?_⟩
  · intro h1 h2
    rcases h2 with h2 | h2 <;> simp [h1, h2]
  · intro h1
    simp [h1]
  · intro h1 h2
    simp [h1, h2]

/-- C5 (witness). With the compressor started by hand (ceiling 60), a valid
reading of 70 sets the latch. -/
theorem C5_latch_set_when_running_witness :
    (70 : ℚ) ≠ DEVICE_DISCONNECTED_C ∧
    (70 : ℚ) ≥ estadoLigadoManual.temperaturaMaxima ∧
    estadoLigadoManual.compressorLigado = true ∧
    estadoLigadoManual.modoManual = true ∧
    (atualizarSensores 2000 70 HIGH estadoLigadoManual).desligadoPorTemperaturaAlta = true := by
  have hv : (70 : ℚ) ≠ DEVICE_DISCONNECTED_C := by norm_num [DEVICE_DISCONNECTED_C]
  have hge : (70 : ℚ) ≥ estadoLigadoManual.temperaturaMaxima := by
    simp [estadoLigadoManual, handleLigar, setup, globais, carregarConfiguracoesOperacao,
      prefsVazias, ligarCompressor]
    norm_num
  have hon : estadoLigadoManual.compressorLigado = true := by
    simp [estadoLigadoManual, handleLigar, setup, globais, carregarConfiguracoesOperacao,
      prefsVazias, ligarCompressor]
    norm_num
  have hman : estadoLigadoManual.modoManual = true := by
    simp [estadoLigadoManual, handleLigar, setup, globais, carregarConfiguracoesOperacao,
      prefsVazias, ligarCompressor]
    norm_num
  exact ⟨hv, hge, hon, hman,
    (C5_latch_set_when_running 2000 70 HIGH estadoLigadoManual hv hge).1 hon (Or.inl hman)⟩

/-! ## C6: hysteresis of the latched fault in `controleAutomatico` -/

theorem ligarCompressor_latch (t : Nat) (s : State) :
    (ligarCompressor t s).desligadoPorTemperaturaAlta = s.desligadoPorTemperaturaAlta := by
  simp only [ligarCompressor]
  split_ifs <;> rfl

theorem decisaoTemporizada_latch (t : Nat) (c : Bool) (s : State) :
    (decisaoTemporizada t c s).desligadoPorTemperaturaAlta = s.desligadoPorTemperaturaAlta := by
  simp only [decisaoTemporizada]
  split_ifs <;> simp [salvar_latch, desligarCompressor_latch, ligarCompressor_latch]

theorem decisaoTemporizada_insegura (t : Nat) (s : State) (hoff : s.compressorLigado = false) :
    (decisaoTemporizada t false s).compressorLigado = false := by
  simp [decisaoTemporizada, hoff]

/-- The hysteresis of `controleAutomatico` on the threshold the code
computes: with the latch set and the compressor off, a temperature at or above
`tetoMenosCinco temperaturaMaxima` keeps the latch and the compressor off, a
temperature below it clears the latch. -/
theorem controleAutomatico_histerese (t : Nat) (s : State)
    (hlatch : s.desligadoPorTemperaturaAlta = true) (hoff : s.compressorLigado = false) :
    (s.temperaturaAtual ≥ tetoMenosCinco s.temperaturaMaxima →
      (controleAutomatico t s).desligadoPorTemperaturaAlta = true ∧
      (controleAutomatico t s).compressorLigado = false) ∧
    (s.temperaturaAtual < tetoMenosCinco s.temperaturaMaxima →
      (controleAutomatico t s).desligadoPorTemperaturaAlta = false) := by
  constructor
  · intro h
    have hnot : ¬ s.temperaturaAtual < tetoMenosCinco s.temperaturaMaxima := not_lt.mpr h
    have h1 : avaliarCondicoes s = (s, false) := by
      simp [avaliarCondicoes, hlatch, hnot]
    simp only [controleAutomatico, h1, decisaoTemporizada_latch, hlatch,
      decisaoTemporizada_insegura t s hoff, and_self]
  · intro h
    have h1 : (avaliarCondicoes s).1 = { s with desligadoPorTemperaturaAlta := false } := by
      simp [avaliarCondicoes, hlatch, h]
    simp only [controleAutomatico, h1, decisaoTemporizada_latch]

/-- C6 (counterexample). The compressor is started at the default ceiling,
the ceiling is then set to the `float` nearest to `1e-20`, a reading of 25
stops the compressor and sets the latch, and the next reading is `-5`. The
temperature is below the ceiling minus 5 as rationals, yet `controleAutomatico`
keeps the latch: in `double`, the ceiling minus `5.0` is exactly `-5`. -/
theorem C6_counterexample_tiny_ceiling :
    (run (setup true prefsVazias 0) opsTetoMinusculo).desligadoPorTemperaturaAlta = true ∧
    (run (setup true prefsVazias 0) opsTetoMinusculo).compressorLigado = false ∧
    (run (setup true prefsVazias 0) opsTetoMinusculo).temperaturaMaxima
      = 12379400 / 2 ^ 90 ∧
    (run (setup true prefsVazias 0) opsTetoMinusculo).temperaturaAtual = -5 ∧
    (run (setup true prefsVazias 0) opsTetoMinusculo).temperaturaAtual
      < (run (setup true prefsVazias 0) opsTetoMinusculo).temperaturaMaxima - 5 ∧
    (controleAutomatico 300000
      (run (setup true prefsVazias 0) opsTetoMinusculo)).desligadoPorTemperaturaAlta
        = true := by
  have h1 : (run (setup true prefsVazias 0) opsTetoMinusculo).desligadoPorTemperaturaAlta
      = true := by
    simp [opsTetoMinusculo, run, step, setup, globais, carregarConfiguracoesOperacao,
      prefsVazias, atualizarSensores, lerTemperatura, lerCaixa, protecaoTemperatura,
      protecaoCaixaCheia, controleAutomatico, avaliarCondicoes, decisaoTemporizada,
      handleConfig, salvarConfiguracoesOperacao, ligarCompressor, desligarCompressor, HIGH,
      LOW, sensorEnabled, DEVICE_DISCONNECTED_C, millis, subU32, U32, SAVE_INTERVAL]
    norm_num
  have h2 : (run (setup true prefsVazias 0) opsTetoMinusculo).compressorLigado = false := by
    simp [opsTetoMinusculo, run, step, setup, globais, carregarConfiguracoesOperacao,
      prefsVazias, atualizarSensores, lerTemperatura, lerCaixa, protecaoTemperatura,
      protecaoCaixaCheia, controleAutomatico, avaliarCondicoes, decisaoTemporizada,
      handleConfig, salvarConfiguracoesOperacao, ligarCompressor, desligarCompressor, HIGH,
      LOW, sensorEnabled, DEVICE_DISCONNECTED_C, millis, subU32, U32, SAVE_INTERVAL]
    norm_num
  have h3 : (run (setup true prefsVazias 0) opsTetoMinusculo).temperaturaMaxima
      = 12379400 / 2 ^ 90 := by
    simp [opsTetoMinusculo, run, step, setup, globais, carregarConfiguracoesOperacao,
      prefsVazias, atualizarSensores, lerTemperatura, lerCaixa, protecaoTemperatura,
      protecaoCaixaCheia, controleAutomatico, avaliarCondicoes, decisaoTemporizada,
      handleConfig, salvarConfiguracoesOperacao, ligarCompressor, desligarCompressor, HIGH,
      LOW, sensorEnabled, DEVICE_DISCONNECTED_C, millis, subU32, U32, SAVE_INTERVAL]
    norm_num
  have h4 : (run (setup true prefsVazias 0) opsTetoMinusculo).temperaturaAtual = -5 := by
    simp [opsTetoMinusculo, run, step, setup, globais, carregarConfiguracoesOperacao,
      prefsVazias, atualizarSensores, lerTemperatura, lerCaixa, protecaoTemperatura,
      protecaoCaixaCheia, controleAutomatico, avaliarCondicoes, decisaoTemporizada,
      handleConfig, salvarConfiguracoesOperacao, ligarCompressor, desligarCompressor, HIGH,
      LOW, sensorEnabled, DEVICE_DISCONNECTED_C, millis, subU32, U32, SAVE_INTERVAL]
    norm_num
  refine ⟨h1, h2, h3, h4, by rw [h3, h4]; norm_num, ?_⟩
  refine ((controleAutomatico_histerese 300000 _ h1 h2).1 ?_).1
  rw [h3, h4, tetoMenosCinco_minusculo]

/-- C6 (amended). For every ceiling `c` whose difference `c - 5` is a `double`
value, and every temperature: with the latch set and the compressor off,
`controleAutomatico` keeps the latch and does not start the compressor when
the temperature is at or above `c - 5`, and clears the latch when it is below
`c - 5`. -/
theorem C6_hysteresis_band (t : Nat) (s : State)
    (hlatch : s.desligadoPorTemperaturaAlta = true) (hoff : s.compressorLigado = false)
    (hexato : EhDouble (s.temperaturaMaxima - 5)) :
    (s.temperaturaAtual ≥ s.temperaturaMaxima - 5 →
      (controleAutomatico t s).desligadoPorTemperaturaAlta = true ∧
      (controleAutomatico t s).compressorLigado = false) ∧
    (s.temperaturaAtual < s.temperaturaMaxima - 5 →
      (controleAutomatico t s).desligadoPorTemperaturaAlta = false) := by
  have h := controleAutomatico_histerese t s hlatch hoff
  rw [tetoMenosCinco_exato _ hexato] at h
  exact h

/-- C6 (witness). With the ceiling at 60 (`60 - 5 = 55` is a `double` value),
a temperature of 58 keeps the latch and the compressor off, and a temperature
of 54.9 clears the latch. -/
theorem C6_hysteresis_band_witness :
    (estadoTravado 58).temperaturaMaxima = 60 ∧
    EhDouble ((estadoTravado 58).temperaturaMaxima - 5) ∧
    ((controleAutomatico 200000 (estadoTravado 58)).desligadoPorTemperaturaAlta = true ∧
      (controleAutomatico 200000 (estadoTravado 58)).compressorLigado = false) ∧
    (controleAutomatico 200000 (estadoTravado (549 / 10))).desligadoPorTemperaturaAlta
      = false := by
  have hm : ∀ x, (estadoTravado x).temperaturaMaxima = 60 := by
    intro x
    simp [estadoTravado, setup, globais, carregarConfiguracoesOperacao, prefsVazias]
  have ha : ∀ x, (estadoTravado x).temperaturaAtual = x := fun x => rfl
  have hoff : ∀ x, (estadoTravado x).compressorLigado = false := by
    intro x
    simp [estadoTravado, setup, globais, carregarConfiguracoesOperacao, prefsVazias]
  have hd : ∀ x, EhDouble ((estadoTravado x).temperaturaMaxima - 5) := by
    intro x
    rw [hm x]
    exact ehDouble_55
  refine ⟨hm 58, hd 58, ?_, ?_⟩
  · refine (C6_hysteresis_band 200000 (estadoTravado 58) rfl (hoff _) (hd _)).1 ?_
    rw [hm, ha]
    norm_num
  · refine (C6_hysteresis_band 200000 (estadoTravado (549 / 10)) rfl (hoff _) (hd _)).2 ?_
    rw [hm, ha]
    norm_num

/-! ## C7: a blocked manual start changes nothing -/

/-- C7. When the tank is full or the current temperature is at or above the
ceiling, `handleLigar` answers with one of its three "Ação bloqueada" texts
and returns the state it received, every field unchanged (among them
`compressorLigado`, the relay pin and its write log, `modoManual`, both
partial-cycle counters and the fill-window start). -/
theorem C7_handleLigar_blocked (t : Nat) (s : State)
    (h : s.caixaCheia = true ∨ s.temperaturaAtual ≥ s.temperaturaMaxima) :
    (handleLigar t s).2.bloqueada = true ∧ (handleLigar t s).1 = s := by
  simp only [handleLigar]
  rcases h with h | h
  · simp [h, Resposta.bloqueada]
  · have h5 : s.temperaturaAtual ≥ tetoMenosCinco s.temperaturaMaxima :=
      le_trans (tetoMenosCinco_le _) h
    split_ifs <;> simp [Resposta.bloqueada]

/-- C7 (witness). Freshly booted device whose tank switch reads full: the
manual start is refused with the tank-full text and the state is unchanged. -/
theorem C7_handleLigar_blocked_witness :
    ({ setup true prefsVazias 0 with caixaCheia := true } : State).caixaCheia = true ∧
    (handleLigar 5000 { setup true prefsVazias 0 with caixaCheia := true }).2.bloqueada = true ∧
    (handleLigar 5000 { setup true prefsVazias 0 with caixaCheia := true }).1
      = { setup true prefsVazias 0 with caixaCheia := true } :=
  ⟨rfl, C7_handleLigar_blocked 5000 { setup true prefsVazias 0 with caixaCheia := true }
    (Or.inl rfl)⟩


/-! ## C8: debounce of `salvarConfiguracoesOperacao` -/

theorem subU32_millis_add (t d : Nat) (hd : d < U32) :
    subU32 (millis (t + d)) (millis t) = d := by
  unfold subU32 millis U32 at *
  omega

/-- Two save requests less than `SAVE_INTERVAL` apart, the first one being the
first since boot and made at a time where `millis()` is not 0: the first
writes the store, the second changes nothing. -/
theorem salvar_duas_vezes (t d : Nat) (s : State) (h0 : s.ultimoSaveMillis = 0)
    (ht : millis t ≠ 0) (hd : d < SAVE_INTERVAL) :
    (salvarConfiguracoesOperacao t s).gravacoes = s.gravacoes + 1 ∧
    (salvarConfiguracoesOperacao t s).preferences = gravarPreferences s ∧
    salvarConfiguracoesOperacao (t + d) (salvarConfiguracoesOperacao t s)
      = salvarConfiguracoesOperacao t s := by
  have h1 : salvarConfiguracoesOperacao t s =
      { s with preferences := gravarPreferences s, gravacoes := s.gravacoes + 1,
               ultimoSaveMillis := millis t } := by
    simp [salvarConfiguracoesOperacao, h0]
  refine ⟨by rw [h1], by rw [h1], ?_⟩
  rw [h1]
  have hd' : d < U32 := by
    unfold SAVE_INTERVAL at hd
    unfold U32
    omega
  simp only [salvarConfiguracoesOperacao, subU32_millis_add t d hd']
  rw [if_pos ⟨hd, ht⟩]

/-- C8 (evaluation of the code where the claim fails). The first save request
since boot is made when `millis()` reads 0 (`t = 2 ^ 32`, just after the
counter wrapped) and a second one 10000 ms later: both calls write the store,
and the second one changes `ultimoSaveMillis`. -/
theorem C8_first_save_at_millis_zero_is_not_debounced :
    (setup true prefsVazias 0).ultimoSaveMillis = 0 ∧
    (setup true prefsVazias 0).gravacoes = 0 ∧
    millis 4294967296 = 0 ∧
    (salvarConfiguracoesOperacao 4294967296 (setup true prefsVazias 0)).gravacoes = 1 ∧
    (salvarConfiguracoesOperacao (4294967296 + 10000)
      (salvarConfiguracoesOperacao 4294967296 (setup true prefsVazias 0))).gravacoes = 2 ∧
    (salvarConfiguracoesOperacao (4294967296 + 10000)
      (salvarConfiguracoesOperacao 4294967296 (setup true prefsVazias 0))).ultimoSaveMillis
        = 10000 := by
  simp [salvarConfiguracoesOperacao, setup, globais, carregarConfiguracoesOperacao,
    prefsVazias, millis, subU32, U32, SAVE_INTERVAL]

/-! ## C9: reset of the counters and of the fill history -/

/-- C9 (counterexample). The store was written at `t = 700000` with
`ciclosParc = 1`; a reset requested 10000 ms later zeroes the counter in
memory but writes nothing: the store still holds `ciclosParc = 1`. -/
theorem C9_counterexample_reset_not_persisted :
    (run (setup true prefsVazias 0) opsUmCiclo).gravacoes = 1 ∧
    (run (setup true prefsVazias 0) opsUmCiclo).ultimoSaveMillis = 700000 ∧
    (handleZerarCiclos 710000
      (run (setup true prefsVazias 0) opsUmCiclo)).1.ciclosParciaisOperacao = 0 ∧
    (handleZerarCiclos 710000
      (run (setup true prefsVazias 0) opsUmCiclo)).1.gravacoes = 1 ∧
    (handleZerarCiclos 710000
      (run (setup true prefsVazias 0) opsUmCiclo)).1.preferences.ciclosParc = some 1 := by
  simp [opsUmCiclo, run, step, handleZerarCiclos, salvarConfiguracoesOperacao, setup, globais,
    carregarConfiguracoesOperacao, prefsVazias, controleAutomatico, avaliarCondicoes,
    decisaoTemporizada, ligarCompressor, desligarCompressor, gravarPreferences, HIGH, LOW,
    historicoZerado, millis, subU32, U32, incU32, SAVE_INTERVAL]
  norm_num

/-- C9 (amended). `handleZerarCiclos` zeroes both counters, zero-fills the 5
history slots and sets the cursor to 0 in memory, then calls
`salvarConfiguracoesOperacao`, whose debounce applies: when a write happened
(`ultimoSaveMillis ≠ 0`) less than 60000 ms before, the store is left as it
was; otherwise the store is written in this call, with the zeroed values. -/
theorem C9_handleZerarCiclos_reset_and_debounced_save (t : Nat) (s : State) :
    (handleZerarCiclos t s).1.ciclosParciaisOperacao = 0 ∧
    (handleZerarCiclos t s).1.ciclosEnchimentoCompletos = 0 ∧
    (handleZerarCiclos t s).1.historicoEnchimento = List.replicate 5 ⟨0, 0⟩ ∧
    (handleZerarCiclos t s).1.indiceHistoricoEnchimento = 0 ∧
    (if subU32 (millis t) s.ultimoSaveMillis < 60000 ∧ s.ultimoSaveMillis ≠ 0 then
      (handleZerarCiclos t s).1.gravacoes = s.gravacoes ∧
      (handleZerarCiclos t s).1.preferences = s.preferences ∧
      (handleZerarCiclos t s).1.ultimoSaveMillis = s.ultimoSaveMillis
    else
      (handleZerarCiclos t s).1.gravacoes = s.gravacoes + 1 ∧
      (handleZerarCiclos t s).1.preferences.ciclosParc = some 0 ∧
      (handleZerarCiclos t s).1.preferences.ciclosEnch = some 0 ∧
      (handleZerarCiclos t s).1.preferences.hEnchimento = some (List.replicate 5 ⟨0, 0⟩) ∧
      (handleZerarCiclos t s).1.preferences.idxHEnch = some 0 ∧
      (handleZerarCiclos t s).1.ultimoSaveMillis = millis t) := by
  simp only [handleZerarCiclos, salvarConfiguracoesOperacao, SAVE_INTERVAL]
  split_ifs with h
  · simp [historicoZerado, TAMANHO_HISTORICO_ENCHIMENTO, slotZero]
  · simp [historicoZerado, TAMANHO_HISTORICO_ENCHIMENTO, slotZero, gravarPreferences]


/-! ## C4: rest interval before an automatic start -/

/-- C4 (counterexample). Automatic mode, `tempoDescanso = 100000`: the
compressor, running since `t = 100000`, is stopped by over-temperature at
`t = 300000` and `controleAutomatico` starts it again at `t = 301000`, 1000 ms
after that stop. -/
theorem C4_counterexample_restart_after_overtemperature :
    (run (setup true prefsVazias 0) [.controleAutomatico 100000]).compressorLigado = true ∧
    (run (setup true prefsVazias 0)
      [.controleAutomatico 100000, .atualizarSensores 300000 70 HIGH]).compressorLigado
        = false ∧
    (run (setup true prefsVazias 0) opsParadaTemperatura).modoManual = false ∧
    (run (setup true prefsVazias 0) opsParadaTemperatura).compressorLigado = false ∧
    (run (setup true prefsVazias 0) opsParadaTemperatura).tempoDescanso = 100000 ∧
    (controleAutomatico 301000
      (run (setup true prefsVazias 0) opsParadaTemperatura)).compressorLigado = true ∧
    301000 - 300000 < (run (setup true prefsVazias 0) opsParadaTemperatura).tempoDescanso := by
  simp [opsParadaTemperatura, run, step, setup, globais, carregarConfiguracoesOperacao,
    prefsVazias, atualizarSensores, lerTemperatura, lerCaixa, protecaoTemperatura,
    protecaoCaixaCheia, controleAutomatico, avaliarCondicoes, decisaoTemporizada,
    ligarCompressor, desligarCompressor, HIGH, LOW, sensorEnabled, DEVICE_DISCONNECTED_C,
    historicoZerado, millis, subU32, U32, incU32, tetoMenosCinco_60]
  norm_num [tetoMenosCinco_60]


theorem desligarCompressor_utc (s : State) :
    (desligarCompressor s).ultimoTempoControle = s.ultimoTempoControle := by
  unfold desligarCompressor
  split_ifs <;> rfl

theorem ligarCompressor_utc (t : Nat) (s : State) :
    (ligarCompressor t s).ultimoTempoControle = s.ultimoTempoControle := by
  simp only [ligarCompressor]
  split_ifs <;> rfl

theorem salvar_utc (t : Nat) (s : State) :
    (salvarConfiguracoesOperacao t s).ultimoTempoControle = s.ultimoTempoControle := by
  simp only [salvarConfiguracoesOperacao]
  split_ifs <;> rfl

theorem registrarEnchimento_utc (t : Nat) (s : State) :
    (registrarEnchimento t s).ultimoTempoControle =
      if s.modoManual = false then millis t else s.ultimoTempoControle := by
  simp only [registrarEnchimento, salvar_modoManual]
  split_ifs <;> simp [salvar_utc]

theorem lerTemperatura_utc (leitura : ℚ) (s : State) :
    (lerTemperatura leitura s).ultimoTempoControle = s.ultimoTempoControle := by
  unfold lerTemperatura
  split_ifs <;> simp [desligarCompressor_utc]

theorem lerCaixa_utc (t : Nat) (pinoCaixa : Bool) (s : State) :
    (lerCaixa t pinoCaixa s).ultimoTempoControle = s.ultimoTempoControle ∨
    (lerCaixa t pinoCaixa s).ultimoTempoControle = millis t := by
  simp only [lerCaixa]
  split_ifs
  all_goals
    first
    | exact Or.inl rfl
    | (rw [registrarEnchimento_utc]
       split_ifs
       · exact Or.inr rfl
       · exact Or.inl rfl)

theorem protecaoTemperatura_utc (s : State) :
    (protecaoTemperatura s).ultimoTempoControle = s.ultimoTempoControle := by
  unfold protecaoTemperatura
  split_ifs <;> simp [desligarCompressor_utc]

theorem protecaoCaixaCheia_utc (s : State) :
    (protecaoCaixaCheia s).ultimoTempoControle = s.ultimoTempoControle := by
  unfold protecaoCaixaCheia
  split_ifs <;> simp [desligarCompressor_utc]

theorem atualizarSensores_utc (t : Nat) (leitura : ℚ) (pinoCaixa : Bool) (s : State) :
    (atualizarSensores t leitura pinoCaixa s).ultimoTempoControle = s.ultimoTempoControle ∨
    (atualizarSensores t leitura pinoCaixa s).ultimoTempoControle = millis t := by
  unfold atualizarSensores
  rw [protecaoCaixaCheia_utc, protecaoTemperatura_utc]
  have h := lerCaixa_utc t pinoCaixa (lerTemperatura leitura s)
  rwa [lerTemperatura_utc] at h

theorem avaliarCondicoes_utc (s : State) :
    (avaliarCondicoes s).1.ultimoTempoControle = s.ultimoTempoControle := by
  simp only [avaliarCondicoes]
  split_ifs <;> rfl

theorem avaliarCondicoes_tempoDescanso (s : State) :
    (avaliarCondicoes s).1.tempoDescanso = s.tempoDescanso := by
  simp only [avaliarCondicoes]
  split_ifs <;> rfl

theorem decisaoTemporizada_utc (t : Nat) (c : Bool) (s : State) :
    (decisaoTemporizada t c s).ultimoTempoControle = s.ultimoTempoControle ∨
    (decisaoTemporizada t c s).ultimoTempoControle = millis t := by
  simp only [decisaoTemporizada]
  split_ifs <;> simp [salvar_utc]

theorem controleAutomatico_utc (t : Nat) (s : State) :
    (controleAutomatico t s).ultimoTempoControle = s.ultimoTempoControle ∨
    (controleAutomatico t s).ultimoTempoControle = millis t := by
  have h := decisaoTemporizada_utc t (avaliarCondicoes s).2 (avaliarCondicoes s).1
  rwa [avaliarCondicoes_utc] at h

theorem handleLigar_utc (t : Nat) (s : State) :
    (handleLigar t s).1.ultimoTempoControle = s.ultimoTempoControle := by
  simp only [handleLigar]
  split_ifs <;> simp [ligarCompressor_utc]

theorem handleConfig_utc (t : Nat) (a b : Option Int) (c : Option ℚ) (s : State) :
    (handleConfig t a b c s).1.ultimoTempoControle = s.ultimoTempoControle := by
  simp only [handleConfig]
  rcases a with _ | a <;> rcases b with _ | b <;> rcases c with _ | c <;>
    simp only [] <;> split_ifs <;> simp [salvar_utc]

/-- An operation leaves `ultimoTempoControle` as it was or sets it to the
value of `millis()` at the time it runs. -/
theorem step_utc (s : State) (op : Op) :
    (step s op).ultimoTempoControle = s.ultimoTempoControle ∨
    (step s op).ultimoTempoControle = millis op.tempo := by
  cases op with
  | atualizarSensores t leitura pinoCaixa => exact atualizarSensores_utc t leitura pinoCaixa s
  | controleAutomatico t => exact controleAutomatico_utc t s
  | handleLigar t => exact Or.inl (handleLigar_utc t s)
  | handleDesligar t => exact Or.inl (by simp [step, handleDesligar, desligarCompressor_utc])
  | handleAutomatico t => exact Or.inr rfl
  | handleConfig t a b c => exact Or.inl (handleConfig_utc t a b c s)
  | handleZerarCiclos t => exact Or.inl (by simp [step, handleZerarCiclos, salvar_utc])

/-- Along operations at non-decreasing times, `ultimoTempoControle` is the
clock value of a time between the time it was known to be set and the time of
the last operation. -/
theorem run_utc (ops : List Op) :
    ∀ (s : State) (a lo : Nat), s.ultimoTempoControle = millis a → a ≤ lo →
      temposCrescentes lo ops →
      ∃ a', a ≤ a' ∧ a' ≤ ultimoTempo lo ops ∧ (run s ops).ultimoTempoControle = millis a' := by
  induction ops with
  | nil =>
    intro s a lo h1 h2 _
    exact ⟨a, le_refl a, h2, h1⟩
  | cons op ops ih =>
    intro s a lo h1 h2 h3
    obtain ⟨h4, h5⟩ := h3
    rcases step_utc s op with h6 | h6
    · obtain ⟨a', h7, h8, h9⟩ := ih (step s op) a op.tempo (h6.trans h1) (h2.trans h4) h5
      exact ⟨a', h7, h8, h9⟩
    · obtain ⟨a', h7, h8, h9⟩ := ih (step s op) op.tempo op.tempo h6 (le_refl _) h5
      exact ⟨a', (h2.trans h4).trans h7, h8, h9⟩

theorem subU32_millis_le (t a : Nat) (h : a ≤ t) : subU32 (millis t) (millis a) ≤ t - a := by
  unfold subU32 millis U32
  omega

/-- An automatic start requires the rest interval to have elapsed on the
32-bit clock since `ultimoTempoControle`. -/
theorem controleAutomatico_liga (t : Nat) (s : State) (hoff : s.compressorLigado = false)
    (hon : (controleAutomatico t s).compressorLigado = true) :
    subU32 (millis t) s.ultimoTempoControle ≥ s.tempoDescanso := by
  have h1 : (avaliarCondicoes s).1.compressorLigado = false := by
    rw [avaliarCondicoes_compressorLigado]; exact hoff
  simp only [controleAutomatico, decisaoTemporizada] at hon
  rw [if_neg (by simp [h1])] at hon
  split_ifs at hon with h2
  · rw [avaliarCondicoes_utc, avaliarCondicoes_tempoDescanso] at h2
    exact h2.1
  · rw [h1] at hon
    exact absurd hon (by simp)

/-- A stop by the on-duration timer sets `ultimoTempoControle` to the clock
value at the stop. -/
theorem controleAutomatico_parada_utc (t : Nat) (s : State) (hon : s.compressorLigado = true)
    (hoff : (controleAutomatico t s).compressorLigado = false) :
    (controleAutomatico t s).ultimoTempoControle = millis t := by
  have h1 : (avaliarCondicoes s).1.compressorLigado = true := by
    rw [avaliarCondicoes_compressorLigado]; exact hon
  simp only [controleAutomatico, decisaoTemporizada] at hoff ⊢
  rw [if_pos h1] at hoff ⊢
  split_ifs at hoff ⊢ with h2
  · simp [salvar_utc]
  · rw [h1] at hoff
    exact absurd hoff (by simp)

/-- A fill recorded in automatic mode stops the compressor and sets
`ultimoTempoControle` to the clock value at that moment. -/
theorem registrarEnchimento_automatico (t : Nat) (s : State) (h : s.modoManual = false) :
    (registrarEnchimento t s).compressorLigado = false ∧
    (registrarEnchimento t s).ultimoTempoControle = millis t := by
  rw [registrarEnchimento_compressorLigado, registrarEnchimento_utc]
  simp [h]

/-- C4 (amended). Let `ultimoTempoControle` have been assigned at time `d`
(it is assigned at boot, when `controleAutomatico` stops the compressor on the
on-duration timer or starts it, when `atualizarSensores` records a completed
fill in automatic mode, and by `handleAutomatico`). After any operations at
non-decreasing times from `d` on, if `controleAutomatico` switches the
compressor from off to on at a time `t`, then `t` is at least `tempoDescanso`
milliseconds after `d`. -/
theorem C4_rest_since_timer_reference (s0 : State) (d : Nat) (ops : List Op) (t : Nat)
    (h0 : s0.ultimoTempoControle = millis d)
    (hmono : temposCrescentes d ops) (ht : ultimoTempo d ops ≤ t)
    (hoff : (run s0 ops).compressorLigado = false)
    (hon : (controleAutomatico t (run s0 ops)).compressorLigado = true) :
    d + (run s0 ops).tempoDescanso ≤ t := by
  obtain ⟨a, h1, h2, h3⟩ := run_utc ops s0 d d h0 (le_refl d) hmono
  have h4 := controleAutomatico_liga t (run s0 ops) hoff hon
  rw [h3] at h4
  have h5 := subU32_millis_le t a (h2.trans ht)
  omega


/-- C4 (witness). The compressor is stopped by the on-duration timer at
`t = 700000` (`tempoDescanso = 100000`); after a sensor update at
`t = 750000`, `controleAutomatico` starts it at `t = 800000`, a full rest
interval after the stop. -/
theorem C4_rest_since_timer_reference_witness :
    (run (setup true prefsVazias 0) opsUmCiclo).ultimoTempoControle = millis 700000 ∧
    temposCrescentes 700000 [.atualizarSensores 750000 30 HIGH] ∧
    ultimoTempo 700000 [.atualizarSensores 750000 30 HIGH] ≤ 800000 ∧
    (run (run (setup true prefsVazias 0) opsUmCiclo)
      [.atualizarSensores 750000 30 HIGH]).compressorLigado = false ∧
    (controleAutomatico 800000 (run (run (setup true prefsVazias 0) opsUmCiclo)
      [.atualizarSensores 750000 30 HIGH])).compressorLigado = true ∧
    700000 + (run (run (setup true prefsVazias 0) opsUmCiclo)
      [.atualizarSensores 750000 30 HIGH]).tempoDescanso ≤ 800000 := by
  have h0 : (run (setup true prefsVazias 0) opsUmCiclo).ultimoTempoControle
      = millis 700000 := by
    simp [opsUmCiclo, run, step, salvarConfiguracoesOperacao, setup, globais,
      carregarConfiguracoesOperacao, prefsVazias, controleAutomatico, avaliarCondicoes,
      decisaoTemporizada, ligarCompressor, desligarCompressor, millis, subU32, U32]
    norm_num
  have hm : temposCrescentes 700000 [.atualizarSensores 750000 30 HIGH] := by
    simp [temposCrescentes, Op.tempo]
  have ht : ultimoTempo 700000 [.atualizarSensores 750000 30 HIGH] ≤ 800000 := by
    simp [ultimoTempo, Op.tempo]
  have hoff : (run (run (setup true prefsVazias 0) opsUmCiclo)
      [.atualizarSensores 750000 30 HIGH]).compressorLigado = false := by
    simp [opsUmCiclo, run, step, salvarConfiguracoesOperacao, setup, globais,
      carregarConfiguracoesOperacao, prefsVazias, controleAutomatico, avaliarCondicoes,
      decisaoTemporizada, ligarCompressor, desligarCompressor, atualizarSensores,
      lerTemperatura, lerCaixa, protecaoTemperatura, protecaoCaixaCheia, HIGH, LOW,
      sensorEnabled, DEVICE_DISCONNECTED_C, millis, subU32, U32]
    norm_num
  have hon : (controleAutomatico 800000 (run (run (setup true prefsVazias 0) opsUmCiclo)
      [.atualizarSensores 750000 30 HIGH])).compressorLigado = true := by
    simp [opsUmCiclo, run, step, salvarConfiguracoesOperacao, setup, globais,
      carregarConfiguracoesOperacao, prefsVazias, controleAutomatico, avaliarCondicoes,
      decisaoTemporizada, ligarCompressor, desligarCompressor, atualizarSensores,
      lerTemperatura, lerCaixa, protecaoTemperatura, protecaoCaixaCheia, HIGH, LOW,
      sensorEnabled, DEVICE_DISCONNECTED_C, millis, subU32, U32]
    norm_num
  exact ⟨h0, hm, ht, hoff, hon,
    C4_rest_since_timer_reference (run (setup true prefsVazias 0) opsUmCiclo) 700000
      [.atualizarSensores 750000 30 HIGH] 800000 h0 hm ht hoff hon⟩


/-! ## C10: the fill history is a ring buffer of 5 slots -/

theorem desligarCompressor_historia (s : State) :
    historia (desligarCompressor s) = historia s := by
  unfold desligarCompressor
  split_ifs <;> rfl

theorem ligarCompressor_historia (t : Nat) (s : State) :
    historia (ligarCompressor t s) = historia s := by
  simp only [ligarCompressor]
  split_ifs <;> rfl

theorem salvar_historia (t : Nat) (s : State) :
    historia (salvarConfiguracoesOperacao t s) = historia s := by
  simp only [salvarConfiguracoesOperacao]
  split_ifs <;> rfl

theorem lerTemperatura_historia (leitura : ℚ) (s : State) :
    historia (lerTemperatura leitura s) = historia s := by
  unfold lerTemperatura
  split_ifs
  · rfl
  · exact desligarCompressor_historia s
  · rfl

theorem protecaoTemperatura_historia (s : State) :
    historia (protecaoTemperatura s) = historia s := by
  unfold protecaoTemperatura
  split_ifs
  · exact desligarCompressor_historia _
  · rfl

theorem protecaoCaixaCheia_historia (s : State) :
    historia (protecaoCaixaCheia s) = historia s := by
  unfold protecaoCaixaCheia
  split_ifs
  · exact desligarCompressor_historia _
  · rfl

theorem registrarEnchimento_historia (t : Nat) (s : State) :
    historia (registrarEnchimento t s) =
      (escreverSlot s.historicoEnchimento s.indiceHistoricoEnchimento (registroDe t s),
        Int.tmod (s.indiceHistoricoEnchimento + 1) 5) := by
  simp only [registrarEnchimento]
  split_ifs
  · exact (desligarCompressor_historia _).trans (salvar_historia t _)
  · exact salvar_historia t _

theorem lerCaixa_historia (t : Nat) (pinoCaixa : Bool) (s : State) :
    historia (lerCaixa t pinoCaixa s) =
      if completaEnchimento pinoCaixa s then
        (escreverSlot s.historicoEnchimento s.indiceHistoricoEnchimento (registroDe t s),
          Int.tmod (s.indiceHistoricoEnchimento + 1) 5)
      else historia s := by
  by_cases hc : completaEnchimento pinoCaixa s
  · rw [if_pos hc]
    obtain ⟨h1, h2, h3⟩ := hc
    have h4 : lerCaixa t pinoCaixa s = registrarEnchimento t { s with caixaCheia := true } := by
      simp [lerCaixa, h1, h2, h3, LOW]
    rw [h4, registrarEnchimento_historia]
    rfl
  · rw [if_neg hc]
    simp only [lerCaixa]
    split_ifs with h1 h2 h3
    · exact absurd h1.1 (by simp [h2.1])
    · rfl
    · exfalso
      apply hc
      refine ⟨h3.1, ?_, h3.2.2⟩
      have h4 : (!pinoCaixa) = true := h3.2.1
      simpa [LOW] using h4
    · rfl

theorem atualizarSensores_historia (t : Nat) (leitura : ℚ) (pinoCaixa : Bool) (s : State) :
    historia (atualizarSensores t leitura pinoCaixa s) =
      if completaEnchimento pinoCaixa s then
        (escreverSlot s.historicoEnchimento s.indiceHistoricoEnchimento (registroDe t s),
          Int.tmod (s.indiceHistoricoEnchimento + 1) 5)
      else historia s := by
  unfold atualizarSensores
  rw [protecaoCaixaCheia_historia, protecaoTemperatura_historia, lerCaixa_historia]
  have h1 : historia (lerTemperatura leitura s) = historia s := lerTemperatura_historia leitura s
  have h2 : lerTemperatura leitura s = { s with temperaturaAtual := leitura } ∨
      lerTemperatura leitura s = desligarCompressor s ∨ lerTemperatura leitura s = s := by
    unfold lerTemperatura
    split_ifs <;> simp
  have h3 : (lerTemperatura leitura s).caixaCheia = s.caixaCheia := by
    rcases h2 with h | h | h <;> rw [h]
    exact desligarCompressor_caixaCheia s
  have h4 : (lerTemperatura leitura s).inicioCicloEnchimentoMillis
      = s.inicioCicloEnchimentoMillis := by
    rcases h2 with h | h | h <;> rw [h]
    unfold desligarCompressor
    split_ifs <;> rfl
  have h5 : (lerTemperatura leitura s).ciclosParciaisNesteEnchimento
      = s.ciclosParciaisNesteEnchimento := by
    rcases h2 with h | h | h <;> rw [h]
    unfold desligarCompressor
    split_ifs <;> rfl
  have h6 : (lerTemperatura leitura s).historicoEnchimento = s.historicoEnchimento :=
    congrArg Prod.fst h1
  have h7 : (lerTemperatura leitura s).indiceHistoricoEnchimento
      = s.indiceHistoricoEnchimento := congrArg Prod.snd h1
  simp only [completaEnchimento, registroDe, h1, h3, h4, h5, h6, h7]

theorem avaliarCondicoes_historia (s : State) :
    historia (avaliarCondicoes s).1 = historia s := by
  simp only [avaliarCondicoes]
  split_ifs <;> rfl

theorem decisaoTemporizada_historia (t : Nat) (c : Bool) (s : State) :
    historia (decisaoTemporizada t c s) = historia s := by
  simp only [decisaoTemporizada]
  split_ifs
  · exact (salvar_historia t _).trans (desligarCompressor_historia s)
  · rfl
  · exact ligarCompressor_historia t s
  · rfl

theorem controleAutomatico_historia (t : Nat) (s : State) :
    historia (controleAutomatico t s) = historia s :=
  (decisaoTemporizada_historia t _ _).trans (avaliarCondicoes_historia s)

theorem handleLigar_historia (t : Nat) (s : State) :
    historia (handleLigar t s).1 = historia s := by
  simp only [handleLigar]
  split_ifs <;> first | rfl | exact ligarCompressor_historia t _

theorem handleConfig_historia (t : Nat) (a b : Option Int) (c : Option ℚ) (s : State) :
    historia (handleConfig t a b c s).1 = historia s := by
  simp only [handleConfig]
  rcases a with _ | a <;> rcases b with _ | b <;> rcases c with _ | c <;>
    simp only [] <;> split_ifs <;> first | rfl | exact salvar_historia t _

/-- Effect of one operation other than `handleZerarCiclos` on the history: a
stored record goes to the slot under the cursor and the cursor advances. -/
theorem step_historia (s : State) (op : Op) (hz : op.zera = false) :
    historia (step s op) =
      match enchimentoRegistrado s op with
      | some r => (escreverSlot s.historicoEnchimento s.indiceHistoricoEnchimento r,
          Int.tmod (s.indiceHistoricoEnchimento + 1) 5)
      | none => historia s := by
  cases op with
  | atualizarSensores t leitura pinoCaixa =>
    simp only [step, enchimentoRegistrado, atualizarSensores_historia]
    split_ifs <;> rfl
  | controleAutomatico t => exact controleAutomatico_historia t s
  | handleLigar t => exact handleLigar_historia t s
  | handleDesligar t => exact desligarCompressor_historia _
  | handleAutomatico t => rfl
  | handleConfig t a b c => exact handleConfig_historia t a b c s
  | handleZerarCiclos t => simp [Op.zera] at hz

theorem anelOk_zerado : AnelOk [] (historicoZerado, 0) := by
  refine ⟨by simp [historicoZerado, TAMANHO_HISTORICO_ENCHIMENTO], by simp, ?_, ?_⟩
  · intro j h1 h2
    simp at h2
    omega
  · intro i _ h2
    unfold historicoZerado TAMANHO_HISTORICO_ENCHIMENTO
    rw [List.getElem?_replicate, if_pos h2]

theorem anelOk_registra (recs : List EnchimentoInfo) (h : List EnchimentoInfo) (c : Int)
    (r : EnchimentoInfo) (hok : AnelOk recs (h, c)) :
    AnelOk (recs ++ [r]) (escreverSlot h c r, Int.tmod (c + 1) 5) := by
  obtain ⟨h1, h2, h3, h4⟩ := hok
  simp only at h1 h2 h3 h4
  have hw : escreverSlot h c r = h.set (recs.length % 5) r := by
    unfold escreverSlot
    rw [h2, if_pos (Int.natCast_nonneg _), Int.toNat_natCast]
  have hlen : (recs ++ [r]).length = recs.length + 1 := by simp
  refine ⟨?_, ?_, ?_, ?_⟩
  · simp only [hw, List.length_set, h1]
  · simp only [hlen, h2]
    rw [Int.tmod_eq_emod] <;> omega
  · intro j hj1 hj2 hj3
    simp only [hw]
    rw [hlen] at hj2 hj3
    by_cases hj : j = recs.length + 1
    · subst hj
      have e1 : recs.length + 1 - 1 = recs.length := by omega
      rw [e1, List.getElem?_set_self (by rw [h1]; omega),
        List.getElem?_append_right (le_refl _)]
      simp
    · have hne : recs.length % 5 ≠ (j - 1) % 5 := by omega
      rw [List.getElem?_set_ne hne, List.getElem?_append_left (by omega)]
      exact h3 j hj1 (by omega) (by omega)
  · intro i hi1 hi2
    simp only [hw]
    rw [hlen] at hi1
    have hne : recs.length % 5 ≠ i := by omega
    rw [List.getElem?_set_ne hne]
    exact h4 i (by omega) hi2

/-- The ring-buffer relation is kept along any operations other than
`handleZerarCiclos`, the stored records being appended. -/
theorem run_anelOk (ops : List Op) :
    ∀ (s : State) (recs : List EnchimentoInfo), AnelOk recs (historia s) →
      (∀ op ∈ ops, op.zera = false) →
      AnelOk (recs ++ registros s ops) (historia (run s ops)) := by
  induction ops with
  | nil =>
    intro s recs h _
    simpa [registros, run] using h
  | cons op ops ih =>
    intro s recs h hz
    have hop : op.zera = false := hz op (List.mem_cons_self _ _)
    have hrest : ∀ o ∈ ops, o.zera = false := fun o ho => hz o (List.mem_cons_of_mem _ ho)
    have hstep := step_historia s op hop
    have hrun : run s (op :: ops) = run (step s op) ops := rfl
    rw [hrun]
    cases hr : enchimentoRegistrado s op with
    | none =>
      rw [hr] at hstep
      have h1 : AnelOk recs (historia (step s op)) := by rw [hstep]; exact h
      have h2 := ih (step s op) recs h1 hrest
      simpa [registros, hr] using h2
    | some r =>
      rw [hr] at hstep
      have h1 : AnelOk (recs ++ [r]) (historia (step s op)) := by
        rw [hstep]
        exact anelOk_registra recs _ _ r h
      have h2 := ih (step s op) (recs ++ [r]) h1 hrest
      simpa [registros, hr] using h2

/-- C10. Start from a zeroed history with cursor 0 and run any operations
other than `handleZerarCiclos`; let `k` be the number of completed fills that
`atualizarSensores` recorded. Then the history has 5 slots, the cursor is
`k % 5`, fill record number `j` sits in slot `(j - 1) % 5` for every `j` with
`max 1 (k - 4) ≤ j ≤ k`, and every slot `i` with `k ≤ i < 5` is still zero. -/
theorem C10_history_ring_buffer (s : State) (ops : List Op)
    (hhist : s.historicoEnchimento = historicoZerado)
    (hidx : s.indiceHistoricoEnchimento = 0)
    (hops : ∀ op ∈ ops, op.zera = false) :
    (run s ops).historicoEnchimento.length = 5 ∧
    (run s ops).indiceHistoricoEnchimento = (((registros s ops).length % 5 : Nat) : Int) ∧
    (∀ j, 1 ≤ j → j ≤ (registros s ops).length → (registros s ops).length ≤ j + 4 →
      (run s ops).historicoEnchimento[(j - 1) % 5]? = (registros s ops)[j - 1]?) ∧
    (∀ i, (registros s ops).length ≤ i → i < 5 →
      (run s ops).historicoEnchimento[i]? = some slotZero) := by
  have h0 : AnelOk [] (historia s) := by
    unfold historia
    rw [hhist, hidx]
    exact anelOk_zerado
  have h := run_anelOk ops s [] h0 hops
  simpa [AnelOk, historia] using h


theorem tmod_1_5 : Int.tmod 1 5 = 1 := by decide

theorem tmod_2_5 : Int.tmod 2 5 = 2 := by decide

theorem tmod_3_5 : Int.tmod 3 5 = 3 := by decide

theorem tmod_4_5 : Int.tmod 4 5 = 4 := by decide

theorem tmod_5_5 : Int.tmod 5 5 = 0 := by decide

/-- C10 (witness). On a freshly booted device, seven fills of 10, 20, ...,
70 seconds leave records 6, 7, 3, 4, 5 in slots 0 to 4 (exactly records 3
to 7) and the cursor at 2. -/
theorem C10_history_ring_buffer_witness :
    (setup true prefsVazias 0).historicoEnchimento = historicoZerado ∧
    (setup true prefsVazias 0).indiceHistoricoEnchimento = 0 ∧
    (∀ op ∈ opsSeteEnchimentos, op.zera = false) ∧
    registros (setup true prefsVazias 0) opsSeteEnchimentos
      = [⟨10, 0⟩, ⟨20, 0⟩, ⟨30, 0⟩, ⟨40, 0⟩, ⟨50, 0⟩, ⟨60, 0⟩, ⟨70, 0⟩] ∧
    (run (setup true prefsVazias 0) opsSeteEnchimentos).historicoEnchimento
      = [⟨60, 0⟩, ⟨70, 0⟩, ⟨30, 0⟩, ⟨40, 0⟩, ⟨50, 0⟩] ∧
    ((run (setup true prefsVazias 0) opsSeteEnchimentos).historicoEnchimento.length = 5 ∧
      (run (setup true prefsVazias 0) opsSeteEnchimentos).indiceHistoricoEnchimento =
        (((registros (setup true prefsVazias 0) opsSeteEnchimentos).length % 5 : Nat) : Int) ∧
      (∀ j, 1 ≤ j → j ≤ (registros (setup true prefsVazias 0) opsSeteEnchimentos).length →
        (registros (setup true prefsVazias 0) opsSeteEnchimentos).length ≤ j + 4 →
        (run (setup true prefsVazias 0) opsSeteEnchimentos).historicoEnchimento[(j - 1) % 5]?
          = (registros (setup true prefsVazias 0) opsSeteEnchimentos)[j - 1]?) ∧
      (∀ i, (registros (setup true prefsVazias 0) opsSeteEnchimentos).length ≤ i → i < 5 →
        (run (setup true prefsVazias 0) opsSeteEnchimentos).historicoEnchimento[i]?
          = some slotZero)) := by
  have hhist : (setup true prefsVazias 0).historicoEnchimento = historicoZerado := by
    simp [setup, globais, carregarConfiguracoesOperacao, prefsVazias]
  have hidx : (setup true prefsVazias 0).indiceHistoricoEnchimento = 0 := by
    simp [setup, globais, carregarConfiguracoesOperacao, prefsVazias]
  have hops : ∀ op ∈ opsSeteEnchimentos, op.zera = false := by
    simp [opsSeteEnchimentos, Op.zera]
  refine ⟨hhist, hidx, hops, ?_, ?_,
    C10_history_ring_buffer (setup true prefsVazias 0) opsSeteEnchimentos hhist hidx hops⟩
  · simp [opsSeteEnchimentos, registros, enchimentoRegistrado, completaEnchimento, registroDe,
      step, setup, globais, carregarConfiguracoesOperacao, prefsVazias, atualizarSensores,
      lerTemperatura, lerCaixa, registrarEnchimento, salvarConfiguracoesOperacao,
      gravarPreferences, escreverSlot, protecaoTemperatura, protecaoCaixaCheia,
      desligarCompressor, HIGH, LOW, sensorEnabled, DEVICE_DISCONNECTED_C, historicoZerado,
      TAMANHO_HISTORICO_ENCHIMENTO, slotZero, SAVE_INTERVAL, millis, subU32, U32, incU32]
  · simp [opsSeteEnchimentos, run, step, setup, globais, carregarConfiguracoesOperacao,
      prefsVazias, atualizarSensores, lerTemperatura, lerCaixa, registrarEnchimento,
      salvarConfiguracoesOperacao, gravarPreferences, escreverSlot, protecaoTemperatura,
      protecaoCaixaCheia, desligarCompressor, HIGH, LOW, sensorEnabled,
      DEVICE_DISCONNECTED_C, historicoZerado, TAMANHO_HISTORICO_ENCHIMENTO, slotZero,
      SAVE_INTERVAL, millis, subU32, U32, incU32, tmod_1_5, tmod_2_5, tmod_3_5, tmod_4_5,
      tmod_5_5]

/-! ## C18: the tank switch is edge-triggered -/

theorem desligarCompressor_rastreador (s : State) :
    rastreador (desligarCompressor s) = rastreador s := by
  unfold desligarCompressor
  split_ifs <;> rfl

theorem lerTemperatura_rastreador (leitura : ℚ) (s : State) :
    rastreador (lerTemperatura leitura s) = rastreador s := by
  unfold lerTemperatura
  split_ifs
  · rfl
  · exact desligarCompressor_rastreador s
  · rfl

theorem lerTemperatura_caixaCheia (leitura : ℚ) (s : State) :
    (lerTemperatura leitura s).caixaCheia = s.caixaCheia := by
  unfold lerTemperatura
  split_ifs
  · rfl
  · exact desligarCompressor_caixaCheia s
  · rfl

theorem protecaoTemperatura_rastreador (s : State) :
    rastreador (protecaoTemperatura s) = rastreador s := by
  unfold protecaoTemperatura
  split_ifs
  · exact desligarCompressor_rastreador _
  · rfl

theorem protecaoCaixaCheia_rastreador (s : State) :
    rastreador (protecaoCaixaCheia s) = rastreador s := by
  unfold protecaoCaixaCheia
  split_ifs
  · exact desligarCompressor_rastreador _
  · rfl

theorem protecaoTemperatura_caixaCheia (s : State) :
    (protecaoTemperatura s).caixaCheia = s.caixaCheia := by
  unfold protecaoTemperatura
  split_ifs
  · exact desligarCompressor_caixaCheia _
  · rfl

theorem protecaoCaixaCheia_caixaCheia (s : State) :
    (protecaoCaixaCheia s).caixaCheia = s.caixaCheia := by
  unfold protecaoCaixaCheia
  split_ifs
  · exact desligarCompressor_caixaCheia _
  · rfl

theorem registrarEnchimento_caixaCheia (t : Nat) (s : State) :
    (registrarEnchimento t s).caixaCheia = s.caixaCheia := by
  simp only [registrarEnchimento]
  split_ifs <;> simp [desligarCompressor_caixaCheia, salvar_caixaCheia]

theorem lerCaixa_caixaCheia (t : Nat) (pinoCaixa : Bool) (s : State) :
    (lerCaixa t pinoCaixa s).caixaCheia = !pinoCaixa := by
  simp only [lerCaixa]
  split_ifs <;> simp [registrarEnchimento_caixaCheia]

theorem atualizarSensores_caixaCheia (t : Nat) (leitura : ℚ) (pinoCaixa : Bool) (s : State) :
    (atualizarSensores t leitura pinoCaixa s).caixaCheia = !pinoCaixa := by
  unfold atualizarSensores
  rw [protecaoCaixaCheia_caixaCheia, protecaoTemperatura_caixaCheia, lerCaixa_caixaCheia]

/-- A tank-switch read equal to the stored level changes nothing. -/
theorem lerCaixa_mesmo_nivel (t : Nat) (pinoCaixa : Bool) (s : State)
    (h : s.caixaCheia = !pinoCaixa) : lerCaixa t pinoCaixa s = s := by
  obtain ⟨tl, td, tm, cl, mm, cc, ta, cpo, utc, usm, icm, icem, dpta, he, ihe, cec, cpne, pr,
    er, pf, gv⟩ := s
  simp only at h
  subst h
  cases pinoCaixa <;> simp [lerCaixa]

/-- C18. For every state and two consecutive `atualizarSensores` calls that
read the same level of the tank switch (at any times, with any temperature
readings), the second call leaves the fill tracker as the first one left it:
fill-window start, partial cycles of the fill, the history slots, the cursor
and `ciclosEnchimentoCompletos`. -/
theorem C18_same_level_twice_is_noop (t1 t2 : Nat) (leitura1 leitura2 : ℚ)
    (pinoCaixa : Bool) (s : State) :
    rastreador (atualizarSensores t2 leitura2 pinoCaixa
        (atualizarSensores t1 leitura1 pinoCaixa s))
      = rastreador (atualizarSensores t1 leitura1 pinoCaixa s) := by
  have h1 := atualizarSensores_caixaCheia t1 leitura1 pinoCaixa s
  generalize atualizarSensores t1 leitura1 pinoCaixa s = s1 at h1
  unfold atualizarSensores
  rw [protecaoCaixaCheia_rastreador, protecaoTemperatura_rastreador,
    lerCaixa_mesmo_nivel t2 pinoCaixa _ (by rw [lerTemperatura_caixaCheia]; exact h1),
    lerTemperatura_rastreador]

/-! ## C19: the relay operations are idempotent -/

theorem desligarCompressor_desligado (s : State) (h : s.compressorLigado = false) :
    desligarCompressor s = s := by
  simp [desligarCompressor, h]

theorem ligarCompressor_escritas (t : Nat) (s : State) :
    (ligarCompressor t s).escritasRele = s.escritasRele ∨
    (ligarCompressor t s).escritasRele = s.escritasRele ++ [LOW] := by
  simp only [ligarCompressor]
  split_ifs
  · exact Or.inr rfl
  · exact Or.inr rfl
  · exact Or.inl rfl

theorem ligarCompressor_ligado (t : Nat) (s : State) (h : s.compressorLigado = true) :
    ligarCompressor t s = s := by
  simp [ligarCompressor, h]

theorem ligarCompressor_liga (t : Nat) (s : State)
    (h : s.compressorLigado = false ∧ s.caixaCheia = false) :
    (ligarCompressor t s).compressorLigado = true := by
  simp only [ligarCompressor, if_pos h]
  split_ifs <;> rfl

/-- C19. For every state: `desligarCompressor` twice gives the same state
(relay write log included) as once; `ligarCompressor` twice, at any two times,
gives the same state as once, so the relay is written at most once, both
partial-cycle counters are incremented at most once and `inicioCicloMillis` is
the one set by the first call; and `desligarCompressor` on a compressor that is
already off returns the state unchanged. -/
theorem C19_relay_operations_idempotent (t1 t2 : Nat) (s : State) :
    desligarCompressor (desligarCompressor s) = desligarCompressor s ∧
    ligarCompressor t2 (ligarCompressor t1 s) = ligarCompressor t1 s ∧
    ((ligarCompressor t2 (ligarCompressor t1 s)).escritasRele = s.escritasRele ∨
      (ligarCompressor t2 (ligarCompressor t1 s)).escritasRele = s.escritasRele ++ [LOW]) ∧
    ((desligarCompressor (desligarCompressor s)).escritasRele = s.escritasRele ∨
      (desligarCompressor (desligarCompressor s)).escritasRele = s.escritasRele ++ [HIGH]) ∧
    (s.compressorLigado = false → desligarCompressor s = s) := by
  have hd : desligarCompressor (desligarCompressor s) = desligarCompressor s :=
    desligarCompressor_desligado _ (desligarCompressor_compressorLigado s)
  have hl : ligarCompressor t2 (ligarCompressor t1 s) = ligarCompressor t1 s := by
    by_cases h2 : s.compressorLigado = false ∧ s.caixaCheia = false
    · exact ligarCompressor_ligado t2 _ (ligarCompressor_liga t1 s h2)
    · have h3 : ∀ t, ligarCompressor t s = s := fun t => by rw [ligarCompressor, if_neg h2]
      rw [h3 t1, h3 t2]
  refine ⟨hd, hl, ?_, ?_, desligarCompressor_desligado s⟩
  · rw [hl]
    exact ligarCompressor_escritas t1 s
  · rw [hd]
    unfold desligarCompressor
    split_ifs
    · exact Or.inr rfl
    · exact Or.inl rfl

/-- C19 (witness). On a freshly booted device the compressor is off and
`desligarCompressor` changes nothing. -/
theorem C19_relay_operations_idempotent_witness :
    (setup true prefsVazias 0).compressorLigado = false ∧
    desligarCompressor (setup true prefsVazias 0) = setup true prefsVazias 0 :=
  ⟨setup_compressorLigado true prefsVazias 0,
    (C19_relay_operations_idempotent 0 0 (setup true prefsVazias 0)).2.2.2.2
      (setup_compressorLigado true prefsVazias 0)⟩

/-! ## C20: the loop in manual mode -/

theorem desligarCompressor_modoManual (s : State) :
    (desligarCompressor s).modoManual = s.modoManual := by
  unfold desligarCompressor
  split_ifs <;> rfl

theorem lerTemperatura_modoManual (leitura : ℚ) (s : State) :
    (lerTemperatura leitura s).modoManual = s.modoManual := by
  unfold lerTemperatura
  split_ifs
  · rfl
  · exact desligarCompressor_modoManual s
  · rfl

theorem registrarEnchimento_modoManual (t : Nat) (s : State) :
    (registrarEnchimento t s).modoManual = s.modoManual := by
  simp only [registrarEnchimento]
  split_ifs <;> simp [desligarCompressor_modoManual, salvar_modoManual]

theorem lerCaixa_modoManual (t : Nat) (pinoCaixa : Bool) (s : State) :
    (lerCaixa t pinoCaixa s).modoManual = s.modoManual := by
  simp only [lerCaixa]
  split_ifs <;> simp [registrarEnchimento_modoManual]

theorem protecaoTemperatura_modoManual (s : State) :
    (protecaoTemperatura s).modoManual = s.modoManual := by
  unfold protecaoTemperatura
  split_ifs
  · exact desligarCompressor_modoManual _
  · rfl

theorem protecaoCaixaCheia_modoManual (s : State) :
    (protecaoCaixaCheia s).modoManual = s.modoManual := by
  unfold protecaoCaixaCheia
  split_ifs
  · exact desligarCompressor_modoManual _
  · rfl

theorem atualizarSensores_modoManual (t : Nat) (leitura : ℚ) (pinoCaixa : Bool) (s : State) :
    (atualizarSensores t leitura pinoCaixa s).modoManual = s.modoManual := by
  unfold atualizarSensores
  rw [protecaoCaixaCheia_modoManual, protecaoTemperatura_modoManual, lerCaixa_modoManual,
    lerTemperatura_modoManual]

theorem desligarCompressor_ligado_imp (s : State)
    (h : (desligarCompressor s).compressorLigado = true) : s.compressorLigado = true := by
  rw [desligarCompressor_compressorLigado] at h
  exact absurd h (by simp)

theorem lerTemperatura_ligado_imp (leitura : ℚ) (s : State)
    (h : (lerTemperatura leitura s).compressorLigado = true) : s.compressorLigado = true := by
  unfold lerTemperatura at h
  split_ifs at h
  · exact h
  · exact desligarCompressor_ligado_imp s h
  · exact h

theorem lerCaixa_ligado_imp (t : Nat) (pinoCaixa : Bool) (s : State)
    (h : (lerCaixa t pinoCaixa s).compressorLigado = true) : s.compressorLigado = true := by
  rw [lerCaixa_compressorLigado] at h
  split_ifs at h
  · simp at h
    exact h.1
  · exact h

theorem protecaoTemperatura_ligado_imp (s : State)
    (h : (protecaoTemperatura s).compressorLigado = true) : s.compressorLigado = true := by
  unfold protecaoTemperatura at h
  split_ifs at h with h1
  · exact h1.2
  · exact h

theorem protecaoCaixaCheia_ligado_imp (s : State)
    (h : (protecaoCaixaCheia s).compressorLigado = true) : s.compressorLigado = true := by
  unfold protecaoCaixaCheia at h
  split_ifs at h with h1
  · exact h1.2
  · exact h

/-- A sensor update never starts the compressor. -/
theorem atualizarSensores_ligado_imp (t : Nat) (leitura : ℚ) (pinoCaixa : Bool) (s : State)
    (h : (atualizarSensores t leitura pinoCaixa s).compressorLigado = true) :
    s.compressorLigado = true :=
  lerTemperatura_ligado_imp leitura s
    (lerCaixa_ligado_imp t pinoCaixa _
      (protecaoTemperatura_ligado_imp _ (protecaoCaixaCheia_ligado_imp _ h)))

/-- A sensor update with a valid reading under the ceiling and the tank not
full leaves a running compressor running. -/
theorem atualizarSensores_mantem_ligado (t : Nat) (leitura : ℚ) (s : State)
    (hon : s.compressorLigado = true) (hv : leitura ≠ DEVICE_DISCONNECTED_C)
    (hlt : leitura < s.temperaturaMaxima) :
    (atualizarSensores t leitura HIGH s).compressorLigado = true := by
  obtain ⟨tl, td, tm, cl, mm, cc, ta, cpo, utc, usm, icm, icem, dpta, he, ihe, cec, cpne, pr,
    er, pf, gv⟩ := s
  simp only at hon hlt
  subst hon
  have h1 : ¬ tm ≤ leitura := not_le.mpr hlt
  cases cc <;>
    simp [atualizarSensores, lerTemperatura, lerCaixa, protecaoTemperatura,
      protecaoCaixaCheia, sensorEnabled, hv, HIGH, h1]

/-- C20. In manual mode a loop pass, at any times and with any readings,
never switches the compressor on, and it leaves a running compressor on when
the temperature read is valid and below the ceiling and the tank switch reads
not full: no elapsed-time test is involved. -/
theorem C20_manual_mode_tick (tS tC : Nat) (leitura : ℚ) (pinoCaixa : Bool) (s : State)
    (hman : s.modoManual = true) :
    (s.compressorLigado = false →
      (loopTick tS tC leitura pinoCaixa s).compressorLigado = false) ∧
    (s.compressorLigado = true → leitura ≠ DEVICE_DISCONNECTED_C →
      leitura < s.temperaturaMaxima → pinoCaixa = HIGH →
      (loopTick tS tC leitura pinoCaixa s).compressorLigado = true) := by
  have h1 : loopTick tS tC leitura pinoCaixa s = atualizarSensores tS leitura pinoCaixa s := by
    simp [loopTick, atualizarSensores_modoManual, hman]
  rw [h1]
  constructor
  · intro hoff
    by_contra hc
    have h2 : (atualizarSensores tS leitura pinoCaixa s).compressorLigado = true := by
      simpa using hc
    rw [atualizarSensores_ligado_imp tS leitura pinoCaixa s h2] at hoff
    exact absurd hoff (by simp)
  · intro hon hv hlt hp
    subst hp
    exact atualizarSensores_mantem_ligado tS leitura s hon hv hlt

/-- C20 (witness). A compressor started by hand at `t = 1000` is still running
after a loop pass ten hours later (reading 30 degrees, tank not full), far
beyond `tempoLigado`. -/
theorem C20_manual_mode_tick_witness :
    estadoLigadoManual.modoManual = true ∧
    estadoLigadoManual.compressorLigado = true ∧
    (loopTick 36000000 36000000 30 HIGH estadoLigadoManual).compressorLigado = true := by
  have hman : estadoLigadoManual.modoManual = true := by
    simp [estadoLigadoManual, handleLigar, setup, globais, carregarConfiguracoesOperacao,
      prefsVazias, ligarCompressor]
    norm_num
  have hon : estadoLigadoManual.compressorLigado = true := by
    simp [estadoLigadoManual, handleLigar, setup, globais, carregarConfiguracoesOperacao,
      prefsVazias, ligarCompressor]
    norm_num
  have hmax : (30 : ℚ) < estadoLigadoManual.temperaturaMaxima := by
    simp [estadoLigadoManual, handleLigar, setup, globais, carregarConfiguracoesOperacao,
      prefsVazias, ligarCompressor]
    norm_num
  exact ⟨hman, hon,
    (C20_manual_mode_tick 36000000 36000000 30 HIGH estadoLigadoManual hman).2 hon
      (by norm_num [DEVICE_DISCONNECTED_C]) hmax rfl⟩

/-! ## C14 and C15: validation of the configuration and when it is saved -/

theorem salvar_tempoLigado (t : Nat) (s : State) :
    (salvarConfiguracoesOperacao t s).tempoLigado = s.tempoLigado := by
  simp only [salvarConfiguracoesOperacao]
  split_ifs <;> rfl

theorem salvar_tempoDescanso (t : Nat) (s : State) :
    (salvarConfiguracoesOperacao t s).tempoDescanso = s.tempoDescanso := by
  simp only [salvarConfiguracoesOperacao]
  split_ifs <;> rfl

/-- The three parameters after `handleConfig`. -/
theorem handleConfig_parametros (t : Nat) (a b : Option Int) (c : Option ℚ) (s : State) :
    (handleConfig t a b c s).1.tempoLigado = novoTempoLigado a s ∧
    (handleConfig t a b c s).1.tempoDescanso = novoTempoDescanso b s ∧
    (handleConfig t a b c s).1.temperaturaMaxima = novaTemperaturaMaxima c s := by
  simp only [handleConfig, novoTempoLigado, novoTempoDescanso, novaTemperaturaMaxima]
  rcases a with _ | a <;> rcases b with _ | b <;> rcases c with _ | c <;>
    simp only [] <;> split_ifs <;>
    simp [salvar_tempoLigado, salvar_tempoDescanso, salvar_temperaturaMaxima]

/-- C14. After `handleConfig`, `tempoLigado` is the requested on-duration
(minutes times 60000, as a 32-bit product) if the argument is present and that
duration is at least 60000, and its previous value otherwise; `tempoDescanso`
likewise with the bound 1000; `temperaturaMaxima` is the requested value if
present and positive, and its previous value otherwise. Each parameter depends
only on its own argument, and the bounds `tempoLigado ≥ 60000`,
`tempoDescanso ≥ 1000` and `temperaturaMaxima > 0` are preserved. -/
theorem C14_handleConfig_validates_each_field (t : Nat) (a b : Option Int) (c : Option ℚ)
    (s : State) :
    ((handleConfig t a b c s).1.tempoLigado =
      match a with
      | some m => if minutosParaMillis m ≥ 60000 then minutosParaMillis m else s.tempoLigado
      | none => s.tempoLigado) ∧
    ((handleConfig t a b c s).1.tempoDescanso =
      match b with
      | some m => if minutosParaMillis m ≥ 1000 then minutosParaMillis m else s.tempoDescanso
      | none => s.tempoDescanso) ∧
    ((handleConfig t a b c s).1.temperaturaMaxima =
      match c with
      | some v => if v > 0 then v else s.temperaturaMaxima
      | none => s.temperaturaMaxima) ∧
    (s.tempoLigado ≥ 60000 → (handleConfig t a b c s).1.tempoLigado ≥ 60000) ∧
    (s.tempoDescanso ≥ 1000 → (handleConfig t a b c s).1.tempoDescanso ≥ 1000) ∧
    (s.temperaturaMaxima > 0 → (handleConfig t a b c s).1.temperaturaMaxima > 0) := by
  obtain ⟨h1, h2, h3⟩ := handleConfig_parametros t a b c s
  rw [h1, h2, h3]
  refine ⟨rfl, rfl, rfl, ?_, ?_, ?_⟩
  · intro h
    unfold novoTempoLigado
    rcases a with _ | m
    · exact h
    · simp only []
      split_ifs with h4
      · exact h4
      · exact h
  · intro h
    unfold novoTempoDescanso
    rcases b with _ | m
    · exact h
    · simp only []
      split_ifs with h4
      · exact h4
      · exact h
  · intro h
    unfold novaTemperaturaMaxima
    rcases c with _ | v
    · exact h
    · simp only []
      split_ifs with h4
      · exact h4
      · exact h

/-- C14 (witness). On a freshly booted device (600000, 100000, 60) a request
with on-duration 5 minutes, rest 0 minutes (invalid) and ceiling 45 sets
`tempoLigado = 300000` and `temperaturaMaxima = 45`, keeps
`tempoDescanso = 100000`, and the bounds still hold. -/
theorem C14_handleConfig_validates_each_field_witness :
    (setup true prefsVazias 0).tempoLigado ≥ 60000 ∧
    (setup true prefsVazias 0).tempoDescanso ≥ 1000 ∧
    (setup true prefsVazias 0).temperaturaMaxima > 0 ∧
    (handleConfig 5000 (some 5) (some 0) (some 45) (setup true prefsVazias 0)).1.tempoLigado
      = 300000 ∧
    (handleConfig 5000 (some 5) (some 0) (some 45) (setup true prefsVazias 0)).1.tempoDescanso
      = 100000 ∧
    (handleConfig 5000 (some 5) (some 0) (some 45)
      (setup true prefsVazias 0)).1.temperaturaMaxima = 45 ∧
    (handleConfig 5000 (some 5) (some 0) (some 45) (setup true prefsVazias 0)).1.tempoLigado
      ≥ 60000 ∧
    (handleConfig 5000 (some 5) (some 0) (some 45) (setup true prefsVazias 0)).1.tempoDescanso
      ≥ 1000 ∧
    (handleConfig 5000 (some 5) (some 0) (some 45)
      (setup true prefsVazias 0)).1.temperaturaMaxima > 0 := by
  have k := C14_handleConfig_validates_each_field 5000 (some 5) (some 0) (some 45)
    (setup true prefsVazias 0)
  have e1 : (setup true prefsVazias 0).tempoLigado = 600000 := by
    simp [setup, globais, carregarConfiguracoesOperacao, prefsVazias]
  have e2 : (setup true prefsVazias 0).tempoDescanso = 100000 := by
    simp [setup, globais, carregarConfiguracoesOperacao, prefsVazias]
  have e3 : (setup true prefsVazias 0).temperaturaMaxima = 60 := by
    simp [setup, globais, carregarConfiguracoesOperacao, prefsVazias]
  have g1 : (setup true prefsVazias 0).tempoLigado ≥ 60000 := by rw [e1]; decide
  have g2 : (setup true prefsVazias 0).tempoDescanso ≥ 1000 := by rw [e2]; decide
  have g3 : (setup true prefsVazias 0).temperaturaMaxima > 0 := by rw [e3]; norm_num
  have m5 : minutosParaMillis 5 = 300000 := by decide
  have m0 : minutosParaMillis 0 = 0 := by decide
  refine ⟨g1, g2, g3, ?_, ?_, ?_, k.2.2.2.1 g1, k.2.2.2.2.1 g2, k.2.2.2.2.2 g3⟩
  · rw [k.1]
    simp [m5]
  · rw [k.2.1]
    simp [m0, e2]
  · rw [k.2.2.1]
    norm_num

/-- C15 (counterexample). On a freshly booted device (600000 ms, ceiling 60) a
request re-submitting `tempoligado = 10` minutes and `temperaturamax = 60`
leaves the three parameters as they were, and still answers "Configurações
salvas!" and writes the store. -/
theorem C15_counterexample_resubmitted_values_are_saved :
    (handleConfig 5000 (some 10) none (some 60) (setup true prefsVazias 0)).1.tempoLigado
      = (setup true prefsVazias 0).tempoLigado ∧
    (handleConfig 5000 (some 10) none (some 60) (setup true prefsVazias 0)).1.tempoDescanso
      = (setup true prefsVazias 0).tempoDescanso ∧
    (handleConfig 5000 (some 10) none (some 60) (setup true prefsVazias 0)).1.temperaturaMaxima
      = (setup true prefsVazias 0).temperaturaMaxima ∧
    (handleConfig 5000 (some 10) none (some 60) (setup true prefsVazias 0)).2
      = Resposta.configuracoesSalvas ∧
    (handleConfig 5000 (some 10) none (some 60) (setup true prefsVazias 0)).1
      = salvarConfiguracoesOperacao 5000 (setup true prefsVazias 0) ∧
    (setup true prefsVazias 0).gravacoes = 0 ∧
    (handleConfig 5000 (some 10) none (some 60) (setup true prefsVazias 0)).1.gravacoes = 1 := by
  have m10 : minutosParaMillis 10 = 600000 := by decide
  simp [handleConfig, m10, salvarConfiguracoesOperacao, setup, globais,
    carregarConfiguracoesOperacao, prefsVazias, millis, subU32, U32, SAVE_INTERVAL]

/-- C15 (amended). `handleConfig` calls `salvarConfiguracoesOperacao` (and
answers "Configurações salvas!") exactly when at least one argument is present
and valid, whether or not the accepted value differs from the stored one; the
save is then made on the state with the accepted values applied. With no
accepted argument it answers "Nenhuma alteração válida." and returns the state
unchanged, without calling the save. -/
theorem C15_save_iff_some_argument_accepted (t : Nat) (a b : Option Int) (c : Option ℚ)
    (s : State) :
    handleConfig t a b c s =
      if argumentoAceito a b c = true then
        (salvarConfiguracoesOperacao t (aplicarParametros a b c s), Resposta.configuracoesSalvas)
      else (s, Resposta.nenhumaAlteracao) := by
  rcases a with _ | a <;> rcases b with _ | b <;> rcases c with _ | c <;>
    simp only [handleConfig, argumentoAceito, aplicarParametros, novoTempoLigado,
      novoTempoDescanso, novaTemperaturaMaxima] <;>
    split_ifs <;> simp_all
  all_goals
    first
    | omega
    | linarith
    | (rcases ‹_ ∨ _› with h | h <;>
        first
        | omega
        | linarith)

/-! ## C16: the rolling average of the fill times -/

/-- C16 (counterexample). With two slots holding `4294967295` seconds (and
three zero slots), the 32-bit sum wraps: `handleStatus` reports
`2147483647`, while the sum of the positive values divided by their number is
`4294967295`. -/
theorem C16_counterexample_sum_wraps :
    (setup true prefsHistoricoGrande 0).historicoEnchimento
      = [⟨4294967295, 1⟩, ⟨4294967295, 1⟩, ⟨0, 0⟩, ⟨0, 0⟩, ⟨0, 0⟩] ∧
    (handleStatus 1000 (setup true prefsHistoricoGrande 0)).mediaEnchimento = 2147483647 ∧
    (temposValidos (setup true prefsHistoricoGrande 0).historicoEnchimento).sum /
      (temposValidos (setup true prefsHistoricoGrande 0).historicoEnchimento).length
        = 4294967295 := by
  have h : (setup true prefsHistoricoGrande 0).historicoEnchimento
      = [⟨4294967295, 1⟩, ⟨4294967295, 1⟩, ⟨0, 0⟩, ⟨0, 0⟩, ⟨0, 0⟩] := by
    simp [setup, globais, carregarConfiguracoesOperacao, prefsHistoricoGrande, prefsVazias,
      slotZero]
  refine ⟨h, ?_, ?_⟩
  · simp only [handleStatus, h]
    decide
  · rw [h]
    decide

theorem somarTempos_foldl (h : List EnchimentoInfo) (hlen : h.length = 5) :
    somarTempos h = h.foldl somarInfo (0, 0) := by
  match h, hlen with
  | [e0, e1, e2, e3, e4], _ =>
    have hr : List.range TAMANHO_HISTORICO_ENCHIMENTO = [0, 1, 2, 3, 4] := by decide
    simp [somarTempos, hr, somarSlot, somarInfo, lerSlot]

theorem foldl_somarInfo (l : List EnchimentoInfo) :
    ∀ acc : Nat × Int, acc.1 < U32 →
      (l.foldl somarInfo acc).1 = (acc.1 + (temposValidos l).sum) % U32 ∧
      (l.foldl somarInfo acc).2 = acc.2 + ((temposValidos l).length : Int) := by
  induction l with
  | nil =>
    intro acc hacc
    simp [temposValidos, Nat.mod_eq_of_lt hacc]
  | cons e l ih =>
    intro acc hacc
    by_cases he : e.tempo > 0
    · have h1 : somarInfo acc e = ((acc.1 + e.tempo) % U32, acc.2 + 1) := by
        simp [somarInfo, he]
      have h2 : temposValidos (e :: l) = e.tempo :: temposValidos l := by
        simp [temposValidos, he]
      have h3 := ih ((acc.1 + e.tempo) % U32, acc.2 + 1) (Nat.mod_lt _ (by decide))
      rw [List.foldl_cons, h1, h2, h3.1, h3.2]
      constructor
      · simp only [List.sum_cons]
        unfold U32
        omega
      · simp only [List.length_cons]
        push_cast
        ring
    · have h1 : somarInfo acc e = acc := by simp [somarInfo, he]
      have h2 : temposValidos (e :: l) = temposValidos l := by
        simp [temposValidos, he]
      rw [List.foldl_cons, h1, h2]
      exact ih acc hacc

/-- The average computed by `handleStatus` on a 5-slot history whose positive
times sum below `2 ^ 32`. -/
theorem mediaEnchimento_eq (h : List EnchimentoInfo) (hlen : h.length = 5)
    (hsum : (temposValidos h).sum < U32) :
    mediaEnchimento h =
      if temposValidos h = [] then 0
      else (temposValidos h).sum / (temposValidos h).length := by
  have hf := foldl_somarInfo h (0, 0) (by decide)
  rw [← somarTempos_foldl h hlen] at hf
  obtain ⟨h1, h2⟩ := hf
  simp only [Nat.zero_add, Int.zero_add] at h1 h2
  rw [Nat.mod_eq_of_lt hsum] at h1
  unfold mediaEnchimento
  rw [h1, h2]
  by_cases hv : temposValidos h = []
  · simp [hv]
  · have hpos : 0 < (temposValidos h).length := List.length_pos.mpr hv
    simp [hv, hpos]

/-- Every record `atualizarSensores` stores has a time of at most `4294967`
seconds, so five of them sum below `2 ^ 32`. -/
theorem registroDe_tempo_le (t : Nat) (s : State) : (registroDe t s).tempo ≤ 4294967 := by
  unfold registroDe subU32 U32
  simp only
  omega

/-- C16 (amended). For every 5-slot history whose positive `tempo` values sum
to less than `2 ^ 32` (as do five records stored by `atualizarSensores`, each
at most `4294967`), the `mediaEnchimento` reported by `handleStatus` is the sum
of the `tempo` values that are greater than 0 divided (integer division) by
their number, and 0 when there is none. -/
theorem C16_mean_of_positive_fill_times (t : Nat) (s : State)
    (hlen : s.historicoEnchimento.length = 5)
    (hsum : (temposValidos s.historicoEnchimento).sum < U32) :
    (handleStatus t s).mediaEnchimento =
      if temposValidos s.historicoEnchimento = [] then 0
      else (temposValidos s.historicoEnchimento).sum /
        (temposValidos s.historicoEnchimento).length :=
  mediaEnchimento_eq s.historicoEnchimento hlen hsum

/-- C16 (witness). With fills of 50 and 70 seconds in slots 0 and 2 and zero
slots elsewhere, the reported average is 60. -/
theorem C16_mean_of_positive_fill_times_witness :
    (setup true prefsDoisEnchimentos 0).historicoEnchimento.length = 5 ∧
    (temposValidos (setup true prefsDoisEnchimentos 0).historicoEnchimento).sum < U32 ∧
    (handleStatus 1000 (setup true prefsDoisEnchimentos 0)).mediaEnchimento = 60 := by
  have h : (setup true prefsDoisEnchimentos 0).historicoEnchimento
      = [⟨50, 3⟩, ⟨0, 0⟩, ⟨70, 2⟩, ⟨0, 0⟩, ⟨0, 0⟩] := by
    simp [setup, globais, carregarConfiguracoesOperacao, prefsDoisEnchimentos, prefsVazias,
      slotZero]
  have hlen : (setup true prefsDoisEnchimentos 0).historicoEnchimento.length = 5 := by
    rw [h]; rfl
  have hsum : (temposValidos (setup true prefsDoisEnchimentos 0).historicoEnchimento).sum
      < U32 := by
    rw [h]; decide
  refine ⟨hlen, hsum, ?_⟩
  rw [C16_mean_of_positive_fill_times 1000 (setup true prefsDoisEnchimentos 0) hlen hsum, h]
  decide

/-! ## C17: the status lists the history most recent first -/

theorem historicoStatus_length (s : State) : (historicoStatus s).length = 5 := by
  simp [historicoStatus, TAMANHO_HISTORICO_ENCHIMENTO]

theorem historicoStatus_getElem? (s : State) (i : Nat) (hi : i < 5) :
    (historicoStatus s)[i]? =
      some (lerSlot s.historicoEnchimento (indiceStatus s.indiceHistoricoEnchimento i)) := by
  simp [historicoStatus, TAMANHO_HISTORICO_ENCHIMENTO, List.getElem?_range, hi]

theorem indiceStatus_cursor (k i : Nat) (hi : i < 5) :
    indiceStatus ((k % 5 : Nat) : Int) i = (((k % 5 + 4 - i) % 5 : Nat) : Int) := by
  unfold indiceStatus TAMANHO_HISTORICO_ENCHIMENTO
  rw [Int.tmod_eq_emod] <;> omega

theorem lerSlot_natCast (h : List EnchimentoInfo) (n : Nat) (hn : n < h.length) :
    some (lerSlot h (n : Int)) = h[n]? := by
  unfold lerSlot
  rw [if_pos (Int.natCast_nonneg _), Int.toNat_natCast, List.getD_eq_getElem?_getD,
    List.getElem?_eq_getElem hn]
  rfl

/-- C17. Start from a zeroed history with cursor 0 and run any operations
other than `handleZerarCiclos`; let `k` be the number of completed fills
recorded. The `historicoEnchimento` array of `handleStatus` has 5 entries and,
for every `i < min k 5`, entry `i` is the record of fill number `k - i`. -/
theorem C17_status_history_most_recent_first (t : Nat) (s : State) (ops : List Op)
    (hhist : s.historicoEnchimento = historicoZerado)
    (hidx : s.indiceHistoricoEnchimento = 0)
    (hops : ∀ op ∈ ops, op.zera = false) :
    (handleStatus t (run s ops)).historicoEnchimento.length = 5 ∧
    ∀ i, i < min (registros s ops).length 5 →
      (handleStatus t (run s ops)).historicoEnchimento[i]?
        = (registros s ops)[(registros s ops).length - i - 1]? := by
  have h0 : AnelOk [] (historia s) := by
    unfold historia
    rw [hhist, hidx]
    exact anelOk_zerado
  have h := run_anelOk ops s [] h0 hops
  simp only [List.nil_append] at h
  obtain ⟨h1, h2, h3, _⟩ := h
  simp only [historia] at h1 h2 h3
  refine ⟨historicoStatus_length _, ?_⟩
  intro i hi
  have hi5 : i < 5 := lt_of_lt_of_le hi (min_le_right _ _)
  have hik : i < (registros s ops).length := lt_of_lt_of_le hi (min_le_left _ _)
  show (historicoStatus (run s ops))[i]? = _
  rw [historicoStatus_getElem? _ i hi5, h2, indiceStatus_cursor _ i hi5,
    lerSlot_natCast _ _ (by rw [h1]; exact Nat.mod_lt _ (by decide))]
  have h4 := h3 ((registros s ops).length - i) (by omega) (by omega) (by omega)
  have e1 : ((registros s ops).length % 5 + 4 - i) % 5
      = ((registros s ops).length - i - 1) % 5 := by omega
  rw [e1]
  exact h4

/-- C17 (witness). After the seven fills of 10, 20, ..., 70 seconds the status
lists the fills of 70, 60, 50, 40 and 30 seconds, in that order. -/
theorem C17_status_history_most_recent_first_witness :
    (setup true prefsVazias 0).historicoEnchimento = historicoZerado ∧
    (setup true prefsVazias 0).indiceHistoricoEnchimento = 0 ∧
    (∀ op ∈ opsSeteEnchimentos, op.zera = false) ∧
    (handleStatus 300000 (run (setup true prefsVazias 0) opsSeteEnchimentos)).historicoEnchimento
      = [⟨70, 0⟩, ⟨60, 0⟩, ⟨50, 0⟩, ⟨40, 0⟩, ⟨30, 0⟩] ∧
    ((handleStatus 300000
        (run (setup true prefsVazias 0) opsSeteEnchimentos)).historicoEnchimento.length = 5 ∧
      ∀ i, i < min (registros (setup true prefsVazias 0) opsSeteEnchimentos).length 5 →
        (handleStatus 300000
          (run (setup true prefsVazias 0) opsSeteEnchimentos)).historicoEnchimento[i]?
          = (registros (setup true prefsVazias 0) opsSeteEnchimentos)[
              (registros (setup true prefsVazias 0) opsSeteEnchimentos).length - i - 1]?) := by
  have hhist : (setup true prefsVazias 0).historicoEnchimento = historicoZerado := by
    simp [setup, globais, carregarConfiguracoesOperacao, prefsVazias]
  have hidx : (setup true prefsVazias 0).indiceHistoricoEnchimento = 0 := by
    simp [setup, globais, carregarConfiguracoesOperacao, prefsVazias]
  have hops : ∀ op ∈ opsSeteEnchimentos, op.zera = false := by
    simp [opsSeteEnchimentos, Op.zera]
  refine ⟨hhist, hidx, hops, ?_,
    C17_status_history_most_recent_first 300000 (setup true prefsVazias 0) opsSeteEnchimentos
      hhist hidx hops⟩
  have hh : historia (run (setup true prefsVazias 0) opsSeteEnchimentos)
      = ([⟨60, 0⟩, ⟨70, 0⟩, ⟨30, 0⟩, ⟨40, 0⟩, ⟨50, 0⟩], 2) := by
    simp [historia, opsSeteEnchimentos, run, step, setup, globais,
      carregarConfiguracoesOperacao, prefsVazias, atualizarSensores, lerTemperatura, lerCaixa,
      registrarEnchimento, salvarConfiguracoesOperacao, gravarPreferences, escreverSlot,
      protecaoTemperatura, protecaoCaixaCheia, desligarCompressor, HIGH, LOW, sensorEnabled,
      DEVICE_DISCONNECTED_C, historicoZerado, TAMANHO_HISTORICO_ENCHIMENTO, slotZero,
      SAVE_INTERVAL, millis, subU32, U32, incU32, tmod_1_5, tmod_2_5, tmod_3_5, tmod_4_5,
      tmod_5_5]
  have h1 := congrArg Prod.fst hh
  have h2 := congrArg Prod.snd hh
  simp only [historia] at h1 h2
  simp only [handleStatus, historicoStatus, h1, h2]
  decide

/-! ## C13: full rest interval after a completed fill -/

theorem desligarCompressor_parametros (s : State) :
    parametros (desligarCompressor s) = parametros s := by
  unfold desligarCompressor
  split_ifs <;> rfl

theorem ligarCompressor_parametros (t : Nat) (s : State) :
    parametros (ligarCompressor t s) = parametros s := by
  simp only [ligarCompressor]
  split_ifs <;> rfl

theorem salvar_parametros (t : Nat) (s : State) :
    parametros (salvarConfiguracoesOperacao t s) = parametros s := by
  simp only [salvarConfiguracoesOperacao]
  split_ifs <;> rfl

theorem registrarEnchimento_parametros (t : Nat) (s : State) :
    parametros (registrarEnchimento t s) = parametros s := by
  simp only [registrarEnchimento]
  split_ifs
  · exact (desligarCompressor_parametros _).trans (salvar_parametros t _)
  · exact salvar_parametros t _

theorem lerTemperatura_parametros (leitura : ℚ) (s : State) :
    parametros (lerTemperatura leitura s) = parametros s := by
  unfold lerTemperatura
  split_ifs
  · rfl
  · exact desligarCompressor_parametros s
  · rfl

theorem lerCaixa_parametros (t : Nat) (pinoCaixa : Bool) (s : State) :
    parametros (lerCaixa t pinoCaixa s) = parametros s := by
  simp only [lerCaixa]
  split_ifs <;> first | rfl | exact registrarEnchimento_parametros t _

theorem protecaoTemperatura_parametros (s : State) :
    parametros (protecaoTemperatura s) = parametros s := by
  unfold protecaoTemperatura
  split_ifs
  · exact desligarCompressor_parametros _
  · rfl

theorem protecaoCaixaCheia_parametros (s : State) :
    parametros (protecaoCaixaCheia s) = parametros s := by
  unfold protecaoCaixaCheia
  split_ifs
  · exact desligarCompressor_parametros _
  · rfl

theorem atualizarSensores_parametros (t : Nat) (leitura : ℚ) (pinoCaixa : Bool) (s : State) :
    parametros (atualizarSensores t leitura pinoCaixa s) = parametros s := by
  unfold atualizarSensores
  rw [protecaoCaixaCheia_parametros, protecaoTemperatura_parametros, lerCaixa_parametros,
    lerTemperatura_parametros]

theorem avaliarCondicoes_parametros (s : State) :
    parametros (avaliarCondicoes s).1 = parametros s := by
  simp only [avaliarCondicoes]
  split_ifs <;> rfl

theorem decisaoTemporizada_parametros (t : Nat) (c : Bool) (s : State) :
    parametros (decisaoTemporizada t c s) = parametros s := by
  simp only [decisaoTemporizada]
  split_ifs
  · exact (salvar_parametros t _).trans (desligarCompressor_parametros s)
  · rfl
  · exact ligarCompressor_parametros t s
  · rfl

theorem controleAutomatico_parametros (t : Nat) (s : State) :
    parametros (controleAutomatico t s) = parametros s :=
  (decisaoTemporizada_parametros t _ _).trans (avaliarCondicoes_parametros s)

theorem handleLigar_parametros (t : Nat) (s : State) :
    parametros (handleLigar t s).1 = parametros s := by
  simp only [handleLigar]
  split_ifs <;> first | rfl | exact ligarCompressor_parametros t _

/-- Only `handleConfig` changes the operating parameters. -/
theorem step_parametros (s : State) (op : Op) (h : op.reconfigura = false) :
    parametros (step s op) = parametros s := by
  cases op with
  | atualizarSensores t leitura pinoCaixa => exact atualizarSensores_parametros t leitura pinoCaixa s
  | controleAutomatico t => exact controleAutomatico_parametros t s
  | handleLigar t => exact handleLigar_parametros t s
  | handleDesligar t => exact desligarCompressor_parametros _
  | handleAutomatico t => rfl
  | handleConfig t a b c => simp [Op.reconfigura] at h
  | handleZerarCiclos t => exact salvar_parametros t _

theorem run_parametros (ops : List Op) :
    ∀ s : State, (∀ op ∈ ops, op.reconfigura = false) →
      parametros (run s ops) = parametros s := by
  induction ops with
  | nil => intro s _; rfl
  | cons op ops ih =>
    intro s h
    have h1 : run s (op :: ops) = run (step s op) ops := rfl
    rw [h1, ih (step s op) (fun o ho => h o (List.mem_cons_of_mem _ ho)),
      step_parametros s op (h op (List.mem_cons_self _ _))]

theorem lerCaixa_completa (t : Nat) (pinoCaixa : Bool) (s : State)
    (h : completaEnchimento pinoCaixa s) :
    lerCaixa t pinoCaixa s = registrarEnchimento t { s with caixaCheia := true } := by
  obtain ⟨h1, h2, h3⟩ := h
  simp [lerCaixa, h1, h2, h3, LOW]

/-- A sensor update that records a fill in automatic mode returns with the
compressor off and `ultimoTempoControle` set to the clock value. -/
theorem atualizarSensores_enchimento_automatico (t : Nat) (leitura : ℚ) (pinoCaixa : Bool)
    (s : State) (hauto : s.modoManual = false) (hfill : completaEnchimento pinoCaixa s) :
    (atualizarSensores t leitura pinoCaixa s).compressorLigado = false ∧
    (atualizarSensores t leitura pinoCaixa s).ultimoTempoControle = millis t := by
  have hfill' : completaEnchimento pinoCaixa (lerTemperatura leitura s) := by
    obtain ⟨h1, h2, h3⟩ := hfill
    refine ⟨by rw [lerTemperatura_caixaCheia]; exact h1, h2, ?_⟩
    have h4 := lerTemperatura_rastreador leitura s
    have h5 : (lerTemperatura leitura s).inicioCicloEnchimentoMillis
        = s.inicioCicloEnchimentoMillis := congrArg Prod.fst h4
    rw [h5]
    exact h3
  have hauto' : (lerTemperatura leitura s).modoManual = false := by
    rw [lerTemperatura_modoManual]; exact hauto
  have h6 := registrarEnchimento_automatico t
    { lerTemperatura leitura s with caixaCheia := true } hauto'
  rw [← lerCaixa_completa t pinoCaixa _ hfill'] at h6
  constructor
  · by_contra hc
    have h7 : (atualizarSensores t leitura pinoCaixa s).compressorLigado = true := by
      simpa using hc
    have h8 := protecaoTemperatura_ligado_imp _ (protecaoCaixaCheia_ligado_imp _ h7)
    rw [h6.1] at h8
    exact absurd h8 (by simp)
  · unfold atualizarSensores
    rw [protecaoCaixaCheia_utc, protecaoTemperatura_utc]
    exact h6.2

theorem temposCrescentes_le_ultimoTempo (ops : List Op) :
    ∀ d, temposCrescentes d ops → d ≤ ultimoTempo d ops := by
  induction ops with
  | nil => intro d _; exact le_refl d
  | cons op ops ih =>
    intro d h
    exact h.1.trans (ih op.tempo h.2)

/-- C13. In automatic mode, an `atualizarSensores` call at time `t` that
records a completed fill returns with the compressor off and
`ultimoTempoControle = t`; after any later operations other than
`handleConfig` and `handleAutomatico` (non-decreasing times, no wrap-around of
`millis`), no `controleAutomatico` call at a time `t2` with
`t2 - t < tempoDescanso` switches the compressor from off to on. -/
theorem C13_full_rest_after_completed_fill (t : Nat) (leitura : ℚ) (pinoCaixa : Bool)
    (s : State) (ops : List Op) (t2 : Nat)
    (hauto : s.modoManual = false) (hfill : completaEnchimento pinoCaixa s)
    (hops : ∀ op ∈ ops, op.reconfigura = false)
    (hmono : temposCrescentes t ops) (ht2 : ultimoTempo t ops ≤ t2)
    (hwrap : t2 < U32) (hlt : t2 - t < s.tempoDescanso) :
    (atualizarSensores t leitura pinoCaixa s).compressorLigado = false ∧
    (atualizarSensores t leitura pinoCaixa s).ultimoTempoControle = t ∧
    ¬ ((run (atualizarSensores t leitura pinoCaixa s) ops).compressorLigado = false ∧
        (controleAutomatico t2
          (run (atualizarSensores t leitura pinoCaixa s) ops)).compressorLigado = true) := by
  obtain ⟨h1, h2⟩ := atualizarSensores_enchimento_automatico t leitura pinoCaixa s hauto hfill
  have htt2 : t ≤ t2 := (temposCrescentes_le_ultimoTempo ops t hmono).trans ht2
  have hmil : millis t = t := by
    unfold millis
    exact Nat.mod_eq_of_lt (lt_of_le_of_lt htt2 hwrap)
  refine ⟨h1, by rw [h2, hmil], ?_⟩
  rintro ⟨hoff, hon⟩
  obtain ⟨a, h3, h4, h5⟩ :=
    run_utc ops (atualizarSensores t leitura pinoCaixa s) t t h2 (le_refl t) hmono
  have h6 := controleAutomatico_liga t2 _ hoff hon
  rw [h5] at h6
  have h7 := subU32_millis_le t2 a (h4.trans ht2)
  have h8 : (run (atualizarSensores t leitura pinoCaixa s) ops).tempoDescanso
      = s.tempoDescanso := by
    have h9 := run_parametros ops (atualizarSensores t leitura pinoCaixa s) hops
    rw [atualizarSensores_parametros] at h9
    exact congrArg (fun p => p.2.1) h9
  rw [h8] at h6
  omega

/-- C13 (witness). The first automatic start is at `t = 100000`; the tank is
seen full at `t = 150000`, which records the fill, stops the compressor and
sets `ultimoTempoControle = 150000`; the tank is seen empty again at
`t = 160000` and `controleAutomatico` at `t = 200000`, 50000 ms after the
fill, does not start the compressor (`tempoDescanso = 100000`). -/
theorem C13_full_rest_after_completed_fill_witness :
    estadoPrimeiraPartida.modoManual = false ∧
    completaEnchimento LOW estadoPrimeiraPartida ∧
    (∀ op ∈ [Op.atualizarSensores 160000 25 HIGH], op.reconfigura = false) ∧
    temposCrescentes 150000 [.atualizarSensores 160000 25 HIGH] ∧
    ultimoTempo 150000 [.atualizarSensores 160000 25 HIGH] ≤ 200000 ∧
    200000 < U32 ∧
    200000 - 150000 < estadoPrimeiraPartida.tempoDescanso ∧
    ((atualizarSensores 150000 25 LOW estadoPrimeiraPartida).compressorLigado = false ∧
      (atualizarSensores 150000 25 LOW estadoPrimeiraPartida).ultimoTempoControle = 150000 ∧
      ¬ ((run (atualizarSensores 150000 25 LOW estadoPrimeiraPartida)
            [.atualizarSensores 160000 25 HIGH]).compressorLigado = false ∧
          (controleAutomatico 200000
            (run (atualizarSensores 150000 25 LOW estadoPrimeiraPartida)
              [.atualizarSensores 160000 25 HIGH])).compressorLigado = true)) := by
  have hauto : estadoPrimeiraPartida.modoManual = false := by
    simp [estadoPrimeiraPartida, run, step, setup, globais, carregarConfiguracoesOperacao,
      prefsVazias, controleAutomatico, avaliarCondicoes, decisaoTemporizada, ligarCompressor,
      millis, subU32, U32]
    norm_num
  have hfill : completaEnchimento LOW estadoPrimeiraPartida := by
    simp [completaEnchimento, estadoPrimeiraPartida, run, step, setup, globais,
      carregarConfiguracoesOperacao, prefsVazias, controleAutomatico, avaliarCondicoes,
      decisaoTemporizada, ligarCompressor, millis, subU32, U32]
    norm_num
  have hops : ∀ op ∈ [Op.atualizarSensores 160000 25 HIGH], op.reconfigura = false := by
    simp [Op.reconfigura]
  have hmono : temposCrescentes 150000 [.atualizarSensores 160000 25 HIGH] := by
    simp [temposCrescentes, Op.tempo]
  have ht2 : ultimoTempo 150000 [.atualizarSensores 160000 25 HIGH] ≤ 200000 := by
    simp [ultimoTempo, Op.tempo]
  have hwrap : 200000 < U32 := by decide
  have hlt : 200000 - 150000 < estadoPrimeiraPartida.tempoDescanso := by
    simp [estadoPrimeiraPartida, run, step, setup, globais, carregarConfiguracoesOperacao,
      prefsVazias, controleAutomatico, avaliarCondicoes, decisaoTemporizada, ligarCompressor,
      millis, subU32, U32]
    norm_num
  exact ⟨hauto, hfill, hops, hmono, ht2, hwrap, hlt,
    C13_full_rest_after_completed_fill 150000 25 LOW estadoPrimeiraPartida
      [.atualizarSensores 160000 25 HIGH] 200000 hauto hfill hops hmono ht2 hwrap hlt⟩

/-! ## C11: content of a fill record -/

theorem desligarCompressor_janela (s : State) :
    janela (desligarCompressor s) = janela s := by
  unfold desligarCompressor
  split_ifs <;> rfl

theorem salvar_janela (t : Nat) (s : State) :
    janela (salvarConfiguracoesOperacao t s) = janela s := by
  simp only [salvarConfiguracoesOperacao]
  split_ifs <;> rfl

theorem lerTemperatura_janela (leitura : ℚ) (s : State) :
    janela (lerTemperatura leitura s) = janela s := by
  unfold lerTemperatura
  split_ifs
  · rfl
  · exact desligarCompressor_janela s
  · rfl

theorem protecaoTemperatura_janela (s : State) :
    janela (protecaoTemperatura s) = janela s := by
  unfold protecaoTemperatura
  split_ifs
  · exact desligarCompressor_janela _
  · rfl

theorem protecaoCaixaCheia_janela (s : State) :
    janela (protecaoCaixaCheia s) = janela s := by
  unfold protecaoCaixaCheia
  split_ifs
  · exact desligarCompressor_janela _
  · rfl

theorem avaliarCondicoes_janela (s : State) :
    janela (avaliarCondicoes s).1 = janela s := by
  simp only [avaliarCondicoes]
  split_ifs <;> rfl

theorem handleConfig_janela (t : Nat) (a b : Option Int) (c : Option ℚ) (s : State) :
    janela (handleConfig t a b c s).1 = janela s := by
  simp only [handleConfig]
  rcases a with _ | a <;> rcases b with _ | b <;> rcases c with _ | c <;>
    simp only [] <;> split_ifs <;> first | rfl | exact salvar_janela t _

/-- A start while a fill window is open and the tank is not full: the window
start is kept and the partial-cycle count is incremented. -/
theorem ligarCompressor_janela (t : Nat) (s : State) (hc : s.caixaCheia = false)
    (hi : s.inicioCicloEnchimentoMillis ≠ 0) :
    janela (ligarCompressor t s) =
      (false, s.inicioCicloEnchimentoMillis,
        if s.compressorLigado = false then incU32 s.ciclosParciaisNesteEnchimento
        else s.ciclosParciaisNesteEnchimento) ∧
    (ligarCompressor t s).compressorLigado = true := by
  by_cases h : s.compressorLigado = false
  · simp [ligarCompressor, janela, h, hc, hi]
  · have h' : s.compressorLigado = true := by simpa using h
    simp [ligarCompressor, janela, h', hc]

theorem janelaSegue_sem_partida (s : State) (op : Op) (hc : s.caixaCheia = false)
    (hj : janela (step s op) = janela s)
    (hn : (step s op).compressorLigado = true → s.compressorLigado = true) :
    JanelaSegue s op := by
  unfold JanelaSegue
  rw [hj]
  have h : ¬ (s.compressorLigado = false ∧ (step s op).compressorLigado = true) := by
    rintro ⟨h1, h2⟩
    rw [hn h2] at h1
    exact absurd h1 (by simp)
  rw [if_neg h]
  simp [janela, hc]

theorem janelaSegue_ligar (t : Nat) (s s' r : State) (op : Op)
    (hc : s.caixaCheia = false) (hi : s.inicioCicloEnchimentoMillis ≠ 0)
    (hj : janela s' = janela s) (hl : s'.compressorLigado = s.compressorLigado)
    (hr1 : janela r = janela (ligarCompressor t s'))
    (hr2 : r.compressorLigado = (ligarCompressor t s').compressorLigado)
    (hstep : step s op = r) : JanelaSegue s op := by
  have hc' : s'.caixaCheia = false := by
    have := congrArg Prod.fst hj
    simp only [janela] at this
    rw [this]; exact hc
  have hi' : s'.inicioCicloEnchimentoMillis = s.inicioCicloEnchimentoMillis :=
    congrArg (fun p => p.2.1) hj
  have hn' : s'.ciclosParciaisNesteEnchimento = s.ciclosParciaisNesteEnchimento :=
    congrArg (fun p => p.2.2) hj
  obtain ⟨h1, h2⟩ := ligarCompressor_janela t s' hc' (by rw [hi']; exact hi)
  unfold JanelaSegue
  rw [hstep, hr1, hr2, h1, h2, hi', hn', hl]
  simp

theorem atualizarSensores_janela_vazia (t : Nat) (leitura : ℚ) (s : State)
    (hc : s.caixaCheia = false) :
    janela (atualizarSensores t leitura HIGH s) = janela s := by
  unfold atualizarSensores
  rw [protecaoCaixaCheia_janela, protecaoTemperatura_janela,
    lerCaixa_mesmo_nivel t HIGH _ (by rw [lerTemperatura_caixaCheia, hc]; rfl),
    lerTemperatura_janela]

theorem controleAutomatico_janelaSegue (t : Nat) (s : State) (hc : s.caixaCheia = false)
    (hi : s.inicioCicloEnchimentoMillis ≠ 0) : JanelaSegue s (.controleAutomatico t) := by
  have hj := avaliarCondicoes_janela s
  have hl := avaliarCondicoes_compressorLigado s
  by_cases hon : (avaliarCondicoes s).1.compressorLigado = true
  · apply janelaSegue_sem_partida s _ hc
    · show janela (controleAutomatico t s) = janela s
      simp only [controleAutomatico, decisaoTemporizada, if_pos hon]
      split_ifs
      · rw [salvar_janela]
        exact (desligarCompressor_janela _).trans hj
      · exact hj
    · intro _
      rw [← hl]; exact hon
  · by_cases hgo : subU32 (millis t) (avaliarCondicoes s).1.ultimoTempoControle
        ≥ (avaliarCondicoes s).1.tempoDescanso ∧ (avaliarCondicoes s).2 = true
    · refine janelaSegue_ligar t s (avaliarCondicoes s).1 _ _ hc hi hj hl ?_ ?_ rfl
      · show janela (controleAutomatico t s) = _
        simp only [controleAutomatico, decisaoTemporizada, if_neg hon, if_pos hgo]
        rfl
      · show (controleAutomatico t s).compressorLigado = _
        simp only [controleAutomatico, decisaoTemporizada, if_neg hon, if_pos hgo]
    · have he : controleAutomatico t s = (avaliarCondicoes s).1 := by
        simp only [controleAutomatico, decisaoTemporizada, if_neg hon, if_neg hgo]
      apply janelaSegue_sem_partida s _ hc
      · show janela (controleAutomatico t s) = janela s
        rw [he]; exact hj
      · intro h
        have h' : (controleAutomatico t s).compressorLigado = true := h
        rw [he] at h'
        exact absurd h' hon

theorem handleLigar_janelaSegue (t : Nat) (s : State) (hc : s.caixaCheia = false)
    (hi : s.inicioCicloEnchimentoMillis ≠ 0) : JanelaSegue s (.handleLigar t) := by
  by_cases hb : (handleLigar t s).1 = s
  · apply janelaSegue_sem_partida s _ hc
    · show janela (handleLigar t s).1 = janela s
      rw [hb]
    · intro h
      have h' : (handleLigar t s).1.compressorLigado = true := h
      rw [hb] at h'
      exact h'
  · have he : (handleLigar t s).1 = ligarCompressor t { s with modoManual := true } := by
      simp only [handleLigar] at hb ⊢
      split_ifs at hb ⊢ <;> first | rfl | exact absurd rfl hb
    exact janelaSegue_ligar t s { s with modoManual := true } _ _ hc hi rfl rfl
      (congrArg janela he) (congrArg State.compressorLigado he) rfl

/-- Every operation that does not read the tank as full, run while the tank is
not full and a fill window is open, keeps the window and counts its start. -/
theorem step_janelaSegue (s : State) (op : Op) (hc : s.caixaCheia = false)
    (hi : s.inicioCicloEnchimentoMillis ≠ 0) (hop : op.caixaNaoCheia = true) :
    JanelaSegue s op := by
  cases op with
  | atualizarSensores t leitura pinoCaixa =>
    have hp : pinoCaixa = HIGH := hop
    subst hp
    exact janelaSegue_sem_partida s _ hc (atualizarSensores_janela_vazia t leitura s hc)
      (atualizarSensores_ligado_imp t leitura HIGH s)
  | controleAutomatico t => exact controleAutomatico_janelaSegue t s hc hi
  | handleLigar t => exact handleLigar_janelaSegue t s hc hi
  | handleDesligar t =>
    apply janelaSegue_sem_partida s (.handleDesligar t) hc
      (desligarCompressor_janela { s with modoManual := true })
    intro h
    have h' : (desligarCompressor { s with modoManual := true }).compressorLigado = true := h
    rw [desligarCompressor_compressorLigado] at h'
    exact absurd h' (by simp)
  | handleAutomatico t =>
    exact janelaSegue_sem_partida s (.handleAutomatico t) hc rfl (fun h => h)
  | handleConfig t a b c =>
    apply janelaSegue_sem_partida s (.handleConfig t a b c) hc (handleConfig_janela t a b c s)
    intro h
    have h' : (handleConfig t a b c s).1.compressorLigado = true := h
    rwa [handleConfig_compressorLigado] at h'
  | handleZerarCiclos t =>
    apply janelaSegue_sem_partida s (.handleZerarCiclos t) hc
      (salvar_janela t { s with ciclosParciaisOperacao := 0, ciclosEnchimentoCompletos := 0,
                                historicoEnchimento := historicoZerado,
                                indiceHistoricoEnchimento := 0 })
    intro h
    have h' : (salvarConfiguracoesOperacao t
      { s with ciclosParciaisOperacao := 0, ciclosEnchimentoCompletos := 0,
               historicoEnchimento := historicoZerado,
               indiceHistoricoEnchimento := 0 }).compressorLigado = true := h
    rwa [salvar_compressorLigado] at h'

theorem enchimentoRegistrado_naoCheia (s : State) (op : Op) (hop : op.caixaNaoCheia = true) :
    enchimentoRegistrado s op = none := by
  cases op with
  | atualizarSensores t leitura pinoCaixa =>
    have hp : pinoCaixa = true := hop
    simp [enchimentoRegistrado, completaEnchimento, LOW, hp]
  | controleAutomatico t => rfl
  | handleLigar t => rfl
  | handleDesligar t => rfl
  | handleAutomatico t => rfl
  | handleConfig t a b c => rfl
  | handleZerarCiclos t => rfl

/-- While the tank is not seen full, the fill window stays open, no record is
stored and the partial-cycle count grows by the number of compressor starts. -/
theorem run_janela (ops : List Op) :
    ∀ s : State, s.caixaCheia = false → s.inicioCicloEnchimentoMillis ≠ 0 →
      s.ciclosParciaisNesteEnchimento < U32 → (∀ op ∈ ops, op.caixaNaoCheia = true) →
      janela (run s ops) =
        (false, s.inicioCicloEnchimentoMillis,
          (s.ciclosParciaisNesteEnchimento + partidas s ops) % U32) ∧
      registros s ops = [] := by
  induction ops with
  | nil =>
    intro s hc _ hn _
    simp [run, partidas, registros, janela, hc, Nat.mod_eq_of_lt hn]
  | cons op ops ih =>
    intro s hc hi hn hops
    have hop := hops op (List.mem_cons_self _ _)
    have hrest : ∀ o ∈ ops, o.caixaNaoCheia = true :=
      fun o ho => hops o (List.mem_cons_of_mem _ ho)
    have hj := step_janelaSegue s op hc hi hop
    unfold JanelaSegue at hj
    have hc' : (step s op).caixaCheia = false := congrArg Prod.fst hj
    have hi' : (step s op).inicioCicloEnchimentoMillis = s.inicioCicloEnchimentoMillis :=
      congrArg (fun p => p.2.1) hj
    have hn' : (step s op).ciclosParciaisNesteEnchimento =
        if s.compressorLigado = false ∧ (step s op).compressorLigado = true then
          incU32 s.ciclosParciaisNesteEnchimento
        else s.ciclosParciaisNesteEnchimento := congrArg (fun p => p.2.2) hj
    have hlt : (step s op).ciclosParciaisNesteEnchimento < U32 := by
      rw [hn']
      split_ifs
      · exact Nat.mod_lt _ (by decide)
      · exact hn
    obtain ⟨h1, h2⟩ := ih (step s op) hc' (by rw [hi']; exact hi) hlt hrest
    have hrun : run s (op :: ops) = run (step s op) ops := rfl
    constructor
    · rw [hrun, h1, hi', hn']
      simp only [partidas]
      split_ifs
      · simp only [incU32, Prod.mk.injEq, true_and]
        unfold U32
        omega
      · simp only [Nat.zero_add]
    · simp [registros, enchimentoRegistrado_naoCheia s op hop, h2]

theorem registros_append (l1 l2 : List Op) :
    ∀ s : State, registros s (l1 ++ l2) = registros s l1 ++ registros (run s l1) l2 := by
  induction l1 with
  | nil => intro s; rfl
  | cons op l1 ih =>
    intro s
    show (enchimentoRegistrado s op).toList ++ registros (step s op) (l1 ++ l2)
      = ((enchimentoRegistrado s op).toList ++ registros (step s op) l1)
        ++ registros (run (step s op) l1) l2
    rw [ih (step s op), List.append_assoc]

theorem subU32_millis_sub (ts te : Nat) (hle : ts ≤ te) (hd : te - ts < U32) :
    subU32 (millis te) (millis ts) = te - ts := by
  unfold subU32 millis U32 at *
  omega

/-- State after a sensor update that sees the tank go from full to empty. -/
theorem atualizarSensores_janela_esvaziou (t : Nat) (leitura : ℚ) (s : State)
    (hc : s.caixaCheia = true) :
    janela (atualizarSensores t leitura HIGH s) = (false, millis t, 0) := by
  unfold atualizarSensores
  rw [protecaoCaixaCheia_janela, protecaoTemperatura_janela]
  have h1 : (lerTemperatura leitura s).caixaCheia = true := by
    rw [lerTemperatura_caixaCheia]; exact hc
  generalize lerTemperatura leitura s = s1 at h1
  simp [lerCaixa, janela, h1, HIGH]

theorem salvar_completos (t : Nat) (s : State) :
    (salvarConfiguracoesOperacao t s).ciclosEnchimentoCompletos
      = s.ciclosEnchimentoCompletos := by
  simp only [salvarConfiguracoesOperacao]
  split_ifs <;> rfl

theorem desligarCompressor_completos (s : State) :
    (desligarCompressor s).ciclosEnchimentoCompletos = s.ciclosEnchimentoCompletos := by
  unfold desligarCompressor
  split_ifs <;> rfl

theorem ligarCompressor_completos (t : Nat) (s : State) :
    (ligarCompressor t s).ciclosEnchimentoCompletos = s.ciclosEnchimentoCompletos := by
  simp only [ligarCompressor]
  split_ifs <;> rfl

theorem registrarEnchimento_completos (t : Nat) (s : State) :
    (registrarEnchimento t s).ciclosEnchimentoCompletos
      = incU32 s.ciclosEnchimentoCompletos := by
  simp only [registrarEnchimento]
  split_ifs <;> simp [desligarCompressor_completos, salvar_completos]

theorem lerTemperatura_completos (leitura : ℚ) (s : State) :
    (lerTemperatura leitura s).ciclosEnchimentoCompletos = s.ciclosEnchimentoCompletos :=
  congrArg (fun p => p.2.2.2.2) (lerTemperatura_rastreador leitura s)

theorem lerCaixa_completos (t : Nat) (pinoCaixa : Bool) (s : State) :
    (lerCaixa t pinoCaixa s).ciclosEnchimentoCompletos =
      if completaEnchimento pinoCaixa s then incU32 s.ciclosEnchimentoCompletos
      else s.ciclosEnchimentoCompletos := by
  by_cases hc : completaEnchimento pinoCaixa s
  · rw [if_pos hc, lerCaixa_completa t pinoCaixa s hc, registrarEnchimento_completos]
  · rw [if_neg hc]
    simp only [lerCaixa]
    split_ifs with h1 h2 h3
    · exact absurd h1.1 (by simp [h2.1])
    · rfl
    · exfalso
      apply hc
      refine ⟨h3.1, ?_, h3.2.2⟩
      have h4 : (!pinoCaixa) = true := h3.2.1
      simpa [LOW] using h4
    · rfl

/-- The count of completed fills after a sensor update: incremented exactly
when the update records a fill. -/
theorem atualizarSensores_completos (t : Nat) (leitura : ℚ) (pinoCaixa : Bool) (s : State) :
    (atualizarSensores t leitura pinoCaixa s).ciclosEnchimentoCompletos =
      if completaEnchimento pinoCaixa s then incU32 s.ciclosEnchimentoCompletos
      else s.ciclosEnchimentoCompletos := by
  have h1 : (atualizarSensores t leitura pinoCaixa s).ciclosEnchimentoCompletos
      = (lerCaixa t pinoCaixa (lerTemperatura leitura s)).ciclosEnchimentoCompletos := by
    unfold atualizarSensores
    exact (congrArg (fun p => p.2.2.2.2) (protecaoCaixaCheia_rastreador _)).trans
      (congrArg (fun p => p.2.2.2.2) (protecaoTemperatura_rastreador _))
  have h2 : completaEnchimento pinoCaixa (lerTemperatura leitura s)
      ↔ completaEnchimento pinoCaixa s := by
    unfold completaEnchimento
    rw [lerTemperatura_caixaCheia,
      show (lerTemperatura leitura s).inicioCicloEnchimentoMillis
        = s.inicioCicloEnchimentoMillis from
        congrArg Prod.fst (lerTemperatura_rastreador leitura s)]
  rw [h1, lerCaixa_completos, lerTemperatura_completos]
  simp only [h2]

theorem avaliarCondicoes_completos (s : State) :
    (avaliarCondicoes s).1.ciclosEnchimentoCompletos = s.ciclosEnchimentoCompletos := by
  simp only [avaliarCondicoes]
  split_ifs <;> rfl

theorem decisaoTemporizada_completos (t : Nat) (c : Bool) (s : State) :
    (decisaoTemporizada t c s).ciclosEnchimentoCompletos = s.ciclosEnchimentoCompletos := by
  simp only [decisaoTemporizada]
  split_ifs <;> simp [salvar_completos, desligarCompressor_completos, ligarCompressor_completos]

theorem handleLigar_completos (t : Nat) (s : State) :
    (handleLigar t s).1.ciclosEnchimentoCompletos = s.ciclosEnchimentoCompletos := by
  simp only [handleLigar]
  split_ifs <;> simp [ligarCompressor_completos]

theorem handleConfig_completos (t : Nat) (a b : Option Int) (c : Option ℚ) (s : State) :
    (handleConfig t a b c s).1.ciclosEnchimentoCompletos = s.ciclosEnchimentoCompletos := by
  simp only [handleConfig]
  rcases a with _ | a <;> rcases b with _ | b <;> rcases c with _ | c <;>
    simp only [] <;> split_ifs <;> simp [salvar_completos]

/-- An operation other than `handleZerarCiclos` that reads the tank as not
full leaves the history, the cursor and the count of completed fills. -/
theorem step_sem_registro (s : State) (op : Op) (hz : op.zera = false)
    (hop : op.caixaNaoCheia = true) :
    historia (step s op) = historia s ∧
    (step s op).ciclosEnchimentoCompletos = s.ciclosEnchimentoCompletos := by
  have hr := enchimentoRegistrado_naoCheia s op hop
  have hh := step_historia s op hz
  rw [hr] at hh
  refine ⟨hh, ?_⟩
  cases op with
  | atualizarSensores t leitura pinoCaixa =>
    have hp : pinoCaixa = true := hop
    have hn : ¬ completaEnchimento pinoCaixa s := by
      simp [completaEnchimento, LOW, hp]
    show (atualizarSensores t leitura pinoCaixa s).ciclosEnchimentoCompletos = _
    rw [atualizarSensores_completos, if_neg hn]
  | controleAutomatico t =>
    show (controleAutomatico t s).ciclosEnchimentoCompletos = _
    unfold controleAutomatico
    rw [decisaoTemporizada_completos, avaliarCondicoes_completos]
  | handleLigar t => exact handleLigar_completos t s
  | handleDesligar t => exact desligarCompressor_completos _
  | handleAutomatico t => rfl
  | handleConfig t a b c => exact handleConfig_completos t a b c s
  | handleZerarCiclos t => simp [Op.zera] at hz

theorem run_sem_registro (ops : List Op) :
    ∀ s : State, (∀ op ∈ ops, op.zera = false) → (∀ op ∈ ops, op.caixaNaoCheia = true) →
      historia (run s ops) = historia s ∧
      (run s ops).ciclosEnchimentoCompletos = s.ciclosEnchimentoCompletos := by
  induction ops with
  | nil => intro s _ _; exact ⟨rfl, rfl⟩
  | cons op ops ih =>
    intro s hz hop
    obtain ⟨h1, h2⟩ := step_sem_registro s op (hz op (List.mem_cons_self _ _))
      (hop op (List.mem_cons_self _ _))
    obtain ⟨h3, h4⟩ := ih (step s op) (fun o ho => hz o (List.mem_cons_of_mem _ ho))
      (fun o ho => hop o (List.mem_cons_of_mem _ ho))
    have hrun : run s (op :: ops) = run (step s op) ops := rfl
    rw [hrun]
    exact ⟨h3.trans h1, h4.trans h2⟩

/-- C11 (counterexample). (a) The tank, full since `t = 500`, is seen going
from full to empty at `t = 2 ^ 32`, where `millis()` reads 0; the compressor
is started three times (first at `t = 2 ^ 32 + 10000`) and the tank is seen
full at `t = 2 ^ 32 + 50000`: slot 0 of the history receives
`{tempo: 40, ciclosParciais: 3}`, timed from the first start, although the
fill lasted 50 s. (b) A fill that begins at `t = 1000` and completes
`2 ^ 32 + 50000` ms later is stored with `tempo = 50`, not `4295017`. -/
theorem C11_counterexample_fill_starting_at_zero :
    estadoCaixaCheia.caixaCheia = true ∧
    millis 4294967296 = 0 ∧
    (run estadoCaixaCheia opsEnchimentoNaVirada).historicoEnchimento
      = [⟨40, 3⟩, ⟨0, 0⟩, ⟨0, 0⟩, ⟨0, 0⟩, ⟨0, 0⟩] ∧
    (4295017296 - 4294967296) / 1000 = 50 ∧
    (run estadoCaixaCheia
      [.atualizarSensores 1000 25 HIGH,
       .atualizarSensores (1000 + 4294967296 + 50000) 25 LOW]).historicoEnchimento
      = [⟨50, 0⟩, ⟨0, 0⟩, ⟨0, 0⟩, ⟨0, 0⟩, ⟨0, 0⟩] ∧
    (1000 + 4294967296 + 50000 - 1000) / 1000 = 4295017 := by
  simp [estadoCaixaCheia, opsEnchimentoNaVirada, run, step, setup, globais,
    carregarConfiguracoesOperacao, prefsVazias, atualizarSensores, lerTemperatura, lerCaixa,
    registrarEnchimento, salvarConfiguracoesOperacao, gravarPreferences, escreverSlot,
    protecaoTemperatura, protecaoCaixaCheia, handleLigar, handleDesligar, ligarCompressor,
    desligarCompressor, HIGH, LOW, sensorEnabled, DEVICE_DISCONNECTED_C, historicoZerado,
    TAMANHO_HISTORICO_ENCHIMENTO, slotZero, SAVE_INTERVAL, millis, subU32, U32, incU32]
  norm_num

/-- C11 (amended). A fill begins at time `ts` with `millis()` different from 0
(the tank is seen going from full to empty); operations follow during which the
tank is never seen full, `n` of them starting the compressor (`n < 2 ^ 32`);
then the tank is seen full at time `te ≥ ts`, less than `2 ^ 32` ms after `ts`.
That last `atualizarSensores` call writes the record
`{tempo: (te - ts) / 1000, ciclosParciais: n}` into the history slot under the
cursor, advances the cursor by one modulo 5 and increments
`ciclosEnchimentoCompletos`; and, unless `handleZerarCiclos` was called in
between, the history, the cursor and that count were until then as they were
at the beginning of the fill, so this is the one record of the fill. -/
theorem C11_fill_record_duration_and_cycles (s0 : State) (ts te : Nat)
    (leitura1 leitura2 : ℚ) (ops : List Op)
    (hfull : s0.caixaCheia = true) (hms : millis ts ≠ 0)
    (hle : ts ≤ te) (hdur : te - ts < U32)
    (hops : ∀ op ∈ ops, op.caixaNaoCheia = true)
    (hn : partidas (atualizarSensores ts leitura1 HIGH s0) ops < U32) :
    (atualizarSensores te leitura2 LOW
        (run (atualizarSensores ts leitura1 HIGH s0) ops)).historicoEnchimento
      = escreverSlot (run (atualizarSensores ts leitura1 HIGH s0) ops).historicoEnchimento
          (run (atualizarSensores ts leitura1 HIGH s0) ops).indiceHistoricoEnchimento
          ⟨(te - ts) / 1000, partidas (atualizarSensores ts leitura1 HIGH s0) ops⟩ ∧
    (atualizarSensores te leitura2 LOW
        (run (atualizarSensores ts leitura1 HIGH s0) ops)).indiceHistoricoEnchimento
      = Int.tmod
          ((run (atualizarSensores ts leitura1 HIGH s0) ops).indiceHistoricoEnchimento + 1) 5 ∧
    (atualizarSensores te leitura2 LOW
        (run (atualizarSensores ts leitura1 HIGH s0) ops)).ciclosEnchimentoCompletos
      = incU32 (run (atualizarSensores ts leitura1 HIGH s0) ops).ciclosEnchimentoCompletos ∧
    ((∀ op ∈ ops, op.zera = false) →
      (run (atualizarSensores ts leitura1 HIGH s0) ops).historicoEnchimento
        = s0.historicoEnchimento ∧
      (run (atualizarSensores ts leitura1 HIGH s0) ops).indiceHistoricoEnchimento
        = s0.indiceHistoricoEnchimento ∧
      (run (atualizarSensores ts leitura1 HIGH s0) ops).ciclosEnchimentoCompletos
        = s0.ciclosEnchimentoCompletos) := by
  have hj := atualizarSensores_janela_esvaziou ts leitura1 s0 hfull
  have hc1 : (atualizarSensores ts leitura1 HIGH s0).caixaCheia = false := congrArg Prod.fst hj
  have hi1 : (atualizarSensores ts leitura1 HIGH s0).inicioCicloEnchimentoMillis = millis ts :=
    congrArg (fun p => p.2.1) hj
  have hn1 : (atualizarSensores ts leitura1 HIGH s0).ciclosParciaisNesteEnchimento = 0 :=
    congrArg (fun p => p.2.2) hj
  obtain ⟨h1, _⟩ := run_janela ops (atualizarSensores ts leitura1 HIGH s0) hc1
    (by rw [hi1]; exact hms) (by rw [hn1]; decide) hops
  rw [hi1, hn1, Nat.zero_add, Nat.mod_eq_of_lt hn] at h1
  have hc2 : (run (atualizarSensores ts leitura1 HIGH s0) ops).caixaCheia = false :=
    congrArg Prod.fst h1
  have hi2 : (run (atualizarSensores ts leitura1 HIGH s0) ops).inicioCicloEnchimentoMillis
      = millis ts := congrArg (fun p => p.2.1) h1
  have hn2 : (run (atualizarSensores ts leitura1 HIGH s0) ops).ciclosParciaisNesteEnchimento
      = partidas (atualizarSensores ts leitura1 HIGH s0) ops := congrArg (fun p => p.2.2) h1
  have hlast : completaEnchimento LOW (run (atualizarSensores ts leitura1 HIGH s0) ops) :=
    ⟨hc2, rfl, by rw [hi2]; exact Nat.pos_of_ne_zero hms⟩
  have hreg : registroDe te (run (atualizarSensores ts leitura1 HIGH s0) ops)
      = ⟨(te - ts) / 1000, partidas (atualizarSensores ts leitura1 HIGH s0) ops⟩ := by
    simp only [registroDe, hi2, hn2, subU32_millis_sub ts te hle hdur]
  have hh := atualizarSensores_historia te leitura2 LOW
    (run (atualizarSensores ts leitura1 HIGH s0) ops)
  rw [if_pos hlast, hreg] at hh
  have hcomp := atualizarSensores_completos te leitura2 LOW
    (run (atualizarSensores ts leitura1 HIGH s0) ops)
  rw [if_pos hlast] at hcomp
  refine ⟨congrArg Prod.fst hh, congrArg Prod.snd hh, hcomp, ?_⟩
  intro hz
  obtain ⟨h3, h4⟩ := run_sem_registro ops (atualizarSensores ts leitura1 HIGH s0) hz hops
  have hfirst : ¬ completaEnchimento HIGH s0 := by
    simp [completaEnchimento, HIGH, LOW]
  have h5 := atualizarSensores_historia ts leitura1 HIGH s0
  rw [if_neg hfirst] at h5
  have h6 := atualizarSensores_completos ts leitura1 HIGH s0
  rw [if_neg hfirst] at h6
  have h7 := h3.trans h5
  exact ⟨congrArg Prod.fst h7, congrArg Prod.snd h7, h4.trans h6⟩

/-- C11 (witness). On a freshly booted device whose tank was read full, the
tank is seen going from full to empty at `t = 1000`, the compressor is started
three times and the tank is seen full at `t = 51000`: slot 0 of the history
receives `{tempo: 50, ciclosParciais: 3}`, the cursor goes to 1 and one
completed fill is counted. -/
theorem C11_fill_record_duration_and_cycles_witness :
    estadoCaixaCheia.caixaCheia = true ∧
    millis 1000 ≠ 0 ∧
    1000 ≤ 51000 ∧
    51000 - 1000 < U32 ∧
    (∀ op ∈ opsTresPartidas, op.caixaNaoCheia = true) ∧
    partidas (atualizarSensores 1000 25 HIGH estadoCaixaCheia) opsTresPartidas = 3 ∧
    (atualizarSensores 51000 25 LOW
        (run (atualizarSensores 1000 25 HIGH estadoCaixaCheia)
          opsTresPartidas)).historicoEnchimento
      = [⟨50, 3⟩, ⟨0, 0⟩, ⟨0, 0⟩, ⟨0, 0⟩, ⟨0, 0⟩] ∧
    (atualizarSensores 51000 25 LOW
        (run (atualizarSensores 1000 25 HIGH estadoCaixaCheia)
          opsTresPartidas)).indiceHistoricoEnchimento = 1 ∧
    (atualizarSensores 51000 25 LOW
        (run (atualizarSensores 1000 25 HIGH estadoCaixaCheia)
          opsTresPartidas)).ciclosEnchimentoCompletos = 1 := by
  have hfull : estadoCaixaCheia.caixaCheia = true := by
    unfold estadoCaixaCheia
    rw [atualizarSensores_caixaCheia]
    rfl
  have hms : millis 1000 ≠ 0 := by decide
  have hdur : 51000 - 1000 < U32 := by decide
  have hops : ∀ op ∈ opsTresPartidas, op.caixaNaoCheia = true := by
    simp [opsTresPartidas, Op.caixaNaoCheia]
  have hz : ∀ op ∈ opsTresPartidas, op.zera = false := by
    simp [opsTresPartidas, Op.zera]
  have hp : partidas (atualizarSensores 1000 25 HIGH estadoCaixaCheia) opsTresPartidas = 3 := by
    simp [estadoCaixaCheia, opsTresPartidas, partidas, step, setup, globais,
      carregarConfiguracoesOperacao, prefsVazias, atualizarSensores, lerTemperatura, lerCaixa,
      protecaoTemperatura, protecaoCaixaCheia, handleLigar, handleDesligar, ligarCompressor,
      desligarCompressor, HIGH, LOW, sensorEnabled, DEVICE_DISCONNECTED_C, millis, U32, incU32]
    norm_num
  have h0 : estadoCaixaCheia.historicoEnchimento = historicoZerado ∧
      estadoCaixaCheia.indiceHistoricoEnchimento = 0 ∧
      estadoCaixaCheia.ciclosEnchimentoCompletos = 0 := by
    simp [estadoCaixaCheia, setup, globais, carregarConfiguracoesOperacao, prefsVazias,
      atualizarSensores, lerTemperatura, lerCaixa, protecaoTemperatura, protecaoCaixaCheia,
      desligarCompressor, HIGH, LOW, sensorEnabled, DEVICE_DISCONNECTED_C]
  obtain ⟨k1, k2, k3, k4⟩ := C11_fill_record_duration_and_cycles estadoCaixaCheia 1000 51000
    25 25 opsTresPartidas hfull hms (by decide) hdur hops (by rw [hp]; decide)
  obtain ⟨k5, k6, k7⟩ := k4 hz
  rw [hp, k5, k6, h0.1] at k1
  rw [k6, h0.2.1] at k2
  rw [k7, h0.2.2] at k3
  refine ⟨hfull, hms, by decide, hdur, hops, hp, ?_, ?_, ?_⟩
  · rw [k1]
    decide
  · rw [k2]
    decide
  · rw [k3]
    decide

/-! ## C12: the duty cycle 600000 / 100000 tick by tick -/

theorem subU32_millis_small (t u : Nat) (ht : t < U32) (hu : u ≤ t) :
    subU32 (millis t) u = t - u := by
  unfold subU32 millis U32 at *
  omega

theorem millis_small (t : Nat) (ht : t < U32) : millis t = t := by
  unfold millis
  exact Nat.mod_eq_of_lt ht

theorem loopTick_desligado_espera (t u : Nat) (l M : ℚ) (s : State) (h : Fase s false u M)
    (hv : l ≠ DEVICE_DISCONNECTED_C) (hl : l < M) (ht : t < U32) (hu : u ≤ t)
    (hd : t - u < 100000) : Fase (loopTick t t l HIGH s) false u M := by
  obtain ⟨tl, td, tm, cl, mm, cc, ta, cpo, utc, usm, icm, icem, dpta, he, ihe, cec, cpne, pr,
    er, pf, gv⟩ := s
  obtain ⟨h1, h2, h3, h4, h5, h6, h7⟩ := h
  simp only at h1 h2 h3 h4 h5 h6 h7
  subst h1 h2 h3 h4 h5 h6 h7
  have hs := subU32_millis_small t utc ht hu
  have h8 : ¬ tm ≤ l := not_le.mpr hl
  have h9 : ¬ (100000 ≤ t - utc) := by omega
  cases cc <;>
    simp [Fase, loopTick, atualizarSensores, lerTemperatura, lerCaixa, protecaoTemperatura,
      protecaoCaixaCheia, controleAutomatico, avaliarCondicoes, decisaoTemporizada,
      sensorEnabled, hv, HIGH, h8, hs, h9]

theorem loopTick_desligado_liga (t u : Nat) (l M : ℚ) (s : State) (h : Fase s false u M)
    (hv : l ≠ DEVICE_DISCONNECTED_C) (hl : l < M) (ht : t < U32) (hu : u ≤ t)
    (hd : 100000 ≤ t - u) : Fase (loopTick t t l HIGH s) true t M := by
  obtain ⟨tl, td, tm, cl, mm, cc, ta, cpo, utc, usm, icm, icem, dpta, he, ihe, cec, cpne, pr,
    er, pf, gv⟩ := s
  obtain ⟨h1, h2, h3, h4, h5, h6, h7⟩ := h
  simp only at h1 h2 h3 h4 h5 h6 h7
  subst h1 h2 h3 h4 h5 h6 h7
  have hs := subU32_millis_small t utc ht hu
  have hm := millis_small t ht
  have hs' : subU32 t utc = t - utc := by rw [hm] at hs; exact hs
  have h8 : ¬ tm ≤ l := not_le.mpr hl
  cases cc <;>
    simp [Fase, loopTick, atualizarSensores, lerTemperatura, lerCaixa, protecaoTemperatura,
      protecaoCaixaCheia, controleAutomatico, avaliarCondicoes, decisaoTemporizada,
      ligarCompressor, sensorEnabled, hv, HIGH, h8, hs, hs', hd, hl, hm]
  all_goals (split_ifs <;> simp)

theorem loopTick_ligado_mantem (t u : Nat) (l M : ℚ) (s : State) (h : Fase s true u M)
    (hv : l ≠ DEVICE_DISCONNECTED_C) (hl : l < M) (ht : t < U32) (hu : u ≤ t)
    (hd : t - u < 600000) : Fase (loopTick t t l HIGH s) true u M := by
  obtain ⟨tl, td, tm, cl, mm, cc, ta, cpo, utc, usm, icm, icem, dpta, he, ihe, cec, cpne, pr,
    er, pf, gv⟩ := s
  obtain ⟨h1, h2, h3, h4, h5, h6, h7⟩ := h
  simp only at h1 h2 h3 h4 h5 h6 h7
  subst h1 h2 h3 h4 h5 h6 h7
  have hs := subU32_millis_small t utc ht hu
  have h8 : ¬ tm ≤ l := not_le.mpr hl
  have h9 : ¬ (600000 ≤ t - utc) := by omega
  cases cc <;>
    simp [Fase, loopTick, atualizarSensores, lerTemperatura, lerCaixa, protecaoTemperatura,
      protecaoCaixaCheia, controleAutomatico, avaliarCondicoes, decisaoTemporizada,
      sensorEnabled, hv, HIGH, h8, hs, h9]

theorem loopTick_ligado_desliga (t u : Nat) (l M : ℚ) (s : State) (h : Fase s true u M)
    (hv : l ≠ DEVICE_DISCONNECTED_C) (hl : l < M) (ht : t < U32) (hu : u ≤ t)
    (hd : 600000 ≤ t - u) : Fase (loopTick t t l HIGH s) false t M := by
  obtain ⟨tl, td, tm, cl, mm, cc, ta, cpo, utc, usm, icm, icem, dpta, he, ihe, cec, cpne, pr,
    er, pf, gv⟩ := s
  obtain ⟨h1, h2, h3, h4, h5, h6, h7⟩ := h
  simp only at h1 h2 h3 h4 h5 h6 h7
  subst h1 h2 h3 h4 h5 h6 h7
  have hs := subU32_millis_small t utc ht hu
  have hm := millis_small t ht
  have hs' : subU32 t utc = t - utc := by rw [hm] at hs; exact hs
  have h8 : ¬ tm ≤ l := not_le.mpr hl
  cases cc <;>
    simp [Fase, loopTick, atualizarSensores, lerTemperatura, lerCaixa, protecaoTemperatura,
      protecaoCaixaCheia, controleAutomatico, avaliarCondicoes, decisaoTemporizada,
      desligarCompressor, salvar_compressorLigado, salvar_utc, salvar_modoManual, salvar_latch,
      salvar_tempoLigado, salvar_tempoDescanso, salvar_temperaturaMaxima,
      sensorEnabled, hv, HIGH, h8, hs, hs', hd, hm]

/-- The phase of the duty cycle after the passes `0 .. n - 1`. -/
theorem simular_fase (leituras : Nat → ℚ) (s : State) (M : ℚ) (h0 : Fase s false 0 M)
    (hl : ∀ t, leituras t ≠ DEVICE_DISCONNECTED_C ∧ leituras t < M) (n : Nat) :
    (n ≤ 100000 → Fase (simular leituras s n) false 0 M) ∧
    (100000 < n → n ≤ 700000 → Fase (simular leituras s n) true 100000 M) ∧
    (700000 < n → n ≤ 800000 → Fase (simular leituras s n) false 700000 M) ∧
    (n = 800001 → Fase (simular leituras s n) true 800000 M) := by
  induction n with
  | zero =>
    refine ⟨fun _ => h0, ?_, ?_, ?_⟩ <;> intros <;> omega
  | succ n ih =>
    obtain ⟨ih1, ih2, ih3, _⟩ := ih
    have hstep : simular leituras s (n + 1)
        = loopTick n n (leituras n) HIGH (simular leituras s n) := rfl
    rw [hstep]
    refine ⟨?_, ?_, ?_, ?_⟩
    · intro hn
      exact loopTick_desligado_espera n 0 _ M _ (ih1 (by omega)) (hl n).1 (hl n).2
        (by unfold U32; omega) (by omega) (by omega)
    · intro hn1 hn2
      by_cases hn : n = 100000
      · subst hn
        exact loopTick_desligado_liga 100000 0 _ M _ (ih1 (le_refl _)) (hl _).1 (hl _).2
          (by decide) (by decide) (by decide)
      · exact loopTick_ligado_mantem n 100000 _ M _ (ih2 (by omega) (by omega)) (hl n).1
          (hl n).2 (by unfold U32; omega) (by omega) (by omega)
    · intro hn1 hn2
      by_cases hn : n = 700000
      · subst hn
        exact loopTick_ligado_desliga 700000 100000 _ M _ (ih2 (by decide) (le_refl _))
          (hl _).1 (hl _).2 (by decide) (by decide) (by decide)
      · exact loopTick_desligado_espera n 700000 _ M _ (ih3 (by omega) (by omega)) (hl n).1
          (hl n).2 (by unfold U32; omega) (by omega) (by omega)
    · intro hn
      have hn' : n = 800000 := by omega
      subst hn'
      exact loopTick_desligado_liga 800000 700000 _ M _ (ih3 (by decide) (le_refl _))
        (hl _).1 (hl _).2 (by decide) (by decide) (by decide)

/-- C12. With `tempoLigado = 600000`, `tempoDescanso = 100000`, the compressor
off, `ultimoTempoControle = 0`, automatic mode and the latch clear at `t = 0`,
and one loop pass every millisecond `t = 0, 1, 2, ...` whose temperature read
is valid and below the ceiling and whose tank switch reads not full: the
compressor is off after every pass `t < 100000`, on after every pass
`100000 ≤ t < 700000`, off after every pass `700000 ≤ t < 800000` and on after
the pass `t = 800000`. -/
theorem C12_duty_cycle_scenario (leituras : Nat → ℚ) (s : State)
    (hon : s.tempoLigado = 600000) (hrest : s.tempoDescanso = 100000)
    (hoff : s.compressorLigado = false) (hutc : s.ultimoTempoControle = 0)
    (hauto : s.modoManual = false) (hlatch : s.desligadoPorTemperaturaAlta = false)
    (hl : ∀ t, leituras t ≠ DEVICE_DISCONNECTED_C ∧ leituras t < s.temperaturaMaxima) :
    (∀ t, t < 100000 → (simular leituras s (t + 1)).compressorLigado = false) ∧
    (∀ t, 100000 ≤ t → t < 700000 → (simular leituras s (t + 1)).compressorLigado = true) ∧
    (∀ t, 700000 ≤ t → t < 800000 → (simular leituras s (t + 1)).compressorLigado = false) ∧
    (simular leituras s (800000 + 1)).compressorLigado = true := by
  have h0 : Fase s false 0 s.temperaturaMaxima := ⟨hoff, hutc, hauto, hlatch, hon, hrest, rfl⟩
  have key := simular_fase leituras s s.temperaturaMaxima h0 hl
  refine ⟨?_, ?_, ?_, ?_⟩
  · intro t ht
    exact ((key (t + 1)).1 (by omega)).1
  · intro t ht1 ht2
    exact ((key (t + 1)).2.1 (by omega) (by omega)).1
  · intro t ht1 ht2
    exact ((key (t + 1)).2.2.1 (by omega) (by omega)).1
  · exact ((key (800000 + 1)).2.2.2 rfl).1

/-- C12 (witness). A freshly booted device (default parameters, ceiling 60)
read at 25 degrees on every pass: off after the pass `t = 99999`, on after
`t = 100000` and `t = 699999`, off after `t = 700000` and `t = 799999`, on
after `t = 800000`. -/
theorem C12_duty_cycle_scenario_witness :
    (setup true prefsVazias 0).tempoLigado = 600000 ∧
    (setup true prefsVazias 0).tempoDescanso = 100000 ∧
    (setup true prefsVazias 0).compressorLigado = false ∧
    (setup true prefsVazias 0).ultimoTempoControle = 0 ∧
    (setup true prefsVazias 0).modoManual = false ∧
    (setup true prefsVazias 0).desligadoPorTemperaturaAlta = false ∧
    (∀ t : Nat, (fun _ => (25 : ℚ)) t ≠ DEVICE_DISCONNECTED_C ∧
      (fun _ => (25 : ℚ)) t < (setup true prefsVazias 0).temperaturaMaxima) ∧
    (simular (fun _ => 25) (setup true prefsVazias 0) (99999 + 1)).compressorLigado = false ∧
    (simular (fun _ => 25) (setup true prefsVazias 0) (100000 + 1)).compressorLigado = true ∧
    (simular (fun _ => 25) (setup true prefsVazias 0) (699999 + 1)).compressorLigado = true ∧
    (simular (fun _ => 25) (setup true prefsVazias 0) (700000 + 1)).compressorLigado = false ∧
    (simular (fun _ => 25) (setup true prefsVazias 0) (799999 + 1)).compressorLigado = false ∧
    (simular (fun _ => 25) (setup true prefsVazias 0) (800000 + 1)).compressorLigado = true := by
  have e1 : (setup true prefsVazias 0).tempoLigado = 600000 := by
    simp [setup, globais, carregarConfiguracoesOperacao, prefsVazias]
  have e2 : (setup true prefsVazias 0).tempoDescanso = 100000 := by
    simp [setup, globais, carregarConfiguracoesOperacao, prefsVazias]
  have e3 : (setup true prefsVazias 0).compressorLigado = false :=
    setup_compressorLigado true prefsVazias 0
  have e4 : (setup true prefsVazias 0).ultimoTempoControle = 0 := by
    simp [setup, globais, carregarConfiguracoesOperacao, prefsVazias, millis]
  have e5 : (setup true prefsVazias 0).modoManual = false := by
    simp [setup, globais, carregarConfiguracoesOperacao, prefsVazias]
  have e6 : (setup true prefsVazias 0).desligadoPorTemperaturaAlta = false := by
    simp [setup, globais, carregarConfiguracoesOperacao, prefsVazias]
  have e7 : ∀ t : Nat, (fun _ => (25 : ℚ)) t ≠ DEVICE_DISCONNECTED_C ∧
      (fun _ => (25 : ℚ)) t < (setup true prefsVazias 0).temperaturaMaxima := by
    intro t
    simp [setup, globais, carregarConfiguracoesOperacao, prefsVazias, DEVICE_DISCONNECTED_C]
    norm_num
  have k := C12_duty_cycle_scenario (fun _ => 25) (setup true prefsVazias 0)
    e1 e2 e3 e4 e5 e6 e7
  exact ⟨e1, e2, e3, e4, e5, e6, e7, k.1 99999 (by decide), k.2.1 100000 (by decide) (by decide),
    k.2.1 699999 (by decide) (by decide), k.2.2.1 700000 (by decide) (by decide),
    k.2.2.1 799999 (by decide) (by decide), k.2.2.2⟩

/-! ## C21: minutes to milliseconds in `handleConfig` -/

/-- In the range `1 ≤ m ≤ 71582` the 32-bit product is the true product
`m * 60000`, and it passes both validations. -/
theorem minutosParaMillis_exato (m : Int) (h1 : 1 ≤ m) (h2 : m ≤ 71582) :
    (minutosParaMillis m : Int) = m * 60000 ∧ minutosParaMillis m ≥ 60000 := by
  unfold minutosParaMillis U32
  have h3 : (m * 60000) % ((4294967296 : Nat) : Int) = m * 60000 := by
    apply Int.emod_eq_of_lt <;> omega
  rw [h3]
  constructor
  · exact Int.toNat_of_nonneg (by omega)
  · omega

/-- C21 (evaluation of the code where the claim fails). On a freshly booted
device: `tempoligado = -1` is accepted and stores `tempoLigado = 4294907296`
(the product modulo `2 ^ 32`); `tempodescanso = 71583` is accepted and stores
`tempoDescanso = 12704`, while `71583 * 60000 = 4294980000`; and
`tempoligado = 71583`, although at least 1, is rejected. -/
theorem C21_negative_and_wrapped_minutes :
    (handleConfig 5000 (some (-1)) none none (setup true prefsVazias 0)).2
      = Resposta.configuracoesSalvas ∧
    (handleConfig 5000 (some (-1)) none none (setup true prefsVazias 0)).1.tempoLigado
      = 4294907296 ∧
    (handleConfig 5000 none (some 71583) none (setup true prefsVazias 0)).2
      = Resposta.configuracoesSalvas ∧
    (handleConfig 5000 none (some 71583) none (setup true prefsVazias 0)).1.tempoDescanso
      = 12704 ∧
    (71583 : Int) * 60000 = 4294980000 ∧
    (handleConfig 5000 (some 71583) none none (setup true prefsVazias 0)).2
      = Resposta.nenhumaAlteracao ∧
    (handleConfig 5000 (some 71583) none none (setup true prefsVazias 0)).1.tempoLigado
      = 600000 := by
  have m1 : minutosParaMillis (-1) = 4294907296 := by decide
  have m2 : minutosParaMillis 71583 = 12704 := by decide
  simp [handleConfig, m1, m2, salvarConfiguracoesOperacao, setup, globais,
    carregarConfiguracoesOperacao, prefsVazias, millis, subU32, U32, SAVE_INTERVAL]

/-! ## C22: the history cursor stays inside the array -/

theorem handleZerarCiclos_historia (t : Nat) (s : State) :
    historia (handleZerarCiclos t s).1 = (historicoZerado, 0) := by
  simp only [handleZerarCiclos]
  rw [salvar_historia]
  rfl

theorem escreverSlot_length (h : List EnchimentoInfo) (i : Int) (e : EnchimentoInfo) :
    (escreverSlot h i e).length = h.length := by
  unfold escreverSlot
  split_ifs
  · exact List.length_set _ _ _
  · rfl

theorem noArray_avanca (c : Int) (h : NoArray c) :
    NoArray (Int.tmod (c + 1) TAMANHO_HISTORICO_ENCHIMENTO) := by
  unfold NoArray TAMANHO_HISTORICO_ENCHIMENTO at *
  obtain ⟨h1, h2⟩ := h
  rw [Int.tmod_eq_emod (by omega) (by decide)]
  constructor <;> omega

theorem noArray_indiceStatus (c : Int) (i : Nat) (h : NoArray c)
    (hi : i < TAMANHO_HISTORICO_ENCHIMENTO) : NoArray (indiceStatus c i) := by
  unfold NoArray indiceStatus TAMANHO_HISTORICO_ENCHIMENTO at *
  obtain ⟨h1, h2⟩ := h
  rw [Int.tmod_eq_emod (by omega) (by decide)]
  constructor <;> omega

theorem step_cursorOk (s : State) (op : Op) (h : CursorOk s) : CursorOk (step s op) := by
  obtain ⟨h1, h2⟩ := h
  by_cases hz : op.zera = false
  · have hs := step_historia s op hz
    have e1 : (step s op).historicoEnchimento = (historia (step s op)).1 := rfl
    have e2 : (step s op).indiceHistoricoEnchimento = (historia (step s op)).2 := rfl
    unfold CursorOk
    rw [e1, e2, hs]
    cases enchimentoRegistrado s op with
    | none => exact ⟨h1, h2⟩
    | some r => exact ⟨by rw [escreverSlot_length]; exact h1, noArray_avanca _ h2⟩
  · cases op with
    | handleZerarCiclos t =>
      have hs := handleZerarCiclos_historia t s
      have e1 : (step s (.handleZerarCiclos t)).historicoEnchimento
          = (historia (handleZerarCiclos t s).1).1 := rfl
      have e2 : (step s (.handleZerarCiclos t)).indiceHistoricoEnchimento
          = (historia (handleZerarCiclos t s).1).2 := rfl
      unfold CursorOk
      rw [e1, e2, hs]
      refine ⟨by simp [historicoZerado], ?_⟩
      unfold NoArray TAMANHO_HISTORICO_ENCHIMENTO
      constructor <;> decide
    | atualizarSensores t leitura pinoCaixa => exact absurd rfl hz
    | controleAutomatico t => exact absurd rfl hz
    | handleLigar t => exact absurd rfl hz
    | handleDesligar t => exact absurd rfl hz
    | handleAutomatico t => exact absurd rfl hz
    | handleConfig t a b c => exact absurd rfl hz

theorem run_cursorOk (ops : List Op) : ∀ s : State, CursorOk s → CursorOk (run s ops) := by
  induction ops with
  | nil => intro s h; exact h
  | cons op ops ih => intro s h; exact ih (step s op) (step_cursorOk s op h)

/-- C22. If after boot loading the history has its 5 slots and the cursor is
in `0..4`, then in every state reached by any operations (`atualizarSensores`,
`handleZerarCiclos` and all the others) the history still has 5 slots and the
cursor is in `0..4`, and so is every index `(cursor - 1 - i + 5) % 5`, `i` in
`0..4`, read by the second loop of `handleStatus`. The slot written by
`atualizarSensores` is the one under the cursor and the first loop of
`handleStatus` reads the slots `0..4`, so every access is inside the array. -/
theorem C22_cursor_stays_in_array (s0 : State) (ops : List Op)
    (hlen : s0.historicoEnchimento.length = 5)
    (hlo : 0 ≤ s0.indiceHistoricoEnchimento) (hhi : s0.indiceHistoricoEnchimento < 5) :
    (run s0 ops).historicoEnchimento.length = 5 ∧
    0 ≤ (run s0 ops).indiceHistoricoEnchimento ∧
    (run s0 ops).indiceHistoricoEnchimento < 5 ∧
    (∀ i : Nat, i < 5 →
      0 ≤ indiceStatus (run s0 ops).indiceHistoricoEnchimento i ∧
      indiceStatus (run s0 ops).indiceHistoricoEnchimento i < 5) := by
  have h0 : CursorOk s0 := ⟨hlen, hlo, hhi⟩
  obtain ⟨h1, h2⟩ := run_cursorOk ops s0 h0
  refine ⟨h1, h2.1, h2.2, ?_⟩
  intro i hi
  exact noArray_indiceStatus _ i h2 hi

/-- C22 (witness). A device booted on a store holding a 5-slot history and no
saved cursor (cursor 0), after the seven fills: the cursor and the five indexes
read by the status are inside the array. -/
theorem C22_cursor_stays_in_array_witness :
    (setup true prefsDoisEnchimentos 0).historicoEnchimento.length = 5 ∧
    0 ≤ (setup true prefsDoisEnchimentos 0).indiceHistoricoEnchimento ∧
    (setup true prefsDoisEnchimentos 0).indiceHistoricoEnchimento < 5 ∧
    ((run (setup true prefsDoisEnchimentos 0) opsSeteEnchimentos).historicoEnchimento.length
        = 5 ∧
      0 ≤ (run (setup true prefsDoisEnchimentos 0)
        opsSeteEnchimentos).indiceHistoricoEnchimento ∧
      (run (setup true prefsDoisEnchimentos 0)
        opsSeteEnchimentos).indiceHistoricoEnchimento < 5 ∧
      (∀ i : Nat, i < 5 →
        0 ≤ indiceStatus (run (setup true prefsDoisEnchimentos 0)
          opsSeteEnchimentos).indiceHistoricoEnchimento i ∧
        indiceStatus (run (setup true prefsDoisEnchimentos 0)
          opsSeteEnchimentos).indiceHistoricoEnchimento i < 5)) := by
  have hlen : (setup true prefsDoisEnchimentos 0).historicoEnchimento.length = 5 := by
    simp [setup, globais, carregarConfiguracoesOperacao, prefsDoisEnchimentos, prefsVazias]
  have hidx : (setup true prefsDoisEnchimentos 0).indiceHistoricoEnchimento = 0 := by
    simp [setup, globais, carregarConfiguracoesOperacao, prefsDoisEnchimentos, prefsVazias]
  have hlo : 0 ≤ (setup true prefsDoisEnchimentos 0).indiceHistoricoEnchimento := by
    rw [hidx]
  have hhi : (setup true prefsDoisEnchimentos 0).indiceHistoricoEnchimento < 5 := by
    rw [hidx]; decide
  exact ⟨hlen, hlo, hhi,
    C22_cursor_stays_in_array (setup true prefsDoisEnchimentos 0) opsSeteEnchimentos
      hlen hlo hhi⟩

end Compressor
